import Mathlib

/-!
# GoOdf: loading an organ definition file

A shallow embedding of `src/OrganFileParser.cpp`.  The parser object is a record that is
passed from statement to statement; the `wxFileConfig` it reads from is split into its
immutable content (`Env`, the answers of the store for a given path cursor) and its mutable
path cursor (`OrganFileParser.m_path`).  The classes the parser fills in (`Organ`, `Manual`,
`GoPanel`, `GUIElement`, ...) are declared outside the translated file; they are modelled by
what the parser does with them: append to an ordered collection, count it, look a member up by
position.

A pointer to an entity is modelled by a handle (`EntityRef`): the collection and the position
in it.  A lookup outside a collection and a call through a null pointer are undefined in the
source; the model records them in `m_fault` and stops there.
-/

namespace GoOdf

/-! ## wxString operations -/

/-- Scan for `sub` in the remaining characters, `n` being the position of the first of them. -/
def findAux (sub : List Char) : List Char → Nat → Int
  | [], n => if sub = [] then (n : Int) else -1
  | c :: cs, n => if sub.isPrefixOf (c :: cs) = true then (n : Int) else findAux sub cs (n + 1)

/-- The call `s.Find(sub)`: position of the first occurrence of `sub`, or -1 (wxNOT_FOUND). -/
def wxFind (s sub : String) : Int := findAux sub.data s.data 0

/-- The call `s.Mid(first, count)`. -/
def wxMid (s : String) (first count : Nat) : String := ⟨(s.data.drop first).take count⟩

/-- The call `s.StartsWith(p)`. -/
def wxStartsWith (s p : String) : Bool := p.data.isPrefixOf s.data

/-- The call `s.Len()`. -/
def wxLen (s : String) : Nat := s.data.length

/-- The call `s.IsSameAs(t, false)`: comparison that ignores case. -/
def wxIsSameAsNoCase (s t : String) : Bool := s.data.map Char.toLower == t.data.map Char.toLower

/-! ## Data model -/

/-- The organ-level entity collections that are read by a counted loop of the same shape. -/
inductive EntityKind
  | enclosure | switch | tremulant | windchestgroup | rank
  | reversiblePiston | divisionalCoupler | general
  deriving DecidableEq, Repr

/-- The three per-division collections. -/
inductive SlotKind
  | stop | coupler | divisional
  deriving DecidableEq, Repr

/-- What the parser uses of an entity: its name and its is-displayed flag. -/
structure Entity where
  name : String
  displayed : Bool
  deriving DecidableEq, Repr

/-- What `Manual::read` takes from the file. -/
structure ManualContents where
  name : String
  displayed : Bool
  stops : List Entity
  couplers : List Entity
  divisionals : List Entity
  deriving DecidableEq, Repr

/-- A division: the pedal flag, written by `setIsPedal` only, and the contents read from the file. -/
structure Manual where
  isPedal : Bool
  contents : ManualContents
  deriving DecidableEq, Repr

/-- A handle for an entity owned by the organ: collection and 0-based position. -/
inductive EntityRef
  | organ (k : EntityKind) (idx : Nat)
  | manual (idx : Nat)
  | slot (k : SlotKind) (manualIdx : Nat) (idx : Nat)
  deriving DecidableEq, Repr

/-- The C++ class of a panel element. -/
inductive ElementClass
  | GUIEnclosure | GUITremulant | GUISwitch | GUILabel | GUIManual | GUIReversiblePiston
  | GUIDivisionalCoupler | GUIGeneral | GUIDivisional | GUICoupler | GUIStop
  deriving DecidableEq, Repr

/-- The element type string an element of a class starts with. -/
def ElementClass.typeName : ElementClass → String
  | .GUIEnclosure => "Enclosure"
  | .GUITremulant => "Tremulant"
  | .GUISwitch => "Switch"
  | .GUILabel => "Label"
  | .GUIManual => "Manual"
  | .GUIReversiblePiston => "ReversiblePiston"
  | .GUIDivisionalCoupler => "DivisionalCoupler"
  | .GUIGeneral => "General"
  | .GUIDivisional => "Divisional"
  | .GUICoupler => "Coupler"
  | .GUIStop => "Stop"

/-- A panel element: its class, its type string (`setType`), its display name, the entity it is
bound to (`none` for a null pointer and for a label), and the section its own fields were read
from by its `read`. -/
structure GUIElement where
  cls : ElementClass
  m_type : String
  m_displayName : String
  target : Option EntityRef
  readFrom : String
  deriving DecidableEq, Repr

/-- An image of a panel, known by the section it was read from. -/
structure GoImage where
  readFrom : String
  deriving DecidableEq, Repr

/-- A panel: the sections its display metrics and its own keys were read from, its images and its
ordered element list. -/
structure GoPanel where
  metricsFrom : Option String
  readFrom : Option (String × String)
  m_images : List GoImage
  m_guiElements : List GUIElement
  deriving DecidableEq, Repr

/-- The organ. The main panel is created with the organ, so `getOrganPanelAt(0)` always exists;
`addPanel` appends to `m_extraPanels`, panel `j + 1` being `m_extraPanels[j]`. -/
structure Organ where
  m_odfRoot : String
  m_churchName : String
  m_churchAddress : String
  m_organBuilder : String
  m_organBuildDate : String
  m_organComments : String
  m_recordingDetails : String
  m_infoFilename : String
  m_divisionalsStoreIntermanualCouplers : Bool
  m_divisionalsStoreIntramanualCouplers : Bool
  m_divisionalsStoreTremulants : Bool
  m_generalsStoreDivisionalCouplers : Bool
  m_combinationsStoreNonDisplayedDrawstops : Bool
  m_amplitudeLevel : Rat
  m_gain : Rat
  m_pitchTuning : Rat
  m_pitchCorrection : Rat
  m_trackerDelay : Nat
  m_hasPedals : Bool
  m_entities : EntityKind → List Entity
  m_Manuals : List Manual
  m_mainPanel : GoPanel
  m_extraPanels : List GoPanel

/-- The collaborators of the parser that are not part of the translated file: the content of the
`wxFileConfig` store, every answer depending on the path cursor it is asked at (first argument),
the `read` methods of the entity classes, and the helpers of `GOODF_functions`. -/
structure Env where
  /-- The call `HasGroup(name)` with the cursor at the first argument. -/
  hasGroup : String → String → Bool
  /-- The call `Read(key, default)`. -/
  read : String → String → String → String
  /-- The call `static_cast<int>(ReadLong(key, default))`; for the key `TrackerDelay` the `long`
  itself, which line 112 does not cast. -/
  readLong : String → String → Int → Int
  /-- The call `static_cast<float>(ReadDouble(key, default))`. -/
  readDouble : String → String → Rat → Rat
  /-- The helper `GOODF_functions::number_format`. -/
  number_format : Int → String
  /-- The helper `GOODF_functions::parseBoolean(value, default)`. -/
  parseBoolean : String → Bool → Bool
  /-- The helper `GOODF_functions::checkIfFileExist`. -/
  checkIfFileExist : String → String
  /-- The directory part of a file path, `wxFileName(path).GetPath()`. -/
  fileDirectory : String → String
  /-- The call `s.ToLong(&value)`: the number, or `none` when the call returns false. -/
  toLong : String → Option Int
  /-- The `read` method of an organ-level entity, at a cursor, given the panel format flag. -/
  readEntity : EntityKind → String → Bool → Entity
  /-- The method `Manual::read`, at a cursor, given the panel format flag and the pedal flag. -/
  readManual : String → Bool → Bool → ManualContents
  /-- The method `GoImage::read`: `none` when it returns false. -/
  readImage : String → Option GoImage
  /-- The vocabulary `getSetterElements()` of the organ of the application frame. -/
  setterElements : List String
  /-- The value `::wxGetApp().m_frame->m_organ->getNumberOfManuals()` during the load. -/
  frameOrganNumberOfManuals : Int

/-- The collections a lookup by position can address. -/
inductive Collection
  | manuals
  | entities (k : EntityKind)
  | slots (k : SlotKind) (manualIdx : Nat)
  | guiElements (panel : Nat)
  deriving DecidableEq, Repr

/-- One lookup by position: the collection, the index used and the size of the collection at that
moment. -/
structure Lookup where
  coll : Collection
  index : Int
  size : Nat
  deriving DecidableEq, Repr

/-- The parser object. `m_path` is the path cursor of `m_organFile`. The last three fields are
not in the source: `m_fault` is set when the source would look up outside a collection or call
through a null pointer (nothing is executed after that), `consulted` lists the `HasGroup` calls
made, each with the cursor it was made at, and `lookups` lists the lookups by position. -/
structure OrganFileParser where
  m_filePath : String
  m_organ : Organ
  m_path : String
  m_fileIsOk : Bool
  m_organIsReady : Bool
  m_isUsingOldPanelFormat : Bool
  m_errorMessage : String
  m_fault : Bool
  consulted : List (String × String)
  lookups : List Lookup

/-! ## Organ and panel operations -/

/-- Element at an `int` position of a list, `none` outside `[0, size)`. -/
def getAt {α : Type} (l : List α) (i : Int) : Option α :=
  if 0 ≤ i then l.get? i.toNat else none

/-- Apply `f` to the member at position `n`, if there is one. -/
def modifyAt {α : Type} (f : α → α) : List α → Nat → List α
  | [], _ => []
  | a :: as, 0 => f a :: as
  | a :: as, n + 1 => a :: modifyAt f as n

/-- Apply `f` to the last member, if there is one. -/
def modifyLast {α : Type} (f : α → α) : List α → List α
  | [] => []
  | [a] => [f a]
  | a :: b :: as => a :: modifyLast f (b :: as)

/-- The method `GoPanel::addGuiElement`. -/
def GoPanel.addGuiElement (pnl : GoPanel) (e : GUIElement) : GoPanel :=
  { pnl with m_guiElements := pnl.m_guiElements ++ [e] }

/-- The method `GoPanel::addImage`. -/
def GoPanel.addImage (pnl : GoPanel) (img : GoImage) : GoPanel :=
  { pnl with m_images := pnl.m_images ++ [img] }

/-- The panel at a position, `getOrganPanelAt`. -/
def Organ.getOrganPanelAt (o : Organ) : Nat → Option GoPanel
  | 0 => some o.m_mainPanel
  | j + 1 => o.m_extraPanels.get? j

/-- Change the panel at a position. -/
def Organ.modifyPanel (o : Organ) (f : GoPanel → GoPanel) : Nat → Organ
  | 0 => { o with m_mainPanel := f o.m_mainPanel }
  | j + 1 => { o with m_extraPanels := modifyAt f o.m_extraPanels j }

/-- The methods `addEnclosure`, `addSwitch`, ...: append to the collection of a kind. -/
def Organ.addEntity (o : Organ) (k : EntityKind) (e : Entity) : Organ :=
  { o with m_entities := fun j => if j = k then o.m_entities k ++ [e] else o.m_entities j }

/-- The methods `getNumberOfEnclosures`, `getNumberOfSwitches`, ... -/
def Organ.getNumberOf (o : Organ) (k : EntityKind) : Nat := (o.m_entities k).length

/-- The method `addManual`. -/
def Organ.addManual (o : Organ) (m : Manual) : Organ :=
  { o with m_Manuals := o.m_Manuals ++ [m] }

/-- The method `getNumberOfManuals`. -/
def Organ.getNumberOfManuals (o : Organ) : Nat := o.m_Manuals.length

/-- The per-division collection of a kind. -/
def Manual.slots (m : Manual) : SlotKind → List Entity
  | .stop => m.contents.stops
  | .coupler => m.contents.couplers
  | .divisional => m.contents.divisionals

/-- The methods `getNumberOfStops`, `getNumberOfCouplers`, `getNumberOfDivisionals`. -/
def Manual.getNumberOf (m : Manual) (k : SlotKind) : Nat := (m.slots k).length

/-- The name behind a handle, `none` when the handle addresses nothing. -/
def Organ.nameOf (o : Organ) : EntityRef → Option String
  | .organ k i => ((o.m_entities k).get? i).map Entity.name
  | .manual i => (o.m_Manuals.get? i).map (fun m => m.contents.name)
  | .slot k mi i => (o.m_Manuals.get? mi).bind (fun m => ((m.slots k).get? i).map Entity.name)

/-! ## Parser primitives -/

/-- The call `m_organFile.SetPath(path)`. -/
def OrganFileParser.SetPath (p : OrganFileParser) (path : String) : OrganFileParser :=
  { p with m_path := path }

/-- Note a `HasGroup(name)` call together with the cursor it is made at. -/
def OrganFileParser.consult (p : OrganFileParser) (name : String) : OrganFileParser :=
  { p with consulted := p.consulted ++ [(p.m_path, name)] }

/-- Note a lookup by position. -/
def OrganFileParser.lookup (p : OrganFileParser) (c : Collection) (i : Int) (size : Nat) :
    OrganFileParser :=
  { p with lookups := p.lookups ++ [⟨c, i, size⟩] }

/-- A lookup outside its collection or a call through a null pointer. -/
def OrganFileParser.fault (p : OrganFileParser) : OrganFileParser :=
  { p with m_fault := true }

/-- Sequencing: nothing is executed after a fault. -/
def OrganFileParser.andThen (p : OrganFileParser) (f : OrganFileParser → OrganFileParser) :
    OrganFileParser :=
  if p.m_fault = true then p else f p

/-- The loop `for (int i = 0; i < n; i++) body`. -/
def forLoop (n : Int) (body : Nat → OrganFileParser → OrganFileParser) (p : OrganFileParser) :
    OrganFileParser :=
  (List.range n.toNat).foldl (fun s i => s.andThen (body i)) p

/-- The call `targetPanel->addGuiElement(e)`. -/
def OrganFileParser.addGuiElement (p : OrganFileParser) (targetPanel : Nat) (e : GUIElement) :
    OrganFileParser :=
  { p with m_organ := p.m_organ.modifyPanel (fun pnl => pnl.addGuiElement e) targetPanel }

/-- The calls `m_organ->getOrganEnclosureAt(i)`, `getOrganSwitchAt(i)`, ...: the handle of the
member at position `i` is passed on; outside the collection the call is a fault. -/
def withEntityAt (p : OrganFileParser) (k : EntityKind) (i : Int)
    (cont : EntityRef → OrganFileParser → OrganFileParser) : OrganFileParser :=
  let p := p.lookup (.entities k) i (p.m_organ.getNumberOf k)
  if 0 ≤ i ∧ i < (p.m_organ.getNumberOf k : Int) then cont (.organ k i.toNat) p else p.fault

/-- The call `m_organ->getOrganManualAt(i)`: position and division are passed on. -/
def withManualAt (p : OrganFileParser) (i : Int)
    (cont : Nat → Manual → OrganFileParser → OrganFileParser) : OrganFileParser :=
  let p := p.lookup .manuals i p.m_organ.getNumberOfManuals
  match getAt p.m_organ.m_Manuals i with
  | some man => cont i.toNat man p
  | none => p.fault

/-- The calls `man->getStopAt(i)`, `man->getCouplerAt(i)`, `man->getDivisionalAt(i)`. -/
def withSlotAt (p : OrganFileParser) (k : SlotKind) (manualIdx : Nat) (man : Manual) (i : Int)
    (cont : EntityRef → OrganFileParser → OrganFileParser) : OrganFileParser :=
  let p := p.lookup (.slots k manualIdx) i (man.getNumberOf k)
  if 0 ≤ i ∧ i < (man.getNumberOf k : Int) then cont (.slot k manualIdx i.toNat) p else p.fault

/-- The statements `e = targetPanel->getGuiElementAt(targetPanel->getNumberOfGuiElements() - 1)`
followed by setters on `e`. -/
def withLastGuiElement (p : OrganFileParser) (targetPanel : Nat) (f : GUIElement → GUIElement) :
    OrganFileParser :=
  match p.m_organ.getOrganPanelAt targetPanel with
  | none => p.fault
  | some pnl =>
    let n := pnl.m_guiElements.length
    let p := p.lookup (.guiElements targetPanel) ((n : Int) - 1) n
    if n = 0 then p.fault
    else
      let g : GoPanel → GoPanel := fun q => { q with m_guiElements := modifyLast f q.m_guiElements }
      { p with m_organ := p.m_organ.modifyPanel g targetPanel }

/-! ## Element factory (`createGUI...`) -/

/-- The common body of the `createGUI...` functions that take the display name from the entity:
`setDisplayName(entity->getName())` is a call through the pointer, so a null pointer is a fault
before anything is appended; the element then reads its own fields at the cursor. -/
def createNamedElement (cls : ElementClass) (p : OrganFileParser) (targetPanel : Nat)
    (entity : Option EntityRef) : OrganFileParser :=
  match entity with
  | none => p.fault
  | some r =>
    match p.m_organ.nameOf r with
    | none => p.fault
    | some n => p.addGuiElement targetPanel ⟨cls, cls.typeName, n, some r, p.m_path⟩

def createGUIEnclosure (p : OrganFileParser) (targetPanel : Nat) (enclosure : Option EntityRef) :
    OrganFileParser :=
  createNamedElement .GUIEnclosure p targetPanel enclosure

def createGUITremulant (p : OrganFileParser) (targetPanel : Nat) (tremulant : Option EntityRef) :
    OrganFileParser :=
  createNamedElement .GUITremulant p targetPanel tremulant

def createGUISwitch (p : OrganFileParser) (targetPanel : Nat) (theSwitch : Option EntityRef) :
    OrganFileParser :=
  createNamedElement .GUISwitch p targetPanel theSwitch

/-- A label has no entity; its display name is the literal "GUI Label". -/
def createGUILabel (p : OrganFileParser) (targetPanel : Nat) : OrganFileParser :=
  p.addGuiElement targetPanel ⟨.GUILabel, ElementClass.GUILabel.typeName, "GUI Label", none, p.m_path⟩

def createGUIManual (p : OrganFileParser) (targetPanel : Nat) (manual : Option EntityRef) :
    OrganFileParser :=
  createNamedElement .GUIManual p targetPanel manual

def createGUIPiston (p : OrganFileParser) (targetPanel : Nat) (piston : Option EntityRef) :
    OrganFileParser :=
  createNamedElement .GUIReversiblePiston p targetPanel piston

def createGUIDivCplr (p : OrganFileParser) (targetPanel : Nat) (div_cplr : Option EntityRef) :
    OrganFileParser :=
  createNamedElement .GUIDivisionalCoupler p targetPanel div_cplr

def createGUIGeneral (p : OrganFileParser) (targetPanel : Nat) (general : Option EntityRef) :
    OrganFileParser :=
  createNamedElement .GUIGeneral p targetPanel general

/-- The function `createGUIDivisional` does not call `setDisplayName`, so it makes no call through
the pointer: the display name stays the empty default. -/
def createGUIDivisional (p : OrganFileParser) (targetPanel : Nat)
    (divisional : Option EntityRef) : OrganFileParser :=
  p.addGuiElement targetPanel
    ⟨.GUIDivisional, ElementClass.GUIDivisional.typeName, "", divisional, p.m_path⟩

def createGUICoupler (p : OrganFileParser) (targetPanel : Nat) (coupler : Option EntityRef) :
    OrganFileParser :=
  createNamedElement .GUICoupler p targetPanel coupler

def createGUIStop (p : OrganFileParser) (targetPanel : Nat) (stop : Option EntityRef) :
    OrganFileParser :=
  createNamedElement .GUIStop p targetPanel stop

/-- The `createGUI...` function used for an organ-level kind; windchest groups and ranks have
none. -/
def createGUIEntity (k : EntityKind) (p : OrganFileParser) (targetPanel : Nat)
    (entity : Option EntityRef) : OrganFileParser :=
  match k with
  | .enclosure => createGUIEnclosure p targetPanel entity
  | .switch => createGUISwitch p targetPanel entity
  | .tremulant => createGUITremulant p targetPanel entity
  | .reversiblePiston => createGUIPiston p targetPanel entity
  | .divisionalCoupler => createGUIDivCplr p targetPanel entity
  | .general => createGUIGeneral p targetPanel entity
  | .windchestgroup => p
  | .rank => p

/-- The `createGUI...` function used for a per-division kind. -/
def createGUISlot (k : SlotKind) (p : OrganFileParser) (targetPanel : Nat)
    (entity : Option EntityRef) : OrganFileParser :=
  match k with
  | .stop => createGUIStop p targetPanel entity
  | .coupler => createGUICoupler p targetPanel entity
  | .divisional => createGUIDivisional p targetPanel entity

/-! ## Legacy setter elements (`createFromSetterElement`) -/

/-- The statements `e->setType(elementType)` and, when `withName`, `e->setDisplayName(elementType)`
on the last element of the target panel. -/
def overrideLast (p : OrganFileParser) (targetPanel : Nat) (elementType : String)
    (withName : Bool) : OrganFileParser :=
  withLastGuiElement p targetPanel (fun e =>
    { e with
      m_type := elementType,
      m_displayName := if withName = true then elementType else e.m_displayName })

/-- The function `createFromSetterElement`. A `Find` result is used as a truth value, so a
condition `s.Find(x)` holds exactly when the position is not 0. -/
def createFromSetterElement (env : Env) (p : OrganFileParser) (targetPanel : Nat)
    (elementType : String) : OrganFileParser :=
  if elementType = "CrescendoLabel" ∨ elementType = "GeneralLabel" ∨ elementType = "PitchLabel" ∨
      elementType = "SequencerLabel" ∨ elementType = "TemperamentLabel" ∨
      elementType = "TransposeLabel" then
    (createGUILabel p targetPanel).andThen (fun q => overrideLast q targetPanel elementType false)
  else if wxFind elementType "Setter" ≠ 0 ∧ wxFind elementType "DivisionalBank" ≠ 0 then
    match env.toLong (wxMid elementType 6 3) with
    | none => p
    | some value =>
      if value > env.frameOrganNumberOfManuals then p
      else
        (createGUILabel p targetPanel).andThen
          (fun q => overrideLast q targetPanel elementType false)
  else if elementType = "Swell" then
    createGUIEnclosure p targetPanel none
  else if wxStartsWith elementType "General" = true ∧ wxLen elementType = 9 then
    (createGUIGeneral p targetPanel none).andThen
      (fun q => overrideLast q targetPanel elementType false)
  else if wxFind elementType "Setter" ≠ 0 ∧ wxFind elementType "Divisional" ≠ 0 ∧
      wxLen elementType = 22 then
    match env.toLong (wxMid elementType 6 3) with
    | none => p
    | some value =>
      if value > env.frameOrganNumberOfManuals then p
      else
        match env.toLong (wxMid elementType 19 3) with
        | none => p
        | some _ =>
          (createGUIDivisional p targetPanel none).andThen
            (fun q => overrideLast q targetPanel elementType true)
  else if (wxFind elementType "Setter" ≠ 0 ∧ wxFind elementType "DivisionalPrevBank" ≠ 0) ∨
      (wxFind elementType "Setter" ≠ 0 ∧ wxFind elementType "DivisionalNextBank" ≠ 0) then
    match env.toLong (wxMid elementType 6 3) with
    | none => p
    | some value =>
      if value > env.frameOrganNumberOfManuals then p
      else
        (createGUIDivisional p targetPanel none).andThen
          (fun q => overrideLast q targetPanel elementType true)
  else if elementType ∈ env.setterElements then
    (createGUISwitch p targetPanel none).andThen
      (fun q => overrideLast q targetPanel elementType true)
  else p

/-! ## Constants of the counted loops -/

/-- The key holding the declared count of a kind. -/
def EntityKind.countKey : EntityKind → String
  | .enclosure => "NumberOfEnclosures"
  | .switch => "NumberOfSwitches"
  | .tremulant => "NumberOfTremulants"
  | .windchestgroup => "NumberOfWindchestGroups"
  | .rank => "NumberOfRanks"
  | .reversiblePiston => "NumberOfReversiblePistons"
  | .divisionalCoupler => "NumberOfDivisionalCouplers"
  | .general => "NumberOfGenerals"

/-- The section name of a kind, before the number; also its element type and reference key. -/
def EntityKind.groupName : EntityKind → String
  | .enclosure => "Enclosure"
  | .switch => "Switch"
  | .tremulant => "Tremulant"
  | .windchestgroup => "WindchestGroup"
  | .rank => "Rank"
  | .reversiblePiston => "ReversiblePiston"
  | .divisionalCoupler => "DivisionalCoupler"
  | .general => "General"

/-- The constant `c` of the test `nbr > 0 && nbr < c` on the declared count of a kind. -/
def EntityKind.maxCount : EntityKind → Int
  | .enclosure => 51
  | .switch => 1000
  | .tremulant => 11
  | .windchestgroup => 51
  | .rank => 1000
  | .reversiblePiston => 33
  | .divisionalCoupler => 9
  | .general => 100

/-- Whether `read` of the kind is passed `m_isUsingOldPanelFormat` (not for windchest groups and
ranks). -/
def EntityKind.readsPanelFormat : EntityKind → Bool
  | .windchestgroup => false
  | .rank => false
  | _ => true

/-- Whether the loop of the kind tests `isDisplayed()` and creates a panel element (not for
windchest groups and ranks). -/
def EntityKind.hasGUI : EntityKind → Bool
  | .windchestgroup => false
  | .rank => false
  | _ => true

/-- The element type, reference key and section name part of a per-division kind. -/
def SlotKind.typeName : SlotKind → String
  | .stop => "Stop"
  | .coupler => "Coupler"
  | .divisional => "Divisional"

/-- The key holding the count that the legacy loop of a per-division kind runs to. -/
def SlotKind.countKey : SlotKind → String
  | .stop => "NumberOfStops"
  | .coupler => "NumberOfCouplers"
  | .divisional => "NumberOfDivisionals"

/-! ## Panel layout (`parsePanelElements`) -/

/-- Modern mode, element types Divisional, Coupler and Stop (lines 596-628). -/
def modernSlotElement (env : Env) (k : SlotKind) (targetPanel : Nat) (p : OrganFileParser) :
    OrganFileParser :=
  let manualIdx := env.readLong p.m_path "Manual" (-1)
  if manualIdx ≥ 0 ∧ manualIdx < (p.m_organ.getNumberOfManuals : Int) then
    let manualIdx :=
      if p.m_organ.m_hasPedals = false ∧ manualIdx > 0 then manualIdx - 1 else manualIdx
    withManualAt p manualIdx (fun mi man q =>
      let idx := env.readLong q.m_path k.typeName 0
      if idx > 0 ∧ idx ≤ (man.getNumberOf k : Int) then
        withSlotAt q k mi man idx (fun r q2 => createGUISlot k q2 targetPanel (some r))
      else q)
  else p

/-- Modern mode, element types Enclosure, Tremulant, DivisionalCoupler, General,
ReversiblePiston and Switch (lines 629-658). -/
def modernEntityElement (env : Env) (k : EntityKind) (targetPanel : Nat) (p : OrganFileParser) :
    OrganFileParser :=
  let idx := env.readLong p.m_path k.groupName 0
  if idx > 0 ∧ idx ≤ (p.m_organ.getNumberOf k : Int) then
    withEntityAt p k (idx - 1) (fun r q => createGUIEntity k q targetPanel (some r))
  else p

/-- Modern mode, element type Manual (lines 661-667). -/
def modernManualElement (env : Env) (targetPanel : Nat) (p : OrganFileParser) : OrganFileParser :=
  let manIdx := env.readLong p.m_path "Manual" (-1)
  if manIdx ≥ 0 ∧ manIdx ≤ (p.m_organ.getNumberOfManuals : Int) then
    let manIdx := if p.m_organ.m_hasPedals = false ∧ manIdx > 0 then manIdx - 1 else manIdx
    withManualAt p manIdx (fun mi _ q => createGUIManual q targetPanel (some (.manual mi)))
  else p

/-- Modern mode, the body of the loop over the Element sections (lines 592-672). -/
def modernElement (env : Env) (targetPanel : Nat) (panelId : String) (i : Nat)
    (p : OrganFileParser) : OrganFileParser :=
  let elementGroupName := "Element" ++ env.number_format ((i : Int) + 1)
  let p := p.consult (panelId ++ elementGroupName)
  if env.hasGroup p.m_path (panelId ++ elementGroupName) = true then
    let p := p.SetPath ("/" ++ panelId ++ elementGroupName)
    let elementType := env.read p.m_path "Type" ""
    if elementType = "Divisional" then modernSlotElement env .divisional targetPanel p
    else if elementType = "Coupler" then modernSlotElement env .coupler targetPanel p
    else if elementType = "Stop" then modernSlotElement env .stop targetPanel p
    else if elementType = "Enclosure" then modernEntityElement env .enclosure targetPanel p
    else if elementType = "Tremulant" then modernEntityElement env .tremulant targetPanel p
    else if elementType = "DivisionalCoupler" then
      modernEntityElement env .divisionalCoupler targetPanel p
    else if elementType = "General" then modernEntityElement env .general targetPanel p
    else if elementType = "ReversiblePiston" then
      modernEntityElement env .reversiblePiston targetPanel p
    else if elementType = "Switch" then modernEntityElement env .switch targetPanel p
    else if elementType = "Label" then createGUILabel p targetPanel
    else if elementType = "Manual" then modernManualElement env targetPanel p
    else createFromSetterElement env p targetPanel elementType
  else p

/-- Legacy mode, the body of the loop over the Manual references (lines 680-692). -/
def legacyManualEntry (env : Env) (targetPanel : Nat) (panelId : String) (i : Nat)
    (p : OrganFileParser) : OrganFileParser :=
  let manStr := "Manual" ++ env.number_format ((i : Int) + 1)
  let manRefId := env.readLong p.m_path manStr (-1)
  let p1 :=
    if manRefId ≥ 0 ∧ manRefId ≤ (p.m_organ.getNumberOfManuals : Int) then
      let manIdx := if p.m_organ.m_hasPedals = false ∧ manRefId > 0 then manRefId - 1 else manRefId
      let thePath := panelId ++ "Manual" ++ env.number_format manRefId
      let q := p.consult thePath
      if env.hasGroup q.m_path thePath = true then
        let q := q.SetPath ("/" ++ thePath)
        withManualAt q manIdx (fun mi _ q2 => createGUIManual q2 targetPanel (some (.manual mi)))
      else q
    else p
  p1.andThen (fun q => q.SetPath ("/" ++ panelId))

/-- Legacy mode, the body of the loop over the SetterElement sections (lines 696-704); the
element goes to panel 0, not to the target panel. -/
def legacySetterEntry (env : Env) (panelId : String) (i : Nat) (p : OrganFileParser) :
    OrganFileParser :=
  let setterGroupName := panelId ++ "SetterElement" ++ env.number_format ((i : Int) + 1)
  let p := p.consult setterGroupName
  let p1 :=
    if env.hasGroup p.m_path setterGroupName = true then
      let q := p.SetPath ("/" ++ setterGroupName)
      let elementType := env.read q.m_path "Type" ""
      if elementType ≠ "" then createFromSetterElement env q 0 elementType else q
    else p
  p1.andThen (fun q => q.SetPath ("/" ++ panelId))

/-- Legacy mode, the body of the loops over the Enclosure, Tremulant, ReversiblePiston, Switch,
General and DivisionalCoupler references (lines 707-783). -/
def legacyEntityEntry (env : Env) (k : EntityKind) (targetPanel : Nat) (panelId : String)
    (i : Nat) (p : OrganFileParser) : OrganFileParser :=
  let refStr := k.groupName ++ env.number_format ((i : Int) + 1)
  let refId := env.readLong p.m_path refStr 0
  let p1 :=
    if refId > 0 ∧ refId ≤ (p.m_organ.getNumberOf k : Int) then
      let thePath := panelId ++ k.groupName ++ env.number_format refId
      let q := p.consult thePath
      if env.hasGroup q.m_path thePath = true then
        let q := q.SetPath ("/" ++ thePath)
        withEntityAt q k (refId - 1) (fun r q2 => createGUIEntity k q2 targetPanel (some r))
      else q
    else p
  p1.andThen (fun q => q.SetPath ("/" ++ panelId))

/-- Legacy mode, the body of the loops over the Stop, Coupler and Divisional references
(lines 785-846). -/
def legacySlotEntry (env : Env) (k : SlotKind) (targetPanel : Nat) (panelId : String)
    (i : Nat) (p : OrganFileParser) : OrganFileParser :=
  let manStr := k.typeName ++ env.number_format ((i : Int) + 1) ++ "Manual"
  let slotStr := k.typeName ++ env.number_format ((i : Int) + 1)
  let manRefId := env.readLong p.m_path manStr (-1)
  let p1 :=
    if manRefId ≥ 0 ∧ manRefId ≤ (p.m_organ.getNumberOfManuals : Int) then
      let manIdx := if p.m_organ.m_hasPedals = false ∧ manRefId > 0 then manRefId - 1 else manRefId
      withManualAt p manIdx (fun mi man q =>
        let refId := env.readLong q.m_path slotStr 0
        if refId > 0 ∧ refId ≤ (man.getNumberOf k : Int) then
          let thePath := panelId ++ k.typeName ++ env.number_format ((i : Int) + 1)
          let q := q.consult thePath
          if env.hasGroup q.m_path thePath = true then
            let q := q.SetPath ("/" ++ thePath)
            withSlotAt q k mi man (refId - 1)
              (fun r q2 => createGUISlot k q2 targetPanel (some r))
          else q
        else q)
    else p
  p1.andThen (fun q => q.SetPath ("/" ++ panelId))

/-- Legacy mode, the body of the loop over the Label sections (lines 848-856). -/
def legacyLabelEntry (env : Env) (targetPanel : Nat) (panelId : String) (i : Nat)
    (p : OrganFileParser) : OrganFileParser :=
  let thePath := panelId ++ "Label" ++ env.number_format ((i : Int) + 1)
  let p := p.consult thePath
  let p1 :=
    if env.hasGroup p.m_path thePath = true then
      createGUILabel (p.SetPath ("/" ++ thePath)) targetPanel
    else p
  p1.andThen (fun q => q.SetPath ("/" ++ panelId))

/-- Legacy mode: a loop that runs to the count read, at the cursor, from `countKey`. -/
def legacyLoop (env : Env) (countKey : String)
    (body : Nat → OrganFileParser → OrganFileParser) (p : OrganFileParser) : OrganFileParser :=
  forLoop (env.readLong p.m_path countKey 0) body p

/-- The function `parsePanelElements`; `targetPanel` is the position of the panel in the organ. -/
def parsePanelElements (env : Env) (p : OrganFileParser) (targetPanel : Nat) (panelId : String) :
    OrganFileParser :=
  let nbrGuiElements := env.readLong p.m_path "NumberOfGUIElements" 0
  if wxIsSameAsNoCase panelId "Panel000" = true ∨ nbrGuiElements ≠ 0 then
    if nbrGuiElements > 0 ∧ nbrGuiElements < 1000 then
      (forLoop nbrGuiElements (modernElement env targetPanel panelId) p).andThen
        (fun q => q.SetPath ("/" ++ panelId))
    else p
  else
    (legacyLoop env "NumberOfManuals" (legacyManualEntry env targetPanel panelId) p)
    |>.andThen (legacyLoop env "NumberOfSetterElements" (legacySetterEntry env panelId))
    |>.andThen (legacyLoop env EntityKind.enclosure.countKey
        (legacyEntityEntry env .enclosure targetPanel panelId))
    |>.andThen (legacyLoop env EntityKind.tremulant.countKey
        (legacyEntityEntry env .tremulant targetPanel panelId))
    |>.andThen (legacyLoop env EntityKind.reversiblePiston.countKey
        (legacyEntityEntry env .reversiblePiston targetPanel panelId))
    |>.andThen (legacyLoop env EntityKind.switch.countKey
        (legacyEntityEntry env .switch targetPanel panelId))
    |>.andThen (legacyLoop env EntityKind.general.countKey
        (legacyEntityEntry env .general targetPanel panelId))
    |>.andThen (legacyLoop env EntityKind.divisionalCoupler.countKey
        (legacyEntityEntry env .divisionalCoupler targetPanel panelId))
    |>.andThen (legacyLoop env SlotKind.stop.countKey
        (legacySlotEntry env .stop targetPanel panelId))
    |>.andThen (legacyLoop env SlotKind.coupler.countKey
        (legacySlotEntry env .coupler targetPanel panelId))
    |>.andThen (legacyLoop env SlotKind.divisional.countKey
        (legacySlotEntry env .divisional targetPanel panelId))
    |>.andThen (legacyLoop env "NumberOfLabels" (legacyLabelEntry env targetPanel panelId))

/-! ## Entity graph (`parseOrganSection`) -/

/-- The root properties (lines 79-117). A number outside its range is not stored. -/
def readRootProperties (env : Env) (p : OrganFileParser) : OrganFileParser :=
  let c := p.m_path
  let o := p.m_organ
  let infoFile := env.checkIfFileExist (env.read c "InfoFilename" "")
  let ampLvl := env.readDouble c "AmplitudeLevel" 100
  let gain := env.readDouble c "Gain" 0
  let pitchTuning := env.readDouble c "PitchTuning" 0
  let pitchCorrection := env.readDouble c "PitchCorrection" 0
  let trackerDelay := env.readLong c "TrackerDelay" 0
  { p with m_organ :=
    { o with
      m_churchName := env.read c "ChurchName" "",
      m_churchAddress := env.read c "ChurchAddress" "",
      m_organBuilder := env.read c "OrganBuilder" "",
      m_organBuildDate := env.read c "OrganBuildDate" "",
      m_organComments := env.read c "OrganComments" "",
      m_recordingDetails := env.read c "RecordingDetails" "",
      m_infoFilename := if infoFile ≠ "" then infoFile else o.m_infoFilename,
      m_divisionalsStoreIntermanualCouplers :=
        env.parseBoolean (env.read c "DivisionalsStoreIntermanualCouplers" "") true,
      m_divisionalsStoreIntramanualCouplers :=
        env.parseBoolean (env.read c "DivisionalsStoreIntramanualCouplers" "") true,
      m_divisionalsStoreTremulants :=
        env.parseBoolean (env.read c "DivisionalsStoreTremulants" "") true,
      m_generalsStoreDivisionalCouplers :=
        env.parseBoolean (env.read c "GeneralsStoreDivisionalCouplers" "") true,
      m_combinationsStoreNonDisplayedDrawstops :=
        env.parseBoolean (env.read c "CombinationsStoreNonDisplayedDrawstops" "") true,
      m_amplitudeLevel := if ampLvl ≥ 0 ∧ ampLvl ≤ 1000 then ampLvl else o.m_amplitudeLevel,
      m_gain := if gain ≥ -120 ∧ gain ≤ 40 then gain else o.m_gain,
      m_pitchTuning :=
        if pitchTuning ≥ -1800 ∧ pitchTuning ≤ 1800 then pitchTuning else o.m_pitchTuning,
      m_pitchCorrection :=
        if pitchCorrection ≥ -1800 ∧ pitchCorrection ≤ 1800 then pitchCorrection
        else o.m_pitchCorrection,
      m_trackerDelay :=
        if trackerDelay ≥ 0 ∧ trackerDelay ≤ 10000 then trackerDelay.toNat else o.m_trackerDelay,
      m_hasPedals := env.parseBoolean (env.read c "HasPedals" "") false } }

/-- The body of the loop over the legacy Image sections (lines 127-136). -/
def legacyImageStep (env : Env) (i : Nat) (p : OrganFileParser) : OrganFileParser :=
  let imgGroupName := "Image" ++ env.number_format ((i : Int) + 1)
  let p := p.consult imgGroupName
  if env.hasGroup p.m_path imgGroupName = true then
    let p := p.SetPath ("/" ++ imgGroupName)
    match env.readImage p.m_path with
    | some img => { p with m_organ := p.m_organ.modifyPanel (fun pnl => pnl.addImage img) 0 }
    | none => p
  else p

/-- The body of the loop over the legacy Label sections (lines 145-149). -/
def legacyRootLabelStep (env : Env) (i : Nat) (p : OrganFileParser) : OrganFileParser :=
  let labelGroupName := "Label" ++ env.number_format ((i : Int) + 1)
  let p := p.consult labelGroupName
  if env.hasGroup p.m_path labelGroupName = true then
    createGUILabel (p.SetPath ("/" ++ labelGroupName)) 0
  else p

/-- A counted block of `parseOrganSection`: the count is read from `countKey` at the cursor; when
it passes `nbr > 0 && nbr < maxCount` the loop runs and the cursor is then set to "/Organ". -/
def countedBlock (env : Env) (countKey : String) (maxCount : Int)
    (body : Nat → OrganFileParser → OrganFileParser) (p : OrganFileParser) : OrganFileParser :=
  let nbr := env.readLong p.m_path countKey 0
  if nbr > 0 ∧ nbr < maxCount then
    (forLoop nbr body p).andThen (fun q => q.SetPath "/Organ")
  else p

/-- The legacy block (lines 119-153): display metrics, images and labels go to panel 0. -/
def parseLegacyRoot (env : Env) (p : OrganFileParser) : OrganFileParser :=
  if p.m_isUsingOldPanelFormat = true then
    let c := p.m_path
    let p := { p with m_organ := p.m_organ.modifyPanel (fun pnl => { pnl with metricsFrom := some c }) 0 }
    (countedBlock env "NumberOfImages" 1000 (legacyImageStep env) p).andThen
      (countedBlock env "NumberOfLabels" 1000 (legacyRootLabelStep env))
  else p

/-- The body of the loops over the Enclosure, Switch, Tremulant, WindchestGroup, Rank,
ReversiblePiston, DivisionalCoupler and General sections (lines 158-171, 178-190, 197-209,
216-224, 231-239, 273-285, 292-304, 311-323). -/
def parseEntityStep (env : Env) (k : EntityKind) (i : Nat) (p : OrganFileParser) :
    OrganFileParser :=
  let groupName := k.groupName ++ env.number_format ((i : Int) + 1)
  let p := p.consult groupName
  if env.hasGroup p.m_path groupName = true then
    let p := p.SetPath ("/" ++ groupName)
    let e := env.readEntity k p.m_path (k.readsPanelFormat && p.m_isUsingOldPanelFormat)
    let p := { p with m_organ := p.m_organ.addEntity k e }
    if k.hasGUI = true ∧ e.displayed = true then
      withEntityAt p k ((p.m_organ.getNumberOf k : Int) - 1)
        (fun r q => createGUIEntity k q 0 (some r))
    else p
  else p

/-- The block of one organ-level kind. -/
def parseEntities (env : Env) (k : EntityKind) (p : OrganFileParser) : OrganFileParser :=
  countedBlock env k.countKey k.maxCount (parseEntityStep env k) p

/-- The body of the loop over the Manual sections (lines 250-265). A manual is created with the
pedal flag clear; `setIsPedal(true)` is called for file index 0. -/
def parseManualStep (env : Env) (i : Nat) (p : OrganFileParser) : OrganFileParser :=
  let manIdxNbr : Int := if p.m_organ.m_hasPedals = false then (i : Int) + 1 else (i : Int)
  let manGroupName := "Manual" ++ env.number_format manIdxNbr
  let p := p.consult manGroupName
  if env.hasGroup p.m_path manGroupName = true then
    let p := p.SetPath ("/" ++ manGroupName)
    let isPedal : Bool := decide (manIdxNbr = 0)
    let m : Manual := ⟨isPedal, env.readManual p.m_path p.m_isUsingOldPanelFormat isPedal⟩
    let p := { p with m_organ := p.m_organ.addManual m }
    if m.contents.displayed = true then
      withManualAt p ((p.m_organ.getNumberOfManuals : Int) - 1)
        (fun mi _ q => createGUIManual q 0 (some (.manual mi)))
    else p
  else p

/-- The block of the manuals (lines 245-268). -/
def parseManuals (env : Env) (p : OrganFileParser) : OrganFileParser :=
  let nbrManuals := env.readLong p.m_path "NumberOfManuals" 0
  if nbrManuals > 0 ∧ nbrManuals < 17 then
    let nbrManuals := if p.m_organ.m_hasPedals = true then nbrManuals + 1 else nbrManuals
    (forLoop nbrManuals (parseManualStep env) p).andThen (fun q => q.SetPath "/Organ")
  else p

/-- The body of the loop over the root SetterElement sections (lines 333-340). -/
def rootSetterStep (env : Env) (i : Nat) (p : OrganFileParser) : OrganFileParser :=
  let setterGroupName := "SetterElement" ++ env.number_format ((i : Int) + 1)
  let p := p.consult setterGroupName
  if env.hasGroup p.m_path setterGroupName = true then
    let p := p.SetPath ("/" ++ setterGroupName)
    let elementType := env.read p.m_path "Type" ""
    if elementType ≠ "" then createFromSetterElement env p 0 elementType else p
  else p

/-- The block of the root setter elements (lines 329-344). -/
def parseRootSetters (env : Env) (p : OrganFileParser) : OrganFileParser :=
  if p.m_isUsingOldPanelFormat = true then
    let nbrSetters := env.readLong p.m_path "NumberOfSetterElements" 0
    let p1 := if nbrSetters > 0 ∧ nbrSetters < 1000 then forLoop nbrSetters (rootSetterStep env) p else p
    p1.andThen (fun q => q.SetPath "/Organ")
  else p

/-- The method `GoPanel::read(cfg, panelId)`: the panel takes its own keys from the section at
the cursor. -/
def GoPanel.read (pnl : GoPanel) (cursor panelId : String) : GoPanel :=
  { pnl with readFrom := some (cursor, panelId) }

/-- The body of the loop over the additional panels (lines 359-365). -/
def parsePanelStep (env : Env) (i : Nat) (p : OrganFileParser) : OrganFileParser :=
  let panelGroupName := "Panel" ++ env.number_format ((i : Int) + 1)
  let p := p.consult panelGroupName
  if env.hasGroup p.m_path panelGroupName = true then
    let p := p.SetPath ("/" ++ panelGroupName)
    let pnl := (GoPanel.mk none none [] []).read p.m_path panelGroupName
    { p with m_organ := { p.m_organ with m_extraPanels := p.m_organ.m_extraPanels ++ [pnl] } }
  else p

/-- The main panel (lines 348-356): in the new format its section `Panel000` is read and its
elements are parsed. -/
def parseMainPanel (env : Env) (p : OrganFileParser) : OrganFileParser :=
  if p.m_isUsingOldPanelFormat = false then
    let q := p.SetPath "/Panel000"
    let q := { q with m_organ :=
      q.m_organ.modifyPanel (fun pnl => pnl.read q.m_path "Panel000") 0 }
    (parsePanelElements env q 0 "Panel000").andThen (fun q2 => q2.SetPath "/Organ")
  else p

/-- The additional panels (lines 357-368), `nbrPanels` being the count read at line 347. -/
def parseExtraPanels (env : Env) (nbrPanels : Int) (p : OrganFileParser) : OrganFileParser :=
  if nbrPanels > 0 ∧ nbrPanels < 100 then
    (forLoop nbrPanels (parsePanelStep env) p).andThen (fun q => q.SetPath "/Organ")
  else p

/-- The block of the panels (lines 347-368). -/
def parsePanels (env : Env) (p : OrganFileParser) : OrganFileParser :=
  let nbrPanels := env.readLong p.m_path "NumberOfPanels" 0
  (parseMainPanel env p).andThen (parseExtraPanels env nbrPanels)

/-- The function `parseOrganSection`. -/
def parseOrganSection (env : Env) (p : OrganFileParser) : OrganFileParser :=
  (readRootProperties env (p.SetPath "/Organ"))
  |>.andThen (parseLegacyRoot env)
  |>.andThen (parseEntities env .enclosure)
  |>.andThen (parseEntities env .switch)
  |>.andThen (parseEntities env .tremulant)
  |>.andThen (parseEntities env .windchestgroup)
  |>.andThen (parseEntities env .rank)
  |>.andThen (parseManuals env)
  |>.andThen (parseEntities env .reversiblePiston)
  |>.andThen (parseEntities env .divisionalCoupler)
  |>.andThen (parseEntities env .general)
  |>.andThen (parseRootSetters env)
  |>.andThen (parsePanels env)

/-! ## Construction -/

/-- The function `readIniFile`; the store is opened with its cursor at the root. -/
def readIniFile (env : Env) (p : OrganFileParser) : OrganFileParser :=
  let p := (p.SetPath "/").consult "Organ"
  let p :=
    if env.hasGroup p.m_path "Organ" = true then { p with m_fileIsOk := true }
    else { p with m_fileIsOk := false,
                  m_errorMessage := "No [Organ] section could be found in file!" }
  let p := p.consult "Panel000"
  if env.hasGroup p.m_path "Panel000" = true then { p with m_isUsingOldPanelFormat := false }
  else { p with m_isUsingOldPanelFormat := true }

/-- The function `parseOrgan`. -/
def parseOrgan (env : Env) (p : OrganFileParser) : OrganFileParser :=
  parseOrganSection env
    { p with m_organ := { p.m_organ with m_odfRoot := env.fileDirectory p.m_filePath } }

/-- The constructor `OrganFileParser::OrganFileParser(filePath, organ)`. -/
def newOrganFileParser (env : Env) (filePath : String) (organ : Organ) : OrganFileParser :=
  let p : OrganFileParser :=
    { m_filePath := filePath, m_organ := organ, m_path := "/", m_fileIsOk := false,
      m_organIsReady := false, m_isUsingOldPanelFormat := false, m_errorMessage := "",
      m_fault := false, consulted := [], lookups := [] }
  let p := readIniFile env p
  if p.m_fileIsOk = true then parseOrgan env p else p

/-- The function `isOrganReady`. -/
def isOrganReady (p : OrganFileParser) : Bool := p.m_organIsReady

/-! ## Vocabulary of the statements: views of the parser object, sections read -/

/-- The fields of the parser object that only the constructor and `readIniFile` write. -/
def OrganFileParser.flags (p : OrganFileParser) : String × Bool × Bool × Bool × String :=
  (p.m_filePath, p.m_fileIsOk, p.m_organIsReady, p.m_isUsingOldPanelFormat, p.m_errorMessage)

/-- Everything but the panels, the cursor and the three bookkeeping fields: the entity
collections, the divisions, the pedal flag and the flags of the parser. -/
def OrganFileParser.core (p : OrganFileParser) :
    (EntityKind → List Entity) × List Manual × Bool × (String × Bool × Bool × Bool × String) :=
  (p.m_organ.m_entities, p.m_organ.m_Manuals, p.m_organ.m_hasPedals, p.flags)

/-- The core with the collection of one kind masked. -/
def OrganFileParser.coreExcept (k : EntityKind) (p : OrganFileParser) :
    (EntityKind → List Entity) × List Manual × Bool × (String × Bool × Bool × Bool × String) :=
  (fun j => if j = k then [] else p.m_organ.m_entities j, p.m_organ.m_Manuals,
    p.m_organ.m_hasPedals, p.flags)

/-- The core without the divisions. -/
def OrganFileParser.coreNoManuals (p : OrganFileParser) :
    (EntityKind → List Entity) × Bool × (String × Bool × Bool × Bool × String) :=
  (p.m_organ.m_entities, p.m_organ.m_hasPedals, p.flags)

/-- A step keeps a view of the parser object. -/
def Keeps {α : Type} (view : OrganFileParser → α) (f : OrganFileParser → OrganFileParser) : Prop :=
  ∀ p, view (f p) = view p

/-- The class of the panel element created for a displayed entity of a kind. -/
def EntityKind.guiClass : EntityKind → Option ElementClass
  | .enclosure => some .GUIEnclosure
  | .switch => some .GUISwitch
  | .tremulant => some .GUITremulant
  | .reversiblePiston => some .GUIReversiblePiston
  | .divisionalCoupler => some .GUIDivisionalCoupler
  | .general => some .GUIGeneral
  | .windchestgroup => none
  | .rank => none

/-- The section name of entry `i` (0-based loop index) of a kind. -/
def entitySection (env : Env) (k : EntityKind) (i : Nat) : String :=
  k.groupName ++ env.number_format ((i : Int) + 1)

/-- The entity that `parseEntityStep` adds when the section of entry `i` is found. -/
def entityRead (env : Env) (k : EntityKind) (oldFormat : Bool) (i : Nat) : Entity :=
  env.readEntity k ("/" ++ entitySection env k i) (k.readsPanelFormat && oldFormat)

/-- The panel elements appended for an entity that has just been added at position `idx`. -/
def entityElements (k : EntityKind) (e : Entity) (idx : Nat) (path : String) : List GUIElement :=
  match k.guiClass with
  | some cls => if e.displayed = true then [⟨cls, cls.typeName, e.name, some (.organ k idx), path⟩] else []
  | none => []

/-- A parser state from which the blocks of `parseOrganSection` run: no fault so far and the
cursor at the root section. -/
def Ready (q : OrganFileParser) : Prop := q.m_fault = false ∧ q.m_path = "/Organ"

/-- The file index of the manual read in iteration `i`: the numbering starts at 0 with a pedal
and at 1 without. -/
def manualFileIndex (hasPedals : Bool) (i : Nat) : Int :=
  if hasPedals = false then (i : Int) + 1 else (i : Int)

/-- The section name consulted in iteration `i` of the manual loop. -/
def manualSection (env : Env) (hasPedals : Bool) (i : Nat) : String :=
  "Manual" ++ env.number_format (manualFileIndex hasPedals i)

/-- The division that `parseManualStep` adds when the section of iteration `i` is found. -/
def manualRead (env : Env) (oldFormat hasPedals : Bool) (i : Nat) : Manual :=
  ⟨decide (manualFileIndex hasPedals i = 0),
    env.readManual ("/" ++ manualSection env hasPedals i) oldFormat
      (decide (manualFileIndex hasPedals i = 0))⟩

/-- The panel elements appended for a division that has just been added at position `idx`. -/
def manualElements (m : Manual) (idx : Nat) (path : String) : List GUIElement :=
  if m.contents.displayed = true then
    [⟨.GUIManual, ElementClass.GUIManual.typeName, m.contents.name, some (.manual idx), path⟩]
  else []

/-! ## The block sequence of `parseOrganSection` -/

/-- The blocks that `parseOrganSection` runs after the root properties. -/
inductive Block
  | legacyRoot
  | entities (k : EntityKind)
  | manuals
  | setters
  | panels
  deriving DecidableEq, Repr

/-- The step of a block. -/
def Block.run (env : Env) : Block → OrganFileParser → OrganFileParser
  | .legacyRoot => parseLegacyRoot env
  | .entities k => parseEntities env k
  | .manuals => parseManuals env
  | .setters => parseRootSetters env
  | .panels => parsePanels env

/-- The blocks in the order of the source. -/
def organBlocks : List Block :=
  [.legacyRoot, .entities .enclosure, .entities .switch, .entities .tremulant,
    .entities .windchestgroup, .entities .rank, .manuals, .entities .reversiblePiston,
    .entities .divisionalCoupler, .entities .general, .setters, .panels]

/-- Run blocks one after the other. -/
def runBlocks (env : Env) (bs : List Block) (p : OrganFileParser) : OrganFileParser :=
  bs.foldl (fun s b => s.andThen (b.run env)) p

/-- The blocks that come before the setter elements and the panels: they raise no fault. -/
def Block.loadsEntities : Block → Bool
  | .setters => false
  | .panels => false
  | _ => true

/-- The parser object on which `parseOrganSection` is run when the root section exists. -/
def loadStart (env : Env) (filePath : String) (organ : Organ) : OrganFileParser :=
  { m_filePath := filePath,
    m_organ := { organ with m_odfRoot := env.fileDirectory filePath },
    m_path := "/",
    m_fileIsOk := true,
    m_organIsReady := false,
    m_isUsingOldPanelFormat := !env.hasGroup "/" "Panel000",
    m_errorMessage := "",
    m_fault := false,
    consulted := [("/", "Organ"), ("/", "Panel000")],
    lookups := [] }

/-- The state in which the blocks start: the root properties are read. -/
def rootState (env : Env) (filePath : String) (organ : Organ) : OrganFileParser :=
  readRootProperties env ((loadStart env filePath organ).SetPath "/Organ")

/-! ## Concrete stores for the examples -/

/-- A store written out as tables. A section listed in `sections` exists whatever the cursor is;
keys are looked up under the cursor. An entity read at a section is named by the section and is
displayed when the section is listed in `displayed`; a manual has the numbers of stops, couplers
and divisionals given for its section in `slotCounts`. -/
structure Ini where
  sections : List String
  longs : List (String × String × Int)
  strings : List (String × String × String)
  displayed : List String
  slotCounts : List (String × Nat × Nat × Nat)
  vocabulary : List String
  frameManuals : Int

/-- Look a key up under a cursor. -/
def lookupKey {α : Type} : List (String × String × α) → String → String → Option α
  | [], _, _ => none
  | (c, k, v) :: rest, cursor, key =>
    if c = cursor ∧ k = key then some v else lookupKey rest cursor key

/-- Three digits, zero padded. -/
def pad3 (n : Int) : String :=
  String.mk [Char.ofNat (48 + n.toNat / 100 % 10), Char.ofNat (48 + n.toNat / 10 % 10),
    Char.ofNat (48 + n.toNat % 10)]

/-- A decimal number without sign. -/
def parseDigits (cs : List Char) : Option Nat :=
  cs.foldl (fun acc c => acc.bind (fun n =>
    if 48 ≤ c.toNat ∧ c.toNat ≤ 57 then some (10 * n + (c.toNat - 48)) else none)) (some 0)

/-- The entities of one per-division collection of a manual read at a section. -/
def slotEntities (cursor kind : String) (n : Nat) : List Entity :=
  (List.range n).map (fun j => ⟨cursor ++ kind ++ pad3 ((j : Int) + 1), false⟩)

/-- The collaborators for a store written out as tables. -/
def Ini.env (f : Ini) : Env :=
  { hasGroup := fun _ name => decide (name ∈ f.sections)
    read := fun c key d => (lookupKey f.strings c key).getD d
    readLong := fun c key d => (lookupKey f.longs c key).getD d
    readDouble := fun _ _ d => d
    number_format := pad3
    parseBoolean := fun v d => if v = "Y" then true else if v = "N" then false else d
    checkIfFileExist := fun _ => ""
    fileDirectory := fun path => path
    toLong := fun s => if s.data = [] then none else (parseDigits s.data).map Int.ofNat
    readEntity := fun _ c _ => ⟨c, decide (c ∈ f.displayed)⟩
    readManual := fun c _ _ =>
      match f.slotCounts.find? (fun e => e.1 == c) with
      | some (_, ns, nc, nd) =>
        ⟨c, decide (c ∈ f.displayed), slotEntities c "Stop" ns, slotEntities c "Coupler" nc,
          slotEntities c "Divisional" nd⟩
      | none => ⟨c, decide (c ∈ f.displayed), [], [], []⟩
    readImage := fun c => some ⟨c⟩
    setterElements := f.vocabulary
    frameOrganNumberOfManuals := f.frameManuals }

/-- An organ as it is before a load: no entity, an empty main panel, amplitude level 100. -/
def emptyOrgan : Organ :=
  { m_odfRoot := "", m_churchName := "", m_churchAddress := "", m_organBuilder := "",
    m_organBuildDate := "", m_organComments := "", m_recordingDetails := "",
    m_infoFilename := "", m_divisionalsStoreIntermanualCouplers := true,
    m_divisionalsStoreIntramanualCouplers := true, m_divisionalsStoreTremulants := true,
    m_generalsStoreDivisionalCouplers := true, m_combinationsStoreNonDisplayedDrawstops := true,
    m_amplitudeLevel := 100, m_gain := 0, m_pitchTuning := 0, m_pitchCorrection := 0,
    m_trackerDelay := 0, m_hasPedals := false, m_entities := fun _ => [], m_Manuals := [],
    m_mainPanel := ⟨none, none, [], []⟩, m_extraPanels := [] }

/-- A file without an `Organ` section. -/
def noOrganIni : Ini :=
  { sections := ["Panel000", "Enclosure001"], longs := [("/Organ", "NumberOfEnclosures", 1)],
    strings := [], displayed := [], slotCounts := [], vocabulary := [], frameManuals := 0 }

/-- A file with an `Organ` section only. -/
def organOnlyIni : Ini :=
  { sections := ["Organ"], longs := [], strings := [], displayed := [], slotCounts := [],
    vocabulary := [], frameManuals := 0 }

/-- Scenario B: two enclosures declared, only the section of the first exists. -/
def scenarioB : Ini :=
  { sections := ["Organ", "Enclosure001"], longs := [("/Organ", "NumberOfEnclosures", 2)],
    strings := [], displayed := [], slotCounts := [], vocabulary := [], frameManuals := 0 }

/-- The store of a table file that resolves a section name relative to the cursor: the sections
of the file are found when asked for from the root and from the root section `Organ`, and not
when asked for from the section of an entry. Everything else is as in `Ini.env`. -/
def Ini.rootedEnv (f : Ini) : Env :=
  { f.env with
    hasGroup := fun c name => decide (c = "/" ∨ c = "/Organ") && decide (name ∈ f.sections) }

/-- Two enclosures declared, and both sections exist. -/
def twoEnclosuresIni : Ini :=
  { sections := ["Organ", "Enclosure001", "Enclosure002"],
    longs := [("/Organ", "NumberOfEnclosures", 2)],
    strings := [], displayed := [], slotCounts := [], vocabulary := [], frameManuals := 0 }

/-- Three enclosures declared; the sections of the first and of the third exist. -/
def secondEnclosureMissingIni : Ini :=
  { sections := ["Organ", "Enclosure001", "Enclosure003"],
    longs := [("/Organ", "NumberOfEnclosures", 3)],
    strings := [], displayed := [], slotCounts := [], vocabulary := [], frameManuals := 0 }

/-! ## Vocabulary of the statements: consulted sections -/

/-- The cursor and the list of consulted sections. -/
def OrganFileParser.trail (p : OrganFileParser) : String × List (String × String) :=
  (p.m_path, p.consulted)

/-- The name of the section consulted for entry `i` (0-based) of a numbered collection. -/
def numberedSection (env : Env) (groupName : String) (i : Nat) : String :=
  groupName ++ env.number_format ((i : Int) + 1)

/-- The number of iterations of the manual loop for an accepted count: one more with a pedal. -/
def manualIterations (hasPedals : Bool) (nbrManuals : Int) : Nat :=
  if hasPedals = true then nbrManuals.toNat + 1 else nbrManuals.toNat

/-- One enclosure declared, and its section exists. -/
def oneEnclosureIni : Ini :=
  { sections := ["Organ", "Enclosure001"], longs := [("/Organ", "NumberOfEnclosures", 1)],
    strings := [], displayed := [], slotCounts := [], vocabulary := [], frameManuals := 0 }

/-- Fifty-one enclosures declared; the section of the first exists. -/
def tooManyEnclosuresIni : Ini :=
  { sections := ["Organ", "Enclosure001"], longs := [("/Organ", "NumberOfEnclosures", 51)],
    strings := [], displayed := [], slotCounts := [], vocabulary := [], frameManuals := 0 }

/-- Scenario A: one manual declared, a pedal declared, the sections Manual000 and Manual001
exist. -/
def scenarioA : Ini :=
  { sections := ["Organ", "Manual000", "Manual001"],
    longs := [("/Organ", "NumberOfManuals", 1)],
    strings := [("/Organ", "HasPedals", "Y")], displayed := [], slotCounts := [],
    vocabulary := [], frameManuals := 0 }

/-- A pedal and one manual declared, but the section Manual000 of the pedal is missing. -/
def pedalSectionMissingIni : Ini :=
  { sections := ["Organ", "Manual001"],
    longs := [("/Organ", "NumberOfManuals", 1)],
    strings := [("/Organ", "HasPedals", "Y")], displayed := [], slotCounts := [],
    vocabulary := [], frameManuals := 0 }

/-! ## Vocabulary of the statements: lookups made while a panel is laid out -/

/-- A step only adds to the list of lookups. -/
def GrowsLookups (f : OrganFileParser → OrganFileParser) : Prop :=
  ∀ p, ∃ rest, (f p).lookups = p.lookups ++ rest

/-- The index at which the source looks a division up for the file index `f`. -/
def divisionIndex (hasPedals : Bool) (f : Int) : Int :=
  if hasPedals = false ∧ f > 0 then f - 1 else f

/-- A pedal with two stops and one manual; the main panel declares one element, a stop element
for slot 1 of division 0. -/
def pedalStopIni : Ini :=
  { sections := ["Organ", "Panel000", "Manual000", "Manual001", "Panel000Element001"],
    longs := [("/Organ", "NumberOfManuals", 1), ("/Panel000", "NumberOfGUIElements", 1),
      ("/Panel000Element001", "Manual", 0), ("/Panel000Element001", "Stop", 1)],
    strings := [("/Organ", "HasPedals", "Y"), ("/Panel000Element001", "Type", "Stop")],
    displayed := [], slotCounts := [("/Manual000", 2, 0, 0)], vocabulary := [],
    frameManuals := 0 }

/-- The state in which the element section of `pedalStopIni` is dispatched: both divisions are
loaded and the cursor is at the element section. -/
def pedalStopState : OrganFileParser :=
  (parseManuals pedalStopIni.env (rootState pedalStopIni.env "demo.organ" emptyOrgan)).SetPath
    "/Panel000Element001"

/-- No pedal, one manual with two stops; the main panel declares one element, a stop element for
slot 1 of file manual 1, the one and only division. -/
def lastManualStopIni : Ini :=
  { sections := ["Organ", "Panel000", "Manual001", "Panel000Element001"],
    longs := [("/Organ", "NumberOfManuals", 1), ("/Panel000", "NumberOfGUIElements", 1),
      ("/Panel000Element001", "Manual", 1), ("/Panel000Element001", "Stop", 1)],
    strings := [("/Panel000Element001", "Type", "Stop")],
    displayed := [], slotCounts := [("/Manual001", 2, 0, 0)], vocabulary := [],
    frameManuals := 0 }

/-- The store of `pedalStopIni` with a legacy panel `Panel001` that refers to the same stop:
`Stop001Manual=0`, `Stop001=1`, section `Panel001Stop001`. -/
def legacyStopIni : Ini :=
  { pedalStopIni with
    sections := pedalStopIni.sections ++ ["Panel001", "Panel001Stop001"],
    longs := pedalStopIni.longs ++ [("/Panel001", "Stop001Manual", 0), ("/Panel001", "Stop001", 1)] }

/-- The state in which the legacy panel of `legacyStopIni` would be laid out: both divisions are
loaded and the cursor is at the panel section. -/
def legacyStopState : OrganFileParser :=
  (parseManuals legacyStopIni.env (rootState legacyStopIni.env "demo.organ" emptyOrgan)).SetPath
    "/Panel001"

/-! ## Stores and states for the panel elements -/

/-- The state in which the type of element section `i` is dispatched: the section is noted as
consulted and the cursor is set to it. -/
def elementState (env : Env) (panelId : String) (i : Nat) (p : OrganFileParser) :
    OrganFileParser :=
  (p.consult (panelId ++ numberedSection env "Element" i)).SetPath
    ("/" ++ panelId ++ numberedSection env "Element" i)

/-- Scenario C: a pedal and one manual; division 1, read at Manual001, has two stops; the seventh
element section of the main panel asks for stop 3 of manual 1. -/
def scenarioC : Ini :=
  { sections := ["Organ", "Panel000", "Manual000", "Manual001", "Panel000Element007"],
    longs := [("/Organ", "NumberOfManuals", 1), ("/Panel000", "NumberOfGUIElements", 7),
      ("/Panel000Element007", "Manual", 1), ("/Panel000Element007", "Stop", 3)],
    strings := [("/Organ", "HasPedals", "Y"), ("/Panel000Element007", "Type", "Stop")],
    displayed := [], slotCounts := [("/Manual001", 2, 0, 0)], vocabulary := [],
    frameManuals := 0 }

/-- The state in which the element sections of `scenarioC` are gone through: both divisions are
loaded and the cursor is at the panel section. -/
def scenarioCState : OrganFileParser :=
  (parseManuals scenarioC.env (rootState scenarioC.env "demo.organ" emptyOrgan)).SetPath
    "/Panel000"

/-- One enclosure; the main panel declares an enclosure element for it and a tremulant element
without a `Tremulant` key. -/
def enclosureElementIni : Ini :=
  { sections := ["Organ", "Panel000", "Enclosure001", "Panel000Element001", "Panel000Element002"],
    longs := [("/Organ", "NumberOfEnclosures", 1), ("/Panel000", "NumberOfGUIElements", 2),
      ("/Panel000Element001", "Enclosure", 1)],
    strings := [("/Panel000Element001", "Type", "Enclosure"),
      ("/Panel000Element002", "Type", "Tremulant")],
    displayed := [], slotCounts := [], vocabulary := [], frameManuals := 0 }

/-- The state in which the element sections of `enclosureElementIni` are gone through: the
enclosure is loaded and the cursor is at the panel section. -/
def enclosureElementState : OrganFileParser :=
  (parseEntities enclosureElementIni.env .enclosure
    (rootState enclosureElementIni.env "demo.organ" emptyOrgan)).SetPath "/Panel000"

/-- A legacy file whose only entry is the root-level setter element `SetterElement001` of a given
type; the vocabulary of setter element names is a parameter, the organ of the frame has two
manuals. -/
def setterElementIni (ty : String) (vocabulary : List String) : Ini :=
  { sections := ["Organ", "SetterElement001"],
    longs := [("/Organ", "NumberOfSetterElements", 1)],
    strings := [("/SetterElement001", "Type", ty)],
    displayed := [], slotCounts := [], vocabulary := vocabulary, frameManuals := 2 }

/-- A legacy file with a pedal division, one manual, one displayed enclosure and one root-level
setter element of type Swell. -/
def swellLegacyIni : Ini :=
  { sections := ["Organ", "Manual000", "Manual001", "Enclosure001", "SetterElement001"],
    longs := [("/Organ", "NumberOfManuals", 1), ("/Organ", "NumberOfEnclosures", 1),
      ("/Organ", "NumberOfSetterElements", 1)],
    strings := [("/Organ", "HasPedals", "Y"), ("/SetterElement001", "Type", "Swell")],
    displayed := ["/Enclosure001"], slotCounts := [], vocabulary := [], frameManuals := 2 }

/-- The modern file with the same content: `Panel000` declares an Enclosure element for the
enclosure and an element of type Swell. -/
def swellModernIni : Ini :=
  { sections := ["Organ", "Panel000", "Manual000", "Manual001", "Enclosure001",
      "Panel000Element001", "Panel000Element002"],
    longs := [("/Organ", "NumberOfManuals", 1), ("/Organ", "NumberOfEnclosures", 1),
      ("/Panel000", "NumberOfGUIElements", 2), ("/Panel000Element001", "Enclosure", 1)],
    strings := [("/Organ", "HasPedals", "Y"), ("/Panel000Element001", "Type", "Enclosure"),
      ("/Panel000Element002", "Type", "Swell")],
    displayed := [], slotCounts := [], vocabulary := [], frameManuals := 2 }

/-- The part of a panel element that does not depend on the section it was read at: class, type,
display name and functional entity. -/
def GUIElement.shape (e : GUIElement) : ElementClass × String × String × Option EntityRef :=
  (e.cls, e.m_type, e.m_displayName, e.target)

/-- A legacy file whose root-level setter element has type PitchLabel. -/
def pitchLabelIni : Ini := setterElementIni "PitchLabel" []

/-- The state in which the setter element of `pitchLabelIni` is dispatched. -/
def pitchLabelState : OrganFileParser :=
  ((rootState pitchLabelIni.env "demo.organ" emptyOrgan).consult "SetterElement001").SetPath
    "/SetterElement001"

/-! ## Vocabulary of the statements: root properties -/

/-- The root properties of the organ: everything but the collections, the divisions and the
panels. -/
def Organ.rootProps (o : Organ) :
    (String × String × String × String × String × String × String × String) ×
      (Bool × Bool × Bool × Bool × Bool) × (Rat × Rat × Rat × Rat) × Nat × Bool :=
  ((o.m_odfRoot, o.m_churchName, o.m_churchAddress, o.m_organBuilder, o.m_organBuildDate,
      o.m_organComments, o.m_recordingDetails, o.m_infoFilename),
    (o.m_divisionalsStoreIntermanualCouplers, o.m_divisionalsStoreIntramanualCouplers,
      o.m_divisionalsStoreTremulants, o.m_generalsStoreDivisionalCouplers,
      o.m_combinationsStoreNonDisplayedDrawstops),
    (o.m_amplitudeLevel, o.m_gain, o.m_pitchTuning, o.m_pitchCorrection),
    o.m_trackerDelay, o.m_hasPedals)

/-- The root properties of the organ of the parser. -/
def OrganFileParser.rootProps (p : OrganFileParser) :
    (String × String × String × String × String × String × String × String) ×
      (Bool × Bool × Bool × Bool × Bool) × (Rat × Rat × Rat × Rat) × Nat × Bool :=
  p.m_organ.rootProps

/-! ## Stores for the numeric root properties -/

/-- A file whose root section gives a tracker delay. -/
def trackerDelayIni (t : Int) : Ini :=
  { sections := ["Organ"], longs := [("/Organ", "TrackerDelay", t)], strings := [],
    displayed := [], slotCounts := [], vocabulary := [], frameManuals := 0 }

/-- An organ that comes with a tracker delay of 300. -/
def delayedOrgan : Organ := { emptyOrgan with m_trackerDelay := 300 }

/-! ## Stores for the lookups, the cursor and the additional panels -/

/-- Whether a lookup is made inside its collection. -/
def Lookup.inRange (l : Lookup) : Bool := decide (0 ≤ l.index ∧ l.index < (l.size : Int))

/-- The store of `pedalStopIni` with the stop element asking for slot 2, the number of stops of
division 0. -/
def slotAtCountIni : Ini :=
  { sections := ["Organ", "Panel000", "Manual000", "Manual001", "Panel000Element001"],
    longs := [("/Organ", "NumberOfManuals", 1), ("/Panel000", "NumberOfGUIElements", 1),
      ("/Panel000Element001", "Manual", 0), ("/Panel000Element001", "Stop", 2)],
    strings := [("/Organ", "HasPedals", "Y"), ("/Panel000Element001", "Type", "Stop")],
    displayed := [], slotCounts := [("/Manual000", 2, 0, 0)], vocabulary := [],
    frameManuals := 0 }

/-- A pedal and one manual; the main panel declares one element of type Manual with `Manual=2`,
the number of divisions. -/
def manualAtCountIni : Ini :=
  { sections := ["Organ", "Panel000", "Manual000", "Manual001", "Panel000Element001"],
    longs := [("/Organ", "NumberOfManuals", 1), ("/Panel000", "NumberOfGUIElements", 1),
      ("/Panel000Element001", "Manual", 2)],
    strings := [("/Organ", "HasPedals", "Y"), ("/Panel000Element001", "Type", "Manual")],
    displayed := [], slotCounts := [], vocabulary := [], frameManuals := 0 }

/-- A pedal and one manual; the legacy panel `Panel001` refers with `Stop001Manual=2` to the
number of divisions. -/
def legacyManualAtCountIni : Ini :=
  { sections := ["Organ", "Panel000", "Manual000", "Manual001", "Panel001", "Panel001Stop001"],
    longs := [("/Organ", "NumberOfManuals", 1), ("/Panel001", "NumberOfStops", 1),
      ("/Panel001", "Stop001Manual", 2), ("/Panel001", "Stop001", 1)],
    strings := [("/Organ", "HasPedals", "Y")],
    displayed := [], slotCounts := [("/Manual000", 2, 0, 0)], vocabulary := [],
    frameManuals := 0 }

/-- The state in which the legacy panel of `legacyManualAtCountIni` would be laid out. -/
def legacyManualAtCountState : OrganFileParser :=
  (parseManuals legacyManualAtCountIni.env
    (rootState legacyManualAtCountIni.env "demo.organ" emptyOrgan)).SetPath "/Panel001"

/-- A modern file with one additional panel, `Panel001`, that declares one element of type
Label. -/
def extraPanelIni : Ini :=
  { sections := ["Organ", "Panel000", "Panel001", "Panel001Element001"],
    longs := [("/Organ", "NumberOfPanels", 1), ("/Panel001", "NumberOfGUIElements", 1)],
    strings := [("/Panel001Element001", "Type", "Label")],
    displayed := [], slotCounts := [], vocabulary := [], frameManuals := 0 }

/-- A modern file with one additional panel, `Panel001`, in the legacy layout: it has no element
count and one setter element of type PitchLabel. -/
def legacyPanelSetterIni : Ini :=
  { sections := ["Organ", "Panel000", "Panel001", "Panel001SetterElement001"],
    longs := [("/Organ", "NumberOfPanels", 1), ("/Panel001", "NumberOfSetterElements", 1)],
    strings := [("/Panel001SetterElement001", "Type", "PitchLabel")],
    displayed := [], slotCounts := [], vocabulary := [], frameManuals := 0 }

/-- The state after the load of `legacyPanelSetterIni`, with the cursor at the section of the
additional panel: the state in which `parsePanelElements` would lay that panel out. -/
def legacyPanelSetterState : OrganFileParser :=
  (newOrganFileParser legacyPanelSetterIni.env "demo.organ" emptyOrgan).SetPath "/Panel001"

/-- The state after the load of `extraPanelIni`, with the cursor at the section of the additional
panel. -/
def extraPanelState : OrganFileParser :=
  (newOrganFileParser extraPanelIni.env "demo.organ" emptyOrgan).SetPath "/Panel001"

/-- No pedal, one manual and one enclosure, both displayed, in a legacy file. -/
def displayedIni : Ini :=
  { sections := ["Organ", "Manual001", "Enclosure001", "WindchestGroup001"],
    longs := [("/Organ", "NumberOfManuals", 1), ("/Organ", "NumberOfEnclosures", 1),
      ("/Organ", "NumberOfWindchestGroups", 1)],
    strings := [],
    displayed := ["/Enclosure001", "/Manual001", "/WindchestGroup001"], slotCounts := [],
    vocabulary := [], frameManuals := 0 }

/-- A pedal with two stops and one manual; the legacy panel `Panel001` has one Stop entry that
refers to stop 2 of division 0; the section of the entry is `Panel001Stop001`. -/
def legacySecondStopIni : Ini :=
  { sections := ["Organ", "Panel000", "Manual000", "Manual001", "Panel001", "Panel001Stop001"],
    longs := [("/Organ", "NumberOfManuals", 1), ("/Panel001", "NumberOfStops", 1),
      ("/Panel001", "Stop001Manual", 0), ("/Panel001", "Stop001", 2)],
    strings := [("/Organ", "HasPedals", "Y")],
    displayed := [], slotCounts := [("/Manual000", 2, 0, 0)], vocabulary := [],
    frameManuals := 0 }

/-- The state in which the legacy panel of `legacySecondStopIni` would be laid out. -/
def legacySecondStopState : OrganFileParser :=
  (parseManuals legacySecondStopIni.env
    (rootState legacySecondStopIni.env "demo.organ" emptyOrgan)).SetPath "/Panel001"

/-- The state in which a root-level setter element of `setterElementIni` is dispatched. -/
def setterElementState (ty : String) (vocabulary : List String) : OrganFileParser :=
  ((rootState (setterElementIni ty vocabulary).env "demo.organ" emptyOrgan).consult
    "SetterElement001").SetPath "/SetterElement001"

/-- The section of an element of a panel in the modern layout. -/
def isElementSection (env : Env) (panelId name : String) : Prop :=
  ∃ i : Nat, name = panelId ++ numberedSection env "Element" i

/-- The kinds whose sections a panel in the legacy layout has. -/
def legacyKinds : List String :=
  ["Manual", "SetterElement", "Enclosure", "Tremulant", "ReversiblePiston", "Switch", "General",
    "DivisionalCoupler", "Stop", "Coupler", "Divisional", "Label"]

/-- A section of a panel in the legacy layout: panel id, kind and number. -/
def isLegacySection (env : Env) (panelId name : String) : Prop :=
  ∃ kind ∈ legacyKinds, ∃ n : Int, name = panelId ++ kind ++ env.number_format n

/-- A step consults only sections of one sort, and forgets none of the earlier ones. -/
def ConsultsOnly (P : String → Prop) (f : OrganFileParser → OrganFileParser) : Prop :=
  ∀ p, ∃ l, (f p).consulted = p.consulted ++ l ∧ ∀ x ∈ l, P x.2

/-- A modern file with one additional panel, `Panel001`, whose section has the key
`NumberOfGUIElements` with the value 0, an element section and, in the legacy layout, one
label. -/
def zeroCountPanelIni : Ini :=
  { sections := ["Organ", "Panel000", "Panel001", "Panel001Element001", "Panel001Label001"],
    longs := [("/Organ", "NumberOfPanels", 1), ("/Panel001", "NumberOfGUIElements", 0),
      ("/Panel001", "NumberOfLabels", 1)],
    strings := [("/Panel001Element001", "Type", "Label")],
    displayed := [], slotCounts := [], vocabulary := [], frameManuals := 0 }

/-- The state after the load of `zeroCountPanelIni`, with the cursor at the section of the
additional panel. -/
def zeroCountPanelState : OrganFileParser :=
  (newOrganFileParser zeroCountPanelIni.env "demo.organ" emptyOrgan).SetPath "/Panel001"

/-! ## Vocabulary of the statements: what an operation appends -/

/-- The organ `o2` has everything `o1` has, in the same place: each entity collection, the
division collection and the element list of each panel of `o1` is a prefix of the one of `o2`. -/
def Organ.Extends (o1 o2 : Organ) : Prop :=
  (∀ k, o1.m_entities k <+: o2.m_entities k) ∧
  o1.m_Manuals <+: o2.m_Manuals ∧
  (∀ t pnl, o1.getOrganPanelAt t = some pnl →
    ∃ pnl2, o2.getOrganPanelAt t = some pnl2 ∧ pnl.m_guiElements <+: pnl2.m_guiElements)

/-- A step only appends to the organ. -/
def AppendOnly (f : OrganFileParser → OrganFileParser) : Prop :=
  ∀ p : OrganFileParser, p.m_organ.Extends (f p).m_organ

/-! ## What a step leaves alone -/

theorem Keeps.comp {α β : Type} {view : OrganFileParser → α} {f : OrganFileParser → OrganFileParser}
    (h : Keeps view f) (g : α → β) : Keeps (fun p => g (view p)) f :=
  fun p => congrArg g (h p)

theorem keeps_andThen {α : Type} {view : OrganFileParser → α}
    {f : OrganFileParser → OrganFileParser} (h : Keeps view f) (p : OrganFileParser) :
    view (p.andThen f) = view p := by
  unfold OrganFileParser.andThen
  split
  · rfl
  · exact h p

theorem forLoop_natCast_succ (n : Nat) (body : Nat → OrganFileParser → OrganFileParser)
    (p : OrganFileParser) :
    forLoop ((n : Int) + 1) body p = (forLoop (n : Int) body p).andThen (body n) := by
  have h : ((n : Int) + 1).toNat = n + 1 := by omega
  simp [forLoop, h, List.range_succ, List.foldl_append]

theorem forLoop_nonpos (n : Int) (hn : n ≤ 0) (body : Nat → OrganFileParser → OrganFileParser)
    (p : OrganFileParser) : forLoop n body p = p := by
  have h : n.toNat = 0 := by omega
  simp [forLoop, h]

theorem forLoop_toNat (n : Int) (body : Nat → OrganFileParser → OrganFileParser)
    (p : OrganFileParser) : forLoop n body p = forLoop (n.toNat : Int) body p := by
  unfold forLoop
  rw [Int.toNat_ofNat]

/-- Loop invariant rule: `inv i` holds before iteration `i`. -/
theorem forLoop_induct (body : Nat → OrganFileParser → OrganFileParser)
    (inv : Nat → OrganFileParser → Prop) (n : Nat) (p : OrganFileParser) (h0 : inv 0 p)
    (hs : ∀ i q, i < n → inv i q → inv (i + 1) (q.andThen (body i))) :
    inv n (forLoop (n : Int) body p) := by
  induction n with
  | zero => simpa [forLoop] using h0
  | succ m ih =>
    have hm := ih (fun i q hi hq => hs i q (Nat.lt_succ_of_lt hi) hq)
    have := hs m _ (Nat.lt_succ_self m) hm
    rw [show ((m + 1 : Nat) : Int) = (m : Int) + 1 by push_cast; rfl, forLoop_natCast_succ]
    exact this

theorem keeps_forLoop {α : Type} {view : OrganFileParser → α}
    {body : Nat → OrganFileParser → OrganFileParser} (h : ∀ i, Keeps view (body i)) (n : Int) :
    Keeps view (forLoop n body) := by
  intro p
  rw [forLoop_toNat]
  refine forLoop_induct body (fun _ q => view q = view p) n.toNat p rfl ?_
  intro i q _ hq
  rw [keeps_andThen (h i), hq]

theorem core_modifyPanel (p : OrganFileParser) (g : GoPanel → GoPanel) (t : Nat) :
    OrganFileParser.core { p with m_organ := p.m_organ.modifyPanel g t } = p.core := by
  cases t <;> rfl

theorem core_addGuiElement (p : OrganFileParser) (t : Nat) (e : GUIElement) :
    (p.addGuiElement t e).core = p.core := by
  cases t <;> rfl

theorem core_withEntityAt (k : EntityKind) (i : Int)
    {cont : EntityRef → OrganFileParser → OrganFileParser}
    (h : ∀ r, Keeps OrganFileParser.core (cont r)) :
    Keeps OrganFileParser.core (fun p => withEntityAt p k i cont) := by
  intro p
  simp only [withEntityAt]
  split
  · rw [h]; rfl
  · rfl

theorem core_withManualAt (i : Int) {cont : Nat → Manual → OrganFileParser → OrganFileParser}
    (h : ∀ mi man, Keeps OrganFileParser.core (cont mi man)) :
    Keeps OrganFileParser.core (fun p => withManualAt p i cont) := by
  intro p
  simp only [withManualAt]
  split
  · rw [h]; rfl
  · rfl

theorem core_withSlotAt (k : SlotKind) (mi : Nat) (man : Manual) (i : Int)
    {cont : EntityRef → OrganFileParser → OrganFileParser}
    (h : ∀ r, Keeps OrganFileParser.core (cont r)) :
    Keeps OrganFileParser.core (fun p => withSlotAt p k mi man i cont) := by
  intro p
  simp only [withSlotAt]
  split
  · rw [h]; rfl
  · rfl

theorem core_withLastGuiElement (t : Nat) (f : GUIElement → GUIElement) :
    Keeps OrganFileParser.core (fun p => withLastGuiElement p t f) := by
  intro p
  simp only [withLastGuiElement]
  split
  · rfl
  · split
    · rfl
    · cases t <;> rfl

theorem core_createNamedElement (cls : ElementClass) (t : Nat) (e : Option EntityRef) :
    Keeps OrganFileParser.core (fun p => createNamedElement cls p t e) := by
  intro p
  simp only [createNamedElement]
  split
  · rfl
  · split
    · rfl
    · exact core_addGuiElement _ _ _

theorem core_createGUILabel (t : Nat) :
    Keeps OrganFileParser.core (fun p => createGUILabel p t) :=
  fun p => core_addGuiElement p t _

theorem core_createGUIDivisional (t : Nat) (e : Option EntityRef) :
    Keeps OrganFileParser.core (fun p => createGUIDivisional p t e) :=
  fun p => core_addGuiElement p t _

theorem core_createGUIEntity (k : EntityKind) (t : Nat) (e : Option EntityRef) :
    Keeps OrganFileParser.core (fun p => createGUIEntity k p t e) := by
  intro p
  cases k <;> first | rfl | exact core_createNamedElement _ t e p

theorem core_createGUISlot (k : SlotKind) (t : Nat) (e : Option EntityRef) :
    Keeps OrganFileParser.core (fun p => createGUISlot k p t e) := by
  intro p
  cases k
  · exact core_createNamedElement _ t e p
  · exact core_createNamedElement _ t e p
  · exact core_createGUIDivisional t e p

theorem core_overrideLast (t : Nat) (ty : String) (b : Bool) :
    Keeps OrganFileParser.core (fun p => overrideLast p t ty b) :=
  fun p => core_withLastGuiElement t _ p

theorem core_createFromSetterElement (env : Env) (t : Nat) (ty : String) :
    Keeps OrganFileParser.core (fun p => createFromSetterElement env p t ty) := by
  intro p
  have hl : ∀ b, ((createGUILabel p t).andThen (fun q => overrideLast q t ty b)).core = p.core :=
    fun b => (keeps_andThen (core_overrideLast t ty b) _).trans (core_createGUILabel t p)
  have hd : ∀ b, ((createGUIDivisional p t none).andThen
      (fun q => overrideLast q t ty b)).core = p.core :=
    fun b => (keeps_andThen (core_overrideLast t ty b) _).trans (core_createGUIDivisional t none p)
  have hg : ∀ b, ((createGUIGeneral p t none).andThen
      (fun q => overrideLast q t ty b)).core = p.core :=
    fun b => (keeps_andThen (core_overrideLast t ty b) _).trans
      (core_createNamedElement _ t none p)
  have hs : ∀ b, ((createGUISwitch p t none).andThen
      (fun q => overrideLast q t ty b)).core = p.core :=
    fun b => (keeps_andThen (core_overrideLast t ty b) _).trans
      (core_createNamedElement _ t none p)
  have he : (createGUIEnclosure p t none).core = p.core := core_createNamedElement _ t none p
  simp only [createFromSetterElement]
  repeat' split
  all_goals first | rfl | exact hl _ | exact hd _

theorem core_ite {c : Prop} [Decidable c] {a b p : OrganFileParser} (ha : a.core = p.core)
    (hb : b.core = p.core) : (if c then a else b).core = p.core := by
  split <;> assumption

theorem core_modernSlotElement (env : Env) (k : SlotKind) (t : Nat) :
    Keeps OrganFileParser.core (modernSlotElement env k t) := by
  intro p
  simp only [modernSlotElement]
  split
  · refine core_withManualAt _ ?_ p
    intro mi man q
    dsimp only
    split
    · exact core_withSlotAt k mi man _ (fun r => core_createGUISlot k t (some r)) q
    · rfl
  · rfl

theorem core_modernEntityElement (env : Env) (k : EntityKind) (t : Nat) :
    Keeps OrganFileParser.core (modernEntityElement env k t) := by
  intro p
  simp only [modernEntityElement]
  split
  · exact core_withEntityAt k _ (fun r => core_createGUIEntity k t (some r)) p
  · rfl

theorem core_modernManualElement (env : Env) (t : Nat) :
    Keeps OrganFileParser.core (modernManualElement env t) := by
  intro p
  simp only [modernManualElement]
  split
  · exact core_withManualAt _ (fun mi _ => core_createNamedElement _ t (some (.manual mi))) p
  · rfl

theorem core_modernElement (env : Env) (t : Nat) (panelId : String) (i : Nat) :
    Keeps OrganFileParser.core (modernElement env t panelId i) := by
  intro p
  simp only [modernElement]
  refine core_ite ?_ rfl
  refine core_ite (core_modernSlotElement env _ t _) ?_
  refine core_ite (core_modernSlotElement env _ t _) ?_
  refine core_ite (core_modernSlotElement env _ t _) ?_
  refine core_ite (core_modernEntityElement env _ t _) ?_
  refine core_ite (core_modernEntityElement env _ t _) ?_
  refine core_ite (core_modernEntityElement env _ t _) ?_
  refine core_ite (core_modernEntityElement env _ t _) ?_
  refine core_ite (core_modernEntityElement env _ t _) ?_
  refine core_ite (core_modernEntityElement env _ t _) ?_
  refine core_ite (core_createGUILabel t _) ?_
  exact core_ite (core_modernManualElement env t _) (core_createFromSetterElement env t _ _)

theorem core_setPath (path : String) :
    Keeps OrganFileParser.core (fun q => q.SetPath path) := fun _ => rfl

theorem core_legacyManualEntry (env : Env) (t : Nat) (panelId : String) (i : Nat) :
    Keeps OrganFileParser.core (legacyManualEntry env t panelId i) := by
  intro p
  simp only [legacyManualEntry]
  rw [keeps_andThen (core_setPath _)]
  repeat' split
  all_goals first
    | rfl
    | exact core_withManualAt _ (fun mi _ => core_createNamedElement _ t (some (.manual mi))) _

theorem core_legacySetterEntry (env : Env) (panelId : String) (i : Nat) :
    Keeps OrganFileParser.core (legacySetterEntry env panelId i) := by
  intro p
  simp only [legacySetterEntry]
  rw [keeps_andThen (core_setPath _)]
  repeat' split
  all_goals first
    | rfl
    | exact core_createFromSetterElement env 0 _ _

theorem core_legacyEntityEntry (env : Env) (k : EntityKind) (t : Nat) (panelId : String)
    (i : Nat) : Keeps OrganFileParser.core (legacyEntityEntry env k t panelId i) := by
  intro p
  simp only [legacyEntityEntry]
  rw [keeps_andThen (core_setPath _)]
  repeat' split
  all_goals first
    | rfl
    | exact core_withEntityAt k _ (fun r => core_createGUIEntity k t (some r)) _

theorem core_legacySlotEntry (env : Env) (k : SlotKind) (t : Nat) (panelId : String)
    (i : Nat) : Keeps OrganFileParser.core (legacySlotEntry env k t panelId i) := by
  intro p
  simp only [legacySlotEntry]
  rw [keeps_andThen (core_setPath _)]
  split
  · refine core_withManualAt _ ?_ p
    intro mi man q
    dsimp only
    repeat' split
    all_goals first
      | rfl
      | exact core_withSlotAt k mi man _ (fun r => core_createGUISlot k t (some r)) _
  · rfl

theorem core_legacyLabelEntry (env : Env) (t : Nat) (panelId : String) (i : Nat) :
    Keeps OrganFileParser.core (legacyLabelEntry env t panelId i) := by
  intro p
  simp only [legacyLabelEntry]
  rw [keeps_andThen (core_setPath _)]
  split
  · exact core_createGUILabel t _
  · rfl

theorem core_legacyLoop (env : Env) (key : String)
    {body : Nat → OrganFileParser → OrganFileParser}
    (h : ∀ i, Keeps OrganFileParser.core (body i)) :
    Keeps OrganFileParser.core (legacyLoop env key body) :=
  fun p => keeps_forLoop h _ p

theorem core_parsePanelElements (env : Env) (t : Nat) (panelId : String) :
    Keeps OrganFileParser.core (fun p => parsePanelElements env p t panelId) := by
  intro p
  simp only [parsePanelElements]
  split
  · split
    · rw [keeps_andThen (core_setPath _)]
      exact keeps_forLoop (core_modernElement env t panelId) _ p
    · rfl
  · have hE := fun k => core_legacyLoop env (EntityKind.countKey k)
      (core_legacyEntityEntry env k t panelId)
    have hS := fun k => core_legacyLoop env (SlotKind.countKey k)
      (core_legacySlotEntry env k t panelId)
    rw [keeps_andThen (core_legacyLoop env _ (core_legacyLabelEntry env t panelId)),
      keeps_andThen (hS _), keeps_andThen (hS _), keeps_andThen (hS _),
      keeps_andThen (hE _), keeps_andThen (hE _), keeps_andThen (hE _),
      keeps_andThen (hE _), keeps_andThen (hE _), keeps_andThen (hE _),
      keeps_andThen (core_legacyLoop env _ (core_legacySetterEntry env panelId))]
    exact core_legacyLoop env _ (core_legacyManualEntry env t panelId) p

theorem core_countedBlock (env : Env) (key : String) (maxCount : Int)
    {body : Nat → OrganFileParser → OrganFileParser}
    (h : ∀ i, Keeps OrganFileParser.core (body i)) :
    Keeps OrganFileParser.core (countedBlock env key maxCount body) := by
  intro p
  simp only [countedBlock]
  split
  · rw [keeps_andThen (core_setPath _)]
    exact keeps_forLoop h _ p
  · rfl

theorem core_legacyImageStep (env : Env) (i : Nat) :
    Keeps OrganFileParser.core (legacyImageStep env i) := by
  intro p
  simp only [legacyImageStep]
  repeat' split
  all_goals rfl

theorem core_legacyRootLabelStep (env : Env) (i : Nat) :
    Keeps OrganFileParser.core (legacyRootLabelStep env i) := by
  intro p
  simp only [legacyRootLabelStep]
  split
  · exact core_createGUILabel 0 _
  · rfl

theorem core_parseLegacyRoot (env : Env) :
    Keeps OrganFileParser.core (parseLegacyRoot env) := by
  intro p
  simp only [parseLegacyRoot]
  split
  · rw [keeps_andThen (core_countedBlock env _ _ (core_legacyRootLabelStep env)),
      core_countedBlock env _ _ (core_legacyImageStep env)]
    rfl
  · rfl

theorem core_rootSetterStep (env : Env) (i : Nat) :
    Keeps OrganFileParser.core (rootSetterStep env i) := by
  intro p
  simp only [rootSetterStep]
  repeat' split
  all_goals first
    | rfl
    | exact core_createFromSetterElement env 0 _ _

theorem core_parseRootSetters (env : Env) :
    Keeps OrganFileParser.core (parseRootSetters env) := by
  intro p
  simp only [parseRootSetters]
  split
  · rw [keeps_andThen (core_setPath _)]
    split
    · exact keeps_forLoop (core_rootSetterStep env) _ p
    · rfl
  · rfl

theorem core_parsePanelStep (env : Env) (i : Nat) :
    Keeps OrganFileParser.core (parsePanelStep env i) := by
  intro p
  simp only [parsePanelStep]
  split <;> rfl

theorem core_parseMainPanel (env : Env) : Keeps OrganFileParser.core (parseMainPanel env) := by
  intro p
  simp only [parseMainPanel]
  split
  · rw [keeps_andThen (core_setPath _), core_parsePanelElements env 0 "Panel000"]
    rfl
  · rfl

theorem core_parseExtraPanels (env : Env) (n : Int) :
    Keeps OrganFileParser.core (parseExtraPanels env n) := by
  intro p
  simp only [parseExtraPanels]
  split
  · rw [keeps_andThen (core_setPath _)]
    exact keeps_forLoop (core_parsePanelStep env) _ p
  · rfl

theorem core_parsePanels (env : Env) : Keeps OrganFileParser.core (parsePanels env) := by
  intro p
  simp only [parsePanels]
  rw [keeps_andThen (core_parseExtraPanels env _)]
  exact core_parseMainPanel env p

theorem parseEntityStep_absent (env : Env) (k : EntityKind) (i : Nat) (p : OrganFileParser)
    (h : env.hasGroup p.m_path (entitySection env k i) = false) :
    parseEntityStep env k i p = p.consult (entitySection env k i) := by
  simp only [parseEntityStep, entitySection] at *
  rw [if_neg]
  simpa [OrganFileParser.consult] using h

theorem nameOf_addEntity_last (o : Organ) (k : EntityKind) (e : Entity) :
    (o.addEntity k e).nameOf (.organ k (o.m_entities k).length) = some e.name := by
  simp [Organ.nameOf, Organ.addEntity]

theorem parseEntityStep_present (env : Env) (k : EntityKind) (i : Nat) (p : OrganFileParser)
    (h : env.hasGroup p.m_path (entitySection env k i) = true) :
    let e := entityRead env k p.m_isUsingOldPanelFormat i
    let path := "/" ++ entitySection env k i
    let n := (p.m_organ.m_entities k).length
    (parseEntityStep env k i p).m_organ.m_entities k = p.m_organ.m_entities k ++ [e] ∧
    (parseEntityStep env k i p).coreExcept k = p.coreExcept k ∧
    (parseEntityStep env k i p).m_fault = p.m_fault ∧
    (parseEntityStep env k i p).m_path = path ∧
    (parseEntityStep env k i p).consulted = p.consulted ++ [(p.m_path, entitySection env k i)] ∧
    (parseEntityStep env k i p).m_organ.m_mainPanel.m_guiElements =
      p.m_organ.m_mainPanel.m_guiElements ++ entityElements k e n path := by
  intro e path n
  have h2 : env.hasGroup p.m_path (k.groupName ++ env.number_format ((i : Int) + 1)) = true := h
  cases k <;>
  simp only [parseEntityStep, entitySection, entityRead, entityElements, h2, e, path, n,
    OrganFileParser.consult, OrganFileParser.SetPath, withEntityAt, createGUIEntity,
    createGUIEnclosure, createGUISwitch, createGUITremulant, createGUIPiston, createGUIDivCplr,
    createGUIGeneral, createNamedElement, Organ.nameOf, Organ.addEntity, Organ.getNumberOf,
    OrganFileParser.lookup, OrganFileParser.addGuiElement, Organ.modifyPanel,
    GoPanel.addGuiElement, OrganFileParser.coreExcept, OrganFileParser.flags, EntityKind.hasGUI,
    EntityKind.guiClass, EntityKind.readsPanelFormat, Bool.true_and, Bool.false_and,
    if_true, true_and, false_and, if_false] <;>
  (try split) <;> simp_all

theorem andThen_of_noFault {q : OrganFileParser} (h : q.m_fault = false)
    (f : OrganFileParser → OrganFileParser) : q.andThen f = f q := by
  simp [OrganFileParser.andThen, h]

/-- One iteration of the loop of a kind, whether the section is found or not. -/
theorem parseEntityStep_spec (env : Env) (k : EntityKind) (i : Nat) (p : OrganFileParser) :
    let b := env.hasGroup p.m_path (entitySection env k i)
    let e := entityRead env k p.m_isUsingOldPanelFormat i
    let path := "/" ++ entitySection env k i
    let n := (p.m_organ.m_entities k).length
    (parseEntityStep env k i p).m_organ.m_entities k =
      p.m_organ.m_entities k ++ (if b = true then [e] else []) ∧
    (parseEntityStep env k i p).coreExcept k = p.coreExcept k ∧
    (parseEntityStep env k i p).m_fault = p.m_fault ∧
    (parseEntityStep env k i p).m_path = (if b = true then path else p.m_path) ∧
    (parseEntityStep env k i p).consulted = p.consulted ++ [(p.m_path, entitySection env k i)] ∧
    (parseEntityStep env k i p).m_organ.m_mainPanel.m_guiElements =
      p.m_organ.m_mainPanel.m_guiElements ++
        (if b = true then entityElements k e n path else []) := by
  intro b e path n
  by_cases h : env.hasGroup p.m_path (entitySection env k i) = true
  · have := parseEntityStep_present env k i p h
    simpa [b, h] using this
  · have h' : env.hasGroup p.m_path (entitySection env k i) = false := by simpa using h
    rw [parseEntityStep_absent env k i p h']
    simp [b, h', OrganFileParser.consult, OrganFileParser.coreExcept, OrganFileParser.flags]

theorem noFault_parseEntityStep (env : Env) (k : EntityKind) (i : Nat) (p : OrganFileParser) :
    (parseEntityStep env k i p).m_fault = p.m_fault :=
  (parseEntityStep_spec env k i p).2.2.1

theorem coreExcept_parseEntityStep (env : Env) (k : EntityKind) (i : Nat) :
    Keeps (OrganFileParser.coreExcept k) (parseEntityStep env k i) :=
  fun p => (parseEntityStep_spec env k i p).2.1

/-- A loop whose body raises no fault runs all its iterations without one. -/
theorem noFault_forLoop {body : Nat → OrganFileParser → OrganFileParser}
    (h : ∀ i q, (body i q).m_fault = q.m_fault) (n : Int) (p : OrganFileParser) :
    (forLoop n body p).m_fault = p.m_fault :=
  keeps_forLoop (fun i q => h i q) n p

theorem ready_countedBlock (env : Env) (key : String) (maxCount : Int)
    {body : Nat → OrganFileParser → OrganFileParser}
    (h : ∀ i q, (body i q).m_fault = q.m_fault) (p : OrganFileParser) (hp : Ready p) :
    Ready (countedBlock env key maxCount body p) := by
  simp only [countedBlock]
  split
  · have hf : (forLoop (env.readLong p.m_path key 0) body p).m_fault = false :=
      (noFault_forLoop h _ p).trans hp.1
    rw [andThen_of_noFault hf]
    exact ⟨hf, rfl⟩
  · exact hp

theorem ready_parseEntities (env : Env) (k : EntityKind) (p : OrganFileParser) (hp : Ready p) :
    Ready (parseEntities env k p) :=
  ready_countedBlock env _ _ (noFault_parseEntityStep env k) p hp

theorem coreExcept_parseEntities (env : Env) (k : EntityKind) :
    Keeps (OrganFileParser.coreExcept k) (parseEntities env k) := by
  intro p
  simp only [parseEntities, countedBlock]
  split
  · have hs : Keeps (OrganFileParser.coreExcept k) (fun q => q.SetPath "/Organ") := fun _ => rfl
    rw [keeps_andThen hs]
    exact keeps_forLoop (coreExcept_parseEntityStep env k) _ p
  · rfl

theorem flags_of_coreExcept {k : EntityKind} {q p : OrganFileParser}
    (h : q.coreExcept k = p.coreExcept k) : q.flags = p.flags :=
  congrArg (fun c => c.2.2.2) h

theorem flags_of_core {q p : OrganFileParser} (h : q.core = p.core) : q.flags = p.flags :=
  congrArg (fun c => c.2.2.2) h

theorem oldFormat_of_flags {q p : OrganFileParser} (h : q.flags = p.flags) :
    q.m_isUsingOldPanelFormat = p.m_isUsingOldPanelFormat :=
  congrArg (fun c => c.2.2.2.1) h

theorem entities_of_coreExcept {k j : EntityKind} {q p : OrganFileParser}
    (h : q.coreExcept k = p.coreExcept k) (hj : j ≠ k) :
    q.m_organ.m_entities j = p.m_organ.m_entities j := by
  have := congrFun (congrArg (fun c => c.1) h) j
  simpa [OrganFileParser.coreExcept, hj] using this

theorem manuals_of_coreExcept {k : EntityKind} {q p : OrganFileParser}
    (h : q.coreExcept k = p.coreExcept k) : q.m_organ.m_Manuals = p.m_organ.m_Manuals :=
  congrArg (fun c => c.2.1) h

theorem entities_of_core {q p : OrganFileParser} (h : q.core = p.core) (j : EntityKind) :
    q.m_organ.m_entities j = p.m_organ.m_entities j :=
  congrFun (congrArg (fun c => c.1) h) j

theorem manuals_of_core {q p : OrganFileParser} (h : q.core = p.core) :
    q.m_organ.m_Manuals = p.m_organ.m_Manuals :=
  congrArg (fun c => c.2.1) h

theorem range_succ_filter (f : Nat → Bool) (n : Nat) :
    (List.range (n + 1)).filter f = (List.range n).filter f ++ (if f n = true then [n] else []) := by
  rw [List.range_succ, List.filter_append]
  by_cases h : f n = true <;> simp [h]

/-- The entities loaded by the loop of a kind when the existence of each of its sections does not
depend on the cursor: one entity per existing section, in ascending order. -/
theorem parseEntities_loop_entities (env : Env) (k : EntityKind) (present : Nat → Bool) (n : Nat)
    (p : OrganFileParser) (hp : p.m_fault = false)
    (H : ∀ i, i < n → ∀ c, env.hasGroup c (entitySection env k i) = present i) :
    (forLoop (n : Int) (parseEntityStep env k) p).m_organ.m_entities k =
      p.m_organ.m_entities k ++
        ((List.range n).filter present).map (entityRead env k p.m_isUsingOldPanelFormat) := by
  have := forLoop_induct (parseEntityStep env k)
    (fun i q => q.m_fault = false ∧ q.flags = p.flags ∧
      q.m_organ.m_entities k = p.m_organ.m_entities k ++
        ((List.range i).filter present).map (entityRead env k p.m_isUsingOldPanelFormat))
    n p ⟨hp, rfl, by simp⟩ (by
      intro i q hi ⟨hq, hfl, he⟩
      rw [andThen_of_noFault hq]
      obtain ⟨hent, hcore, hf, _, _, _⟩ := parseEntityStep_spec env k i q
      refine ⟨hf.trans hq, (flags_of_coreExcept hcore).trans hfl, ?_⟩
      rw [hent, he, H i hi q.m_path, range_succ_filter, List.map_append, List.append_assoc,
        oldFormat_of_flags hfl]
      by_cases hb : present i = true <;> simp [hb])
  exact this.2.2

theorem getAt_concat_last {α : Type} (l : List α) (a : α) :
    getAt (l ++ [a]) (l.length : Int) = some a := by
  simp [getAt]

/-- One iteration of the manual loop, whether the section is found or not. -/
theorem parseManualStep_spec (env : Env) (i : Nat) (p : OrganFileParser) :
    let hp := p.m_organ.m_hasPedals
    let b := env.hasGroup p.m_path (manualSection env hp i)
    let m := manualRead env p.m_isUsingOldPanelFormat hp i
    let path := "/" ++ manualSection env hp i
    let n := p.m_organ.m_Manuals.length
    (parseManualStep env i p).m_organ.m_Manuals =
      p.m_organ.m_Manuals ++ (if b = true then [m] else []) ∧
    (parseManualStep env i p).coreNoManuals = p.coreNoManuals ∧
    (parseManualStep env i p).m_fault = p.m_fault ∧
    (parseManualStep env i p).m_path = (if b = true then path else p.m_path) ∧
    (parseManualStep env i p).consulted = p.consulted ++ [(p.m_path, manualSection env hp i)] ∧
    (parseManualStep env i p).m_organ.m_mainPanel.m_guiElements =
      p.m_organ.m_mainPanel.m_guiElements ++ (if b = true then manualElements m n path else []) := by
  intro hp b m path n
  by_cases h : env.hasGroup p.m_path ("Manual" ++ env.number_format
      (if p.m_organ.m_hasPedals = false then (i : Int) + 1 else (i : Int))) = true
  · by_cases hd : (env.readManual ("/" ++ ("Manual" ++ env.number_format
        (if p.m_organ.m_hasPedals = false then (i : Int) + 1 else (i : Int))))
        p.m_isUsingOldPanelFormat
        (decide ((if p.m_organ.m_hasPedals = false then (i : Int) + 1 else (i : Int)) = 0))).displayed
        = true
    · simp [parseManualStep, manualSection, manualFileIndex, manualRead, manualElements, b, m,
        path, n, hp, h, hd, OrganFileParser.consult, OrganFileParser.SetPath, withManualAt,
        createGUIManual, createNamedElement, Organ.nameOf, Organ.addManual,
        Organ.getNumberOfManuals, OrganFileParser.lookup, OrganFileParser.addGuiElement,
        Organ.modifyPanel, GoPanel.addGuiElement, OrganFileParser.coreNoManuals,
        OrganFileParser.flags, getAt_concat_last]
    · simp [parseManualStep, manualSection, manualFileIndex, manualRead, manualElements, b, m,
        path, n, hp, h, hd, OrganFileParser.consult, OrganFileParser.SetPath,
        Organ.addManual, OrganFileParser.coreNoManuals, OrganFileParser.flags]
  · simp [parseManualStep, manualSection, manualFileIndex, manualRead, manualElements, b, m,
        path, n, hp, h, OrganFileParser.consult, OrganFileParser.coreNoManuals,
        OrganFileParser.flags]

theorem noFault_parseManualStep (env : Env) (i : Nat) (p : OrganFileParser) :
    (parseManualStep env i p).m_fault = p.m_fault :=
  (parseManualStep_spec env i p).2.2.1

theorem coreNoManuals_parseManualStep (env : Env) (i : Nat) :
    Keeps OrganFileParser.coreNoManuals (parseManualStep env i) :=
  fun p => (parseManualStep_spec env i p).2.1

theorem coreNoManuals_parseManuals (env : Env) :
    Keeps OrganFileParser.coreNoManuals (parseManuals env) := by
  intro p
  simp only [parseManuals]
  split
  · have hs : Keeps OrganFileParser.coreNoManuals (fun q => q.SetPath "/Organ") := fun _ => rfl
    rw [keeps_andThen hs]
    exact keeps_forLoop (coreNoManuals_parseManualStep env) _ p
  · rfl

theorem ready_parseManuals (env : Env) (p : OrganFileParser) (hp : Ready p) :
    Ready (parseManuals env p) := by
  simp only [parseManuals]
  split
  · have hf := (noFault_forLoop (noFault_parseManualStep env)
      (if p.m_organ.m_hasPedals = true then env.readLong p.m_path "NumberOfManuals" 0 + 1
        else env.readLong p.m_path "NumberOfManuals" 0) p).trans hp.1
    rw [andThen_of_noFault hf]
    exact ⟨hf, rfl⟩
  · exact hp

theorem flags_of_coreNoManuals {q p : OrganFileParser}
    (h : q.coreNoManuals = p.coreNoManuals) : q.flags = p.flags :=
  congrArg (fun c => c.2.2) h

theorem hasPedals_of_coreNoManuals {q p : OrganFileParser}
    (h : q.coreNoManuals = p.coreNoManuals) : q.m_organ.m_hasPedals = p.m_organ.m_hasPedals :=
  congrArg (fun c => c.2.1) h

theorem entities_of_coreNoManuals {q p : OrganFileParser}
    (h : q.coreNoManuals = p.coreNoManuals) (j : EntityKind) :
    q.m_organ.m_entities j = p.m_organ.m_entities j :=
  congrFun (congrArg (fun c => c.1) h) j

/-- The sections consulted by the manual loop, by name and in order. -/
theorem parseManuals_loop_consulted (env : Env) (n : Nat) (p : OrganFileParser)
    (hp : p.m_fault = false) :
    (forLoop (n : Int) (parseManualStep env) p).consulted.map Prod.snd =
      p.consulted.map Prod.snd ++
        (List.range n).map (manualSection env p.m_organ.m_hasPedals) := by
  have := forLoop_induct (parseManualStep env)
    (fun i q => q.m_fault = false ∧ q.coreNoManuals = p.coreNoManuals ∧
      q.consulted.map Prod.snd = p.consulted.map Prod.snd ++
        (List.range i).map (manualSection env p.m_organ.m_hasPedals))
    n p ⟨hp, rfl, by simp⟩ (by
      intro i q _ ⟨hq, hk, hc⟩
      rw [andThen_of_noFault hq]
      obtain ⟨_, hcore, hf, _, hcons, _⟩ := parseManualStep_spec env i q
      refine ⟨hf.trans hq, hcore.trans hk, ?_⟩
      rw [hcons, List.map_append, hc, List.range_succ, List.map_append, List.append_assoc,
        hasPedals_of_coreNoManuals hk]
      rfl)
  exact this.2.2

/-- The divisions loaded by the manual loop when the existence of each of its sections does not
depend on the cursor. -/
theorem parseManuals_loop_manuals (env : Env) (present : Nat → Bool) (n : Nat)
    (p : OrganFileParser) (hp : p.m_fault = false)
    (H : ∀ i, i < n → ∀ c,
      env.hasGroup c (manualSection env p.m_organ.m_hasPedals i) = present i) :
    (forLoop (n : Int) (parseManualStep env) p).m_organ.m_Manuals =
      p.m_organ.m_Manuals ++ ((List.range n).filter present).map
        (manualRead env p.m_isUsingOldPanelFormat p.m_organ.m_hasPedals) := by
  have := forLoop_induct (parseManualStep env)
    (fun i q => q.m_fault = false ∧ q.coreNoManuals = p.coreNoManuals ∧
      q.m_organ.m_Manuals = p.m_organ.m_Manuals ++ ((List.range i).filter present).map
        (manualRead env p.m_isUsingOldPanelFormat p.m_organ.m_hasPedals))
    n p ⟨hp, rfl, by simp⟩ (by
      intro i q hi ⟨hq, hk, he⟩
      rw [andThen_of_noFault hq]
      obtain ⟨hman, hcore, hf, _, _, _⟩ := parseManualStep_spec env i q
      refine ⟨hf.trans hq, hcore.trans hk, ?_⟩
      rw [hman, he, hasPedals_of_coreNoManuals hk, H i hi q.m_path, range_succ_filter,
        List.map_append, List.append_assoc, oldFormat_of_flags (flags_of_coreNoManuals hk)]
      by_cases hb : present i = true <;> simp [hb])
  exact this.2.2

/-- Whatever sections exist, the manual loop appends divisions of which only one read in the
first iteration can be flagged pedal, and that one only with a pedal declared. -/
theorem parseManuals_loop_pedal (env : Env) (n : Nat) (p : OrganFileParser)
    (hp : p.m_fault = false) :
    ∃ l : List Manual,
      (forLoop (n : Int) (parseManualStep env) p).m_organ.m_Manuals = p.m_organ.m_Manuals ++ l ∧
      (∀ j m, 0 < j → l.get? j = some m → m.isPedal = false) ∧
      (p.m_organ.m_hasPedals = false → ∀ m ∈ l, m.isPedal = false) ∧
      (0 < n → env.hasGroup p.m_path (manualSection env p.m_organ.m_hasPedals 0) = true →
        l.head? = some (manualRead env p.m_isUsingOldPanelFormat p.m_organ.m_hasPedals 0)) := by
  have := forLoop_induct (parseManualStep env)
    (fun i q => q.m_fault = false ∧ q.coreNoManuals = p.coreNoManuals ∧ ∃ l : List Manual,
      q.m_organ.m_Manuals = p.m_organ.m_Manuals ++ l ∧
      (i = 0 → l = [] ∧ q.m_path = p.m_path) ∧
      (∀ j m, 0 < j → l.get? j = some m → m.isPedal = false) ∧
      (p.m_organ.m_hasPedals = false → ∀ m ∈ l, m.isPedal = false) ∧
      (0 < i → env.hasGroup p.m_path (manualSection env p.m_organ.m_hasPedals 0) = true →
        l.head? = some (manualRead env p.m_isUsingOldPanelFormat p.m_organ.m_hasPedals 0)))
    n p ⟨hp, rfl, [], by simp, by simp, by simp, by simp, by simp⟩ (by
      intro i q _ ⟨hq, hk, l, hl, h0, hj, hnp, hh⟩
      rw [andThen_of_noFault hq]
      obtain ⟨hman, hcore, hf, _, _, _⟩ := parseManualStep_spec env i q
      refine ⟨hf.trans hq, hcore.trans hk, ?_⟩
      have hped := hasPedals_of_coreNoManuals hk
      have hfmt := oldFormat_of_flags (flags_of_coreNoManuals hk)
      rw [hped, hfmt] at hman
      by_cases hb : env.hasGroup q.m_path (manualSection env p.m_organ.m_hasPedals i) = true
      · refine ⟨l ++ [manualRead env p.m_isUsingOldPanelFormat p.m_organ.m_hasPedals i], ?_, ?_,
          ?_, ?_, ?_⟩
        · rw [hman, hl, if_pos hb, List.append_assoc]
        · intro h; omega
        · intro j m hjpos hget
          by_cases hlt : j < l.length
          · rw [List.get?_eq_getElem?, List.getElem?_append_left hlt, ← List.get?_eq_getElem?] at hget
            exact hj j m hjpos hget
          · have hjl : j = l.length := by
              by_contra hne
              have : (l ++ [manualRead env p.m_isUsingOldPanelFormat p.m_organ.m_hasPedals i]).length
                  ≤ j := by simp; omega
              rw [List.get?_eq_none.mpr this] at hget
              cases hget
            have hi0 : i ≠ 0 := by
              intro hi
              have := (h0 hi).1
              subst this
              simp at hjl
              omega
            subst hjl
            simp at hget
            subst hget
            simp [manualRead, manualFileIndex]
            split <;> omega
        · intro hnoPed m hm
          rcases List.mem_append.mp hm with h | h
          · exact hnp hnoPed m h
          · simp at h
            subst h
            simp [manualRead, manualFileIndex, hnoPed]
            omega
        · intro _ hg
          by_cases hi : i = 0
          · obtain ⟨hnil, hpath⟩ := h0 hi
            subst hnil
            subst hi
            simp
          · have := hh (Nat.pos_of_ne_zero hi) hg
            cases l with
            | nil => simp at this
            | cons a t => simpa using this
      · refine ⟨l, ?_, ?_, hj, hnp, ?_⟩
        · rw [hman, hl, if_neg hb, List.append_nil]
        · intro h; omega
        · intro _ hg
          by_cases hi : i = 0
          · obtain ⟨_, hpath⟩ := h0 hi
            subst hi
            rw [hpath] at hb
            exact absurd hg hb
          · exact hh (Nat.pos_of_ne_zero hi) hg)
  obtain ⟨_, _, l, hl, _, hj, hnp, hh⟩ := this
  exact ⟨l, hl, hj, hnp, hh⟩

theorem parseOrganSection_eq_runBlocks (env : Env) (p : OrganFileParser) :
    parseOrganSection env p =
      runBlocks env organBlocks (readRootProperties env (p.SetPath "/Organ")) := rfl

theorem noFault_legacyImageStep (env : Env) (i : Nat) (p : OrganFileParser) :
    (legacyImageStep env i p).m_fault = p.m_fault := by
  simp only [legacyImageStep]
  repeat' split
  all_goals rfl

theorem noFault_legacyRootLabelStep (env : Env) (i : Nat) (p : OrganFileParser) :
    (legacyRootLabelStep env i p).m_fault = p.m_fault := by
  simp only [legacyRootLabelStep]
  split <;> rfl

theorem ready_parseLegacyRoot (env : Env) (p : OrganFileParser) (hp : Ready p) :
    Ready (parseLegacyRoot env p) := by
  simp only [parseLegacyRoot]
  split
  · have h1 := ready_countedBlock env "NumberOfImages" 1000 (noFault_legacyImageStep env)
      { p with m_organ := p.m_organ.modifyPanel (fun pnl => { pnl with metricsFrom := some p.m_path }) 0 }
      hp
    rw [andThen_of_noFault h1.1]
    exact ready_countedBlock env "NumberOfLabels" 1000 (noFault_legacyRootLabelStep env) _ h1
  · exact hp

theorem ready_run (env : Env) (b : Block) (hb : b.loadsEntities = true) (p : OrganFileParser)
    (hp : Ready p) : Ready (b.run env p) := by
  cases b with
  | legacyRoot => exact ready_parseLegacyRoot env p hp
  | entities k => exact ready_parseEntities env k p hp
  | manuals => exact ready_parseManuals env p hp
  | setters => cases hb
  | panels => cases hb

/-- Every block keeps the flags of the parser and the pedal flag of the organ. -/
theorem flags_run (env : Env) (b : Block) :
    Keeps (fun q => (q.flags, q.m_organ.m_hasPedals)) (b.run env) := by
  cases b with
  | legacyRoot => exact (core_parseLegacyRoot env).comp (fun c => (c.2.2.2, c.2.2.1))
  | entities k => exact (coreExcept_parseEntities env k).comp (fun c => (c.2.2.2, c.2.2.1))
  | manuals => exact (coreNoManuals_parseManuals env).comp (fun c => (c.2.2, c.2.1))
  | setters => exact (core_parseRootSetters env).comp (fun c => (c.2.2.2, c.2.2.1))
  | panels => exact (core_parsePanels env).comp (fun c => (c.2.2.2, c.2.2.1))

/-- Every block but the one of a kind keeps the collection of that kind. -/
theorem entities_run (env : Env) (b : Block) (k : EntityKind) (hb : b ≠ .entities k) :
    Keeps (fun q => q.m_organ.m_entities k) (b.run env) := by
  cases b with
  | legacyRoot => exact (core_parseLegacyRoot env).comp (fun c => c.1 k)
  | entities j =>
    intro p
    have hj : k ≠ j := fun h => hb (by rw [h])
    exact entities_of_coreExcept (coreExcept_parseEntities env j p) hj
  | manuals => exact (coreNoManuals_parseManuals env).comp (fun c => c.1 k)
  | setters => exact (core_parseRootSetters env).comp (fun c => c.1 k)
  | panels => exact (core_parsePanels env).comp (fun c => c.1 k)

/-- Every block but the manual block keeps the divisions. -/
theorem manuals_run (env : Env) (b : Block) (hb : b ≠ .manuals) :
    Keeps (fun q => q.m_organ.m_Manuals) (b.run env) := by
  cases b with
  | legacyRoot => exact (core_parseLegacyRoot env).comp (fun c => c.2.1)
  | entities j => exact (coreExcept_parseEntities env j).comp (fun c => c.2.1)
  | manuals => exact absurd rfl hb
  | setters => exact (core_parseRootSetters env).comp (fun c => c.2.1)
  | panels => exact (core_parsePanels env).comp (fun c => c.2.1)

theorem runBlocks_append (env : Env) (as bs : List Block) (p : OrganFileParser) :
    runBlocks env (as ++ bs) p = runBlocks env bs (runBlocks env as p) := by
  simp [runBlocks, List.foldl_append]

theorem runBlocks_cons (env : Env) (b : Block) (bs : List Block) (p : OrganFileParser) :
    runBlocks env (b :: bs) p = runBlocks env bs (p.andThen (b.run env)) := rfl

theorem keeps_runBlocks {α : Type} (env : Env) (view : OrganFileParser → α) (bs : List Block)
    (h : ∀ b ∈ bs, Keeps view (b.run env)) : Keeps view (runBlocks env bs) := by
  induction bs with
  | nil => exact fun _ => rfl
  | cons b bs ih =>
    intro p
    rw [runBlocks_cons, ih (fun c hc => h c (List.mem_cons_of_mem _ hc)),
      keeps_andThen (h b (List.mem_cons_self _ _))]

theorem ready_runBlocks (env : Env) (bs : List Block) (h : ∀ b ∈ bs, b.loadsEntities = true)
    (p : OrganFileParser) (hp : Ready p) : Ready (runBlocks env bs p) := by
  induction bs generalizing p with
  | nil => exact hp
  | cons b bs ih =>
    rw [runBlocks_cons, andThen_of_noFault hp.1]
    exact ih (fun c hc => h c (List.mem_cons_of_mem _ hc)) _
      (ready_run env b (h b (List.mem_cons_self _ _)) p hp)

/-- Where a block stands in the sequence: what runs before it raises no fault and is not the
block, and what runs after it is not the block either. -/
theorem organBlocks_split (b : Block) (hb : b.loadsEntities = true) :
    ∃ pre post, organBlocks = pre ++ b :: post ∧
      (∀ g ∈ pre, g.loadsEntities = true ∧ g ≠ b) ∧ (∀ g ∈ post, g ≠ b) := by
  cases b with
  | legacyRoot => exact ⟨[], organBlocks.drop 1, rfl, by decide, by decide⟩
  | manuals => exact ⟨organBlocks.take 6, organBlocks.drop 7, rfl, by decide, by decide⟩
  | setters => cases hb
  | panels => cases hb
  | entities k =>
    cases k
    · exact ⟨organBlocks.take 1, organBlocks.drop 2, rfl, by decide, by decide⟩
    · exact ⟨organBlocks.take 2, organBlocks.drop 3, rfl, by decide, by decide⟩
    · exact ⟨organBlocks.take 3, organBlocks.drop 4, rfl, by decide, by decide⟩
    · exact ⟨organBlocks.take 4, organBlocks.drop 5, rfl, by decide, by decide⟩
    · exact ⟨organBlocks.take 5, organBlocks.drop 6, rfl, by decide, by decide⟩
    · exact ⟨organBlocks.take 7, organBlocks.drop 8, rfl, by decide, by decide⟩
    · exact ⟨organBlocks.take 8, organBlocks.drop 9, rfl, by decide, by decide⟩
    · exact ⟨organBlocks.take 9, organBlocks.drop 10, rfl, by decide, by decide⟩

theorem newOrganFileParser_of_organ (env : Env) (filePath : String) (organ : Organ)
    (h : env.hasGroup "/" "Organ" = true) :
    newOrganFileParser env filePath organ = parseOrganSection env (loadStart env filePath organ) := by
  by_cases hp : env.hasGroup "/" "Panel000" = true <;>
  simp [newOrganFileParser, readIniFile, parseOrgan, loadStart, h, hp, OrganFileParser.SetPath,
    OrganFileParser.consult]

theorem newOrganFileParser_of_no_organ (env : Env) (filePath : String) (organ : Organ)
    (h : env.hasGroup "/" "Organ" = false) :
    newOrganFileParser env filePath organ =
      { m_filePath := filePath, m_organ := organ, m_path := "/", m_fileIsOk := false,
        m_organIsReady := false, m_isUsingOldPanelFormat := !env.hasGroup "/" "Panel000",
        m_errorMessage := "No [Organ] section could be found in file!", m_fault := false,
        consulted := [("/", "Organ"), ("/", "Panel000")], lookups := [] } := by
  by_cases hp : env.hasGroup "/" "Panel000" = true <;>
  simp [newOrganFileParser, readIniFile, h, hp, OrganFileParser.SetPath,
    OrganFileParser.consult]

theorem ready_rootState (env : Env) (filePath : String) (organ : Organ) :
    Ready (rootState env filePath organ) := ⟨rfl, rfl⟩

/-- A view kept by every block but `b` has, after the load, the value that `b` gives it when run
from some fault-free state at the root section in which the view, the flags and the pedal flag
are as they are once the root properties are read. -/
theorem load_view {α : Type} (env : Env) (filePath : String) (organ : Organ)
    (h : env.hasGroup "/" "Organ" = true) (b : Block) (hb : b.loadsEntities = true)
    (view : OrganFileParser → α) (hview : ∀ g, g ≠ b → Keeps view (g.run env)) :
    ∃ s, Ready s ∧ view s = view (rootState env filePath organ) ∧
      s.flags = (rootState env filePath organ).flags ∧
      s.m_organ.m_hasPedals = (rootState env filePath organ).m_organ.m_hasPedals ∧
      view (newOrganFileParser env filePath organ) = view (b.run env s) := by
  obtain ⟨pre, post, hsplit, hpre, hpost⟩ := organBlocks_split b hb
  refine ⟨runBlocks env pre (rootState env filePath organ), ?_, ?_, ?_, ?_, ?_⟩
  · exact ready_runBlocks env pre (fun g hg => (hpre g hg).1) _ (ready_rootState env filePath organ)
  · exact keeps_runBlocks env view pre (fun g hg => hview g (hpre g hg).2) _
  · exact congrArg Prod.fst (keeps_runBlocks env _ pre (fun g _ => flags_run env g) _)
  · exact congrArg Prod.snd (keeps_runBlocks env _ pre (fun g _ => flags_run env g) _)
  · have hr := ready_runBlocks env pre (fun g hg => (hpre g hg).1) _
      (ready_rootState env filePath organ)
    rw [newOrganFileParser_of_organ env filePath organ h, parseOrganSection_eq_runBlocks, hsplit,
      runBlocks_append, runBlocks_cons,
      keeps_runBlocks env view post (fun g hg => hview g (hpost g hg))]
    show view ((runBlocks env pre (rootState env filePath organ)).andThen (b.run env)) = _
    rw [andThen_of_noFault hr.1]

theorem oldFormat_rootState (env : Env) (filePath : String) (organ : Organ) :
    (rootState env filePath organ).m_isUsingOldPanelFormat = !env.hasGroup "/" "Panel000" := rfl

theorem hasPedals_rootState (env : Env) (filePath : String) (organ : Organ) :
    (rootState env filePath organ).m_organ.m_hasPedals =
      env.parseBoolean (env.read "/Organ" "HasPedals" "") false := rfl

/-- The collection of a kind after the load is what the block of the kind makes of the collection
the organ came with. -/
theorem load_entities (env : Env) (filePath : String) (organ : Organ)
    (h : env.hasGroup "/" "Organ" = true) (k : EntityKind) :
    ∃ s, Ready s ∧ s.m_organ.m_entities k = organ.m_entities k ∧
      s.m_isUsingOldPanelFormat = (!env.hasGroup "/" "Panel000") ∧
      (newOrganFileParser env filePath organ).m_organ.m_entities k =
        (parseEntities env k s).m_organ.m_entities k := by
  obtain ⟨s, hr, hv, hf, _, hfin⟩ := load_view env filePath organ h (.entities k) rfl
    (fun q => q.m_organ.m_entities k) (fun g hg => entities_run env g k hg)
  exact ⟨s, hr, hv, oldFormat_of_flags hf, hfin⟩

/-- The divisions after the load are what the manual block makes of the divisions the organ came
with. -/
theorem load_manuals (env : Env) (filePath : String) (organ : Organ)
    (h : env.hasGroup "/" "Organ" = true) :
    ∃ s, Ready s ∧ s.m_organ.m_Manuals = organ.m_Manuals ∧
      s.m_isUsingOldPanelFormat = (!env.hasGroup "/" "Panel000") ∧
      s.m_organ.m_hasPedals = env.parseBoolean (env.read "/Organ" "HasPedals" "") false ∧
      (newOrganFileParser env filePath organ).m_organ.m_Manuals =
        (parseManuals env s).m_organ.m_Manuals := by
  obtain ⟨s, hr, hv, hf, hp, hfin⟩ := load_view env filePath organ h .manuals rfl
    (fun q => q.m_organ.m_Manuals) (fun g hg => manuals_run env g hg)
  exact ⟨s, hr, hv, oldFormat_of_flags hf, hp, hfin⟩

theorem Ini.hasGroup_env (f : Ini) (c name : String) :
    f.env.hasGroup c name = decide (name ∈ f.sections) := rfl

/-! ## Block level facts -/

theorem countedBlock_of_not_accepted (env : Env) (key : String) (maxCount : Int)
    (body : Nat → OrganFileParser → OrganFileParser) (p : OrganFileParser)
    (h : ¬ (0 < env.readLong p.m_path key 0 ∧ env.readLong p.m_path key 0 < maxCount)) :
    countedBlock env key maxCount body p = p := by
  simp only [countedBlock]
  rw [if_neg]
  simpa using h

theorem countedBlock_of_accepted (env : Env) (key : String) (maxCount : Int)
    (body : Nat → OrganFileParser → OrganFileParser) (p : OrganFileParser)
    (h : 0 < env.readLong p.m_path key 0 ∧ env.readLong p.m_path key 0 < maxCount) :
    countedBlock env key maxCount body p =
      (forLoop ((env.readLong p.m_path key 0).toNat : Int) body p).andThen
        (fun q => q.SetPath "/Organ") := by
  simp only [countedBlock]
  rw [if_pos (by simpa using h), ← forLoop_toNat]

/-- The block of a kind, run from a fault-free state with an accepted count, when the existence
of each section does not depend on the cursor. -/
theorem parseEntities_entities (env : Env) (k : EntityKind) (present : Nat → Bool)
    (s : OrganFileParser) (hs : s.m_fault = false)
    (hN : 0 < env.readLong s.m_path k.countKey 0 ∧ env.readLong s.m_path k.countKey 0 < k.maxCount)
    (hP : ∀ i, i < (env.readLong s.m_path k.countKey 0).toNat → ∀ c,
      env.hasGroup c (entitySection env k i) = present i) :
    (parseEntities env k s).m_organ.m_entities k =
      s.m_organ.m_entities k ++
        ((List.range (env.readLong s.m_path k.countKey 0).toNat).filter present).map
          (entityRead env k s.m_isUsingOldPanelFormat) := by
  have hs2 : Keeps (fun q => q.m_organ.m_entities k) (fun q => q.SetPath "/Organ") :=
    fun _ => rfl
  rw [parseEntities, countedBlock_of_accepted env _ _ _ s hN, keeps_andThen hs2]
  exact parseEntities_loop_entities env k present _ s hs hP

/-- After a load the flags of the parser are the ones set before `parseOrganSection`. -/
theorem flags_newOrganFileParser (env : Env) (filePath : String) (organ : Organ)
    (h : env.hasGroup "/" "Organ" = true) :
    (newOrganFileParser env filePath organ).flags = (loadStart env filePath organ).flags := by
  rw [newOrganFileParser_of_organ env filePath organ h, parseOrganSection_eq_runBlocks]
  exact congrArg Prod.fst (keeps_runBlocks env _ organBlocks (fun g _ => flags_run env g) _)

/-! ## Claims C1 to C3 -/

/-- C1: when the store has no group named Organ, constructing the parser performs no load:
`isOrganReady` is false, the error message is the fixed text, and the organ passed in is
returned as it was (no lookup was made, the cursor is still at the root). -/
theorem C1_missing_root_section_aborts (env : Env) (filePath : String) (organ : Organ)
    (h : env.hasGroup "/" "Organ" = false) :
    isOrganReady (newOrganFileParser env filePath organ) = false ∧
    (newOrganFileParser env filePath organ).m_errorMessage =
      "No [Organ] section could be found in file!" ∧
    (newOrganFileParser env filePath organ).m_organ = organ ∧
    (newOrganFileParser env filePath organ).m_fileIsOk = false ∧
    (newOrganFileParser env filePath organ).lookups = [] ∧
    (newOrganFileParser env filePath organ).m_path = "/" := by
  rw [newOrganFileParser_of_no_organ env filePath organ h]
  exact ⟨rfl, rfl, rfl, rfl, rfl, rfl⟩

/-- C1 at a file that has panel and enclosure sections but no Organ section. -/
theorem C1_missing_root_section_aborts_witness :
    noOrganIni.env.hasGroup "/" "Organ" = false ∧
    isOrganReady (newOrganFileParser noOrganIni.env "demo.organ" emptyOrgan) = false ∧
    (newOrganFileParser noOrganIni.env "demo.organ" emptyOrgan).m_errorMessage =
      "No [Organ] section could be found in file!" ∧
    (newOrganFileParser noOrganIni.env "demo.organ" emptyOrgan).m_organ = emptyOrgan ∧
    (newOrganFileParser noOrganIni.env "demo.organ" emptyOrgan).m_fileIsOk = false ∧
    (newOrganFileParser noOrganIni.env "demo.organ" emptyOrgan).lookups = [] ∧
    (newOrganFileParser noOrganIni.env "demo.organ" emptyOrgan).m_path = "/" :=
  ⟨by decide, C1_missing_root_section_aborts noOrganIni.env "demo.organ" emptyOrgan (by decide)⟩

/-- C2 (the code does not do what the claim says): `isOrganReady` returns false after every
construction, with or without an Organ group, because `m_organIsReady` is initialised to false
and never assigned again; at a file that holds just the Organ section the load completes
without fault and without error message, and readiness is still reported false. -/
theorem C2_readiness_is_never_reported :
    (∀ (env : Env) (filePath : String) (organ : Organ),
      isOrganReady (newOrganFileParser env filePath organ) = false) ∧
    organOnlyIni.env.hasGroup "/" "Organ" = true ∧
    (newOrganFileParser organOnlyIni.env "demo.organ" emptyOrgan).m_fault = false ∧
    (newOrganFileParser organOnlyIni.env "demo.organ" emptyOrgan).m_errorMessage = "" ∧
    isOrganReady (newOrganFileParser organOnlyIni.env "demo.organ" emptyOrgan) = false := by
  refine ⟨?_, by decide, by decide, by decide, by decide⟩
  intro env filePath organ
  by_cases h : env.hasGroup "/" "Organ" = true
  · exact congrArg (fun c => c.2.2.1) (flags_newOrganFileParser env filePath organ h)
  · rw [newOrganFileParser_of_no_organ env filePath organ (by simpa using h)]
    rfl

/-- On a store whose answer to an existence check does not depend on the cursor: for each of the
eight organ-level kinds and a declared count inside the bound of the kind, the load appends to
the collection the organ came with (nothing, for an empty organ) exactly one entity per existing
section among entries 1 to N, read at that section, in ascending order: a missing section leaves
out its own entity only. With every section present these are N entities. -/
theorem load_entities_of_cursor_independent_store (env : Env) (filePath : String) (organ : Organ)
    (k : EntityKind) (present : Nat → Bool)
    (hOrgan : env.hasGroup "/" "Organ" = true)
    (hN : 0 < env.readLong "/Organ" k.countKey 0 ∧
      env.readLong "/Organ" k.countKey 0 < k.maxCount)
    (hP : ∀ i, i < (env.readLong "/Organ" k.countKey 0).toNat → ∀ c,
      env.hasGroup c (entitySection env k i) = present i) :
    (newOrganFileParser env filePath organ).m_organ.m_entities k =
      organ.m_entities k ++
        ((List.range (env.readLong "/Organ" k.countKey 0).toNat).filter present).map
          (entityRead env k (!env.hasGroup "/" "Panel000")) ∧
    ((∀ i, i < (env.readLong "/Organ" k.countKey 0).toNat → present i = true) →
      organ.m_entities k = [] →
      ((newOrganFileParser env filePath organ).m_organ.m_entities k).length =
        (env.readLong "/Organ" k.countKey 0).toNat) := by
  obtain ⟨s, hr, hent, hfmt, hfin⟩ := load_entities env filePath organ hOrgan k
  have hpath := hr.2
  have key : (newOrganFileParser env filePath organ).m_organ.m_entities k =
      organ.m_entities k ++
        ((List.range (env.readLong "/Organ" k.countKey 0).toNat).filter present).map
          (entityRead env k (!env.hasGroup "/" "Panel000")) := by
    rw [hfin, parseEntities_entities env k present s hr.1 (by rw [hpath]; exact hN)
      (by rw [hpath]; exact hP), hent, hfmt, hpath]
  refine ⟨key, ?_⟩
  intro hall hempty
  have hfilter : (List.range (env.readLong "/Organ" k.countKey 0).toNat).filter present =
      List.range (env.readLong "/Organ" k.countKey 0).toNat := by
    apply List.filter_eq_self.mpr
    intro i hi
    exact hall i (List.mem_range.mp hi)
  rw [key, hempty, hfilter]
  simp

/-- Scenario B on the store whose answers do not depend on the cursor: two enclosures declared,
only the section of the first exists; exactly one enclosure is loaded, the one read at that
section. -/
theorem load_entities_of_cursor_independent_store_scenarioB :
    (newOrganFileParser scenarioB.env "demo.organ" emptyOrgan).m_organ.m_entities .enclosure =
      [⟨"/Enclosure001", false⟩] :=
  (load_entities_of_cursor_independent_store scenarioB.env "demo.organ" emptyOrgan .enclosure
    (fun i => decide (i = 0)) (by decide) (by decide)
    (by
      intro i hi c
      have h2 : i < 2 := hi
      interval_cases i <;> rw [Ini.hasGroup_env] <;> decide)).1.trans (by decide)

/-- Two iterations of the loop of a kind: when the section of entry i is found, the existence of
the section of entry i + 1 is asked for with the cursor at the section of entry i; when the store
answers no from there, entry i + 1 is not loaded. -/
theorem parseEntityStep_after_found (env : Env) (k : EntityKind) (i : Nat) (p : OrganFileParser)
    (h : env.hasGroup p.m_path (entitySection env k i) = true)
    (h2 : env.hasGroup ("/" ++ entitySection env k i) (entitySection env k (i + 1)) = false) :
    (parseEntityStep env k (i + 1) (parseEntityStep env k i p)).m_organ.m_entities k =
      p.m_organ.m_entities k ++ [entityRead env k p.m_isUsingOldPanelFormat i] := by
  obtain ⟨hent, _, _, hpath, _, _⟩ := parseEntityStep_spec env k i p
  obtain ⟨hent2, _, _, _, _, _⟩ := parseEntityStep_spec env k (i + 1) (parseEntityStep env k i p)
  rw [if_pos h] at hent hpath
  rw [hent2, hpath, h2, hent]
  simp

/-- C3 (the code does not do what the claim says): the existence of the section of an entry that
follows a found entry is asked for with the cursor at the section of the found entry, so on a
store that resolves section names relative to the cursor that entry is not loaded although its
section exists. In `twoEnclosuresIni` two enclosures are declared and both sections exist and
are found from the root section; the load gives one enclosure, `Enclosure002` having been asked
for at `/Enclosure001`. In `secondEnclosureMissingIni`, three declared and the second missing,
the third is not loaded either. On the store whose answers do not depend on the cursor the same
files load two enclosures each. In general, after a found entry i, entry i + 1 is not loaded
when its section is not found from the section of entry i. -/
theorem C3_entry_after_a_found_entry_is_not_loaded :
    twoEnclosuresIni.rootedEnv.hasGroup "/Organ" "Enclosure001" = true ∧
    twoEnclosuresIni.rootedEnv.hasGroup "/Organ" "Enclosure002" = true ∧
    (newOrganFileParser twoEnclosuresIni.rootedEnv "demo.organ"
      emptyOrgan).m_organ.m_entities .enclosure = [⟨"/Enclosure001", false⟩] ∧
    (newOrganFileParser twoEnclosuresIni.rootedEnv "demo.organ" emptyOrgan).consulted =
      [("/", "Organ"), ("/", "Panel000"), ("/Organ", "Enclosure001"),
        ("/Enclosure001", "Enclosure002")] ∧
    (newOrganFileParser twoEnclosuresIni.rootedEnv "demo.organ" emptyOrgan).m_fault = false ∧
    (newOrganFileParser twoEnclosuresIni.env "demo.organ"
      emptyOrgan).m_organ.m_entities .enclosure =
      [⟨"/Enclosure001", false⟩, ⟨"/Enclosure002", false⟩] ∧
    (newOrganFileParser secondEnclosureMissingIni.rootedEnv "demo.organ"
      emptyOrgan).m_organ.m_entities .enclosure = [⟨"/Enclosure001", false⟩] ∧
    (newOrganFileParser secondEnclosureMissingIni.rootedEnv "demo.organ" emptyOrgan).consulted =
      [("/", "Organ"), ("/", "Panel000"), ("/Organ", "Enclosure001"),
        ("/Enclosure001", "Enclosure002"), ("/Enclosure001", "Enclosure003")] ∧
    (newOrganFileParser secondEnclosureMissingIni.env "demo.organ"
      emptyOrgan).m_organ.m_entities .enclosure =
      [⟨"/Enclosure001", false⟩, ⟨"/Enclosure003", false⟩] ∧
    (∀ (env : Env) (k : EntityKind) (i : Nat) (p : OrganFileParser),
      env.hasGroup p.m_path (entitySection env k i) = true →
      env.hasGroup ("/" ++ entitySection env k i) (entitySection env k (i + 1)) = false →
      (parseEntityStep env k (i + 1) (parseEntityStep env k i p)).m_organ.m_entities k =
        p.m_organ.m_entities k ++ [entityRead env k p.m_isUsingOldPanelFormat i]) :=
  ⟨by decide, by decide, by decide, by decide, by decide, by decide, by decide, by decide,
    by decide, parseEntityStep_after_found⟩

theorem trail_addGuiElement (p : OrganFileParser) (t : Nat) (e : GUIElement) :
    (p.addGuiElement t e).trail = p.trail := rfl

theorem trail_createNamedElement (cls : ElementClass) (t : Nat) (e : Option EntityRef) :
    Keeps OrganFileParser.trail (fun p => createNamedElement cls p t e) := by
  intro p
  simp only [createNamedElement]
  split
  · rfl
  · split <;> rfl

theorem parseManuals_of_not_accepted (env : Env) (p : OrganFileParser)
    (h : ¬ (0 < env.readLong p.m_path "NumberOfManuals" 0 ∧
      env.readLong p.m_path "NumberOfManuals" 0 < 17)) : parseManuals env p = p := by
  simp only [parseManuals]
  rw [if_neg]
  simpa using h

theorem parseManuals_of_accepted (env : Env) (p : OrganFileParser)
    (h : 0 < env.readLong p.m_path "NumberOfManuals" 0 ∧
      env.readLong p.m_path "NumberOfManuals" 0 < 17) :
    parseManuals env p =
      (forLoop ((manualIterations p.m_organ.m_hasPedals
          (env.readLong p.m_path "NumberOfManuals" 0) : Nat) : Int)
        (parseManualStep env) p).andThen (fun q => q.SetPath "/Organ") := by
  simp only [parseManuals]
  rw [if_pos (by simpa using h), forLoop_toNat]
  congr 3
  unfold manualIterations
  split <;> omega

theorem parseManuals_consulted (env : Env) (p : OrganFileParser) (hp : p.m_fault = false)
    (h : 0 < env.readLong p.m_path "NumberOfManuals" 0 ∧
      env.readLong p.m_path "NumberOfManuals" 0 < 17) :
    (parseManuals env p).consulted.map Prod.snd =
      p.consulted.map Prod.snd ++
        (List.range (manualIterations p.m_organ.m_hasPedals
          (env.readLong p.m_path "NumberOfManuals" 0))).map
          (manualSection env p.m_organ.m_hasPedals) := by
  have hs2 : Keeps (fun q => q.consulted.map Prod.snd) (fun q => q.SetPath "/Organ") :=
    fun _ => rfl
  rw [parseManuals_of_accepted env p h, keeps_andThen hs2]
  exact parseManuals_loop_consulted env _ p hp

theorem parseEntities_of_not_accepted (env : Env) (k : EntityKind) (p : OrganFileParser)
    (h : env.readLong p.m_path k.countKey 0 < 1 ∨ k.maxCount ≤ env.readLong p.m_path k.countKey 0) :
    parseEntities env k p = p :=
  countedBlock_of_not_accepted env _ _ _ p (by omega)

/-- The block of a kind with the count 1: the one section is looked for from the root section. -/
theorem parseEntities_one (env : Env) (k : EntityKind) (s : OrganFileParser) (hs : Ready s)
    (hN : env.readLong "/Organ" k.countKey 0 = 1)
    (hsec : env.hasGroup "/Organ" (entitySection env k 0) = true) :
    (parseEntities env k s).m_organ.m_entities k =
      s.m_organ.m_entities k ++ [entityRead env k s.m_isUsingOldPanelFormat 0] := by
  have hmax : (1 : Int) < k.maxCount := by cases k <;> decide
  have hs2 : Keeps (fun q => q.m_organ.m_entities k) (fun q => q.SetPath "/Organ") :=
    fun _ => rfl
  have hacc : 0 < env.readLong s.m_path k.countKey 0 ∧
      env.readLong s.m_path k.countKey 0 < k.maxCount := by
    rw [hs.2, hN]; exact ⟨by decide, hmax⟩
  rw [parseEntities, countedBlock_of_accepted env _ _ _ s hacc, keeps_andThen hs2, hs.2, hN]
  show (forLoop ((0 : Nat) + 1 : Int) (parseEntityStep env k) s).m_organ.m_entities k = _
  rw [forLoop_natCast_succ, forLoop_nonpos _ (by simp), andThen_of_noFault hs.1]
  exact (parseEntityStep_present env k 0 s (by rw [hs.2]; exact hsec)).1

/-- C5 as stated fails: the enclosure count 1, which is not above the lower bound 1, loads the
enclosure of the existing section Enclosure001. -/
theorem C5_count_equal_to_min_is_accepted :
    oneEnclosureIni.env.readLong "/Organ" EntityKind.enclosure.countKey 0 ≤ 1 ∧
    (newOrganFileParser oneEnclosureIni.env "demo.organ" emptyOrgan).m_organ.m_entities
      .enclosure = [⟨"/Enclosure001", false⟩] := by
  decide

/-- C5, amended: a declared count below the lower bound 1 or not below the upper bound of its
type leaves the collection of the type as the organ came with it (empty, for an empty organ),
for the eight organ-level kinds and for the divisions (upper bound 17); the count 1, equal to
the lower bound, is accepted and loads the entity of section 1 when that section exists. -/
theorem C5_counts_outside_the_bound_load_nothing (env : Env) (filePath : String) (organ : Organ)
    (hOrgan : env.hasGroup "/" "Organ" = true) :
    (∀ k : EntityKind,
      (env.readLong "/Organ" k.countKey 0 < 1 ∨ k.maxCount ≤ env.readLong "/Organ" k.countKey 0) →
      (newOrganFileParser env filePath organ).m_organ.m_entities k = organ.m_entities k) ∧
    ((env.readLong "/Organ" "NumberOfManuals" 0 < 1 ∨
        17 ≤ env.readLong "/Organ" "NumberOfManuals" 0) →
      (newOrganFileParser env filePath organ).m_organ.m_Manuals = organ.m_Manuals) ∧
    (∀ k : EntityKind, env.readLong "/Organ" k.countKey 0 = 1 →
      env.hasGroup "/Organ" (numberedSection env k.groupName 0) = true →
      (newOrganFileParser env filePath organ).m_organ.m_entities k =
        organ.m_entities k ++ [entityRead env k (!env.hasGroup "/" "Panel000") 0]) := by
  refine ⟨?_, ?_, ?_⟩
  · intro k h
    obtain ⟨s, hr, hent, _, hfin⟩ := load_entities env filePath organ hOrgan k
    rw [hfin, parseEntities_of_not_accepted env k s (by rw [hr.2]; exact h), hent]
  · intro h
    obtain ⟨s, hr, hman, _, _, hfin⟩ := load_manuals env filePath organ hOrgan
    rw [hfin, parseManuals_of_not_accepted env s (by rw [hr.2]; omega), hman]
  · intro k hN hsec
    obtain ⟨s, hr, hent, hfmt, hfin⟩ := load_entities env filePath organ hOrgan k
    rw [hfin, parseEntities_one env k s hr hN hsec, hent, hfmt]

/-- C5, amended, at a file that declares 51 enclosures: none is loaded, although the section of
the first exists. -/
theorem C5_counts_outside_the_bound_load_nothing_witness :
    (newOrganFileParser tooManyEnclosuresIni.env "demo.organ" emptyOrgan).m_organ.m_entities
      .enclosure = [] :=
  (C5_counts_outside_the_bound_load_nothing tooManyEnclosuresIni.env "demo.organ" emptyOrgan
    (by decide)).1 .enclosure (by decide)

/-- The manual block run from a fault-free state with an accepted count, when the existence of
each section does not depend on the cursor. -/
theorem parseManuals_manuals (env : Env) (present : Nat → Bool) (s : OrganFileParser)
    (hs : s.m_fault = false)
    (hN : 0 < env.readLong s.m_path "NumberOfManuals" 0 ∧
      env.readLong s.m_path "NumberOfManuals" 0 < 17)
    (hP : ∀ i, i < manualIterations s.m_organ.m_hasPedals
        (env.readLong s.m_path "NumberOfManuals" 0) → ∀ c,
      env.hasGroup c (manualSection env s.m_organ.m_hasPedals i) = present i) :
    (parseManuals env s).m_organ.m_Manuals =
      s.m_organ.m_Manuals ++
        ((List.range (manualIterations s.m_organ.m_hasPedals
          (env.readLong s.m_path "NumberOfManuals" 0))).filter present).map
          (manualRead env s.m_isUsingOldPanelFormat s.m_organ.m_hasPedals) := by
  have hs2 : Keeps (fun q => q.m_organ.m_Manuals) (fun q => q.SetPath "/Organ") :=
    fun _ => rfl
  rw [parseManuals_of_accepted env s hN, keeps_andThen hs2]
  exact parseManuals_loop_manuals env present _ s hs hP

theorem manualRead_isPedal (env : Env) (oldFormat hasPedals : Bool) (i : Nat) :
    (manualRead env oldFormat hasPedals i).isPedal = true ↔ (hasPedals = true ∧ i = 0) := by
  cases hasPedals
  · simp [manualRead, manualFileIndex]
    omega
  · simp [manualRead, manualFileIndex]

/-- On a store whose answer to an existence check does not depend on the cursor: for a declared
manual count N inside [1, 17), the manual block of the load consults, in this order, the N + 1 sections Manual<0> to Manual<N> when a pedal is declared and the N
sections Manual<1> to Manual<N> when none is; the divisions it appends are the ones read at
the existing sections, in file order, and a division is flagged pedal exactly when it was read
from file index 0, which happens only with a pedal declared. With every section present an
empty organ gets N + 1 divisions with a pedal and N without. -/
theorem load_manuals_of_cursor_independent_store (env : Env) (filePath : String) (organ : Organ)
    (present : Nat → Bool)
    (hOrgan : env.hasGroup "/" "Organ" = true)
    (hN : 1 ≤ env.readLong "/Organ" "NumberOfManuals" 0 ∧
      env.readLong "/Organ" "NumberOfManuals" 0 < 17)
    (hP : ∀ i, i < manualIterations (env.parseBoolean (env.read "/Organ" "HasPedals" "") false)
        (env.readLong "/Organ" "NumberOfManuals" 0) → ∀ c,
      env.hasGroup c (manualSection env
        (env.parseBoolean (env.read "/Organ" "HasPedals" "") false) i) = present i) :
    (∃ s, s.m_fault = false ∧ s.m_path = "/Organ" ∧
      (newOrganFileParser env filePath organ).m_organ.m_Manuals =
        (parseManuals env s).m_organ.m_Manuals ∧
      (parseManuals env s).consulted.map Prod.snd =
        s.consulted.map Prod.snd ++
          (List.range (manualIterations (env.parseBoolean (env.read "/Organ" "HasPedals" "") false)
            (env.readLong "/Organ" "NumberOfManuals" 0))).map
            (manualSection env (env.parseBoolean (env.read "/Organ" "HasPedals" "") false))) ∧
    (List.range (manualIterations true (env.readLong "/Organ" "NumberOfManuals" 0))).map
        (manualSection env true) =
      (List.range ((env.readLong "/Organ" "NumberOfManuals" 0).toNat + 1)).map
        (fun i : Nat => "Manual" ++ env.number_format (i : Int)) ∧
    (List.range (manualIterations false (env.readLong "/Organ" "NumberOfManuals" 0))).map
        (manualSection env false) =
      (List.range (env.readLong "/Organ" "NumberOfManuals" 0).toNat).map
        (fun i : Nat => "Manual" ++ env.number_format ((i : Int) + 1)) ∧
    (newOrganFileParser env filePath organ).m_organ.m_Manuals =
      organ.m_Manuals ++
        ((List.range (manualIterations (env.parseBoolean (env.read "/Organ" "HasPedals" "") false)
          (env.readLong "/Organ" "NumberOfManuals" 0))).filter present).map
          (manualRead env (!env.hasGroup "/" "Panel000")
            (env.parseBoolean (env.read "/Organ" "HasPedals" "") false)) ∧
    (∀ i, (manualRead env (!env.hasGroup "/" "Panel000")
        (env.parseBoolean (env.read "/Organ" "HasPedals" "") false) i).isPedal = true ↔
      (env.parseBoolean (env.read "/Organ" "HasPedals" "") false = true ∧ i = 0)) ∧
    ((∀ i, i < manualIterations (env.parseBoolean (env.read "/Organ" "HasPedals" "") false)
        (env.readLong "/Organ" "NumberOfManuals" 0) → present i = true) →
      organ.m_Manuals = [] →
      (newOrganFileParser env filePath organ).m_organ.m_Manuals.length =
        if env.parseBoolean (env.read "/Organ" "HasPedals" "") false = true then
          (env.readLong "/Organ" "NumberOfManuals" 0).toNat + 1
        else (env.readLong "/Organ" "NumberOfManuals" 0).toNat) := by
  obtain ⟨s, hr, hman, hfmt, hped, hfin⟩ := load_manuals env filePath organ hOrgan
  have hacc : 0 < env.readLong s.m_path "NumberOfManuals" 0 ∧
      env.readLong s.m_path "NumberOfManuals" 0 < 17 := by
    rw [hr.2]; exact ⟨by omega, hN.2⟩
  have key : (newOrganFileParser env filePath organ).m_organ.m_Manuals =
      organ.m_Manuals ++
        ((List.range (manualIterations (env.parseBoolean (env.read "/Organ" "HasPedals" "") false)
          (env.readLong "/Organ" "NumberOfManuals" 0))).filter present).map
          (manualRead env (!env.hasGroup "/" "Panel000")
            (env.parseBoolean (env.read "/Organ" "HasPedals" "") false)) := by
    rw [hfin, parseManuals_manuals env present s hr.1 hacc (by rw [hr.2, hped]; exact hP), hman,
      hfmt, hped, hr.2]
  refine ⟨⟨s, hr.1, hr.2, hfin, ?_⟩, ?_, ?_, key, fun i => manualRead_isPedal env _ _ i, ?_⟩
  · have := parseManuals_consulted env s hr.1 hacc
    rw [hr.2, hped] at this
    exact this
  · simp [manualIterations, manualSection, manualFileIndex]
  · simp [manualIterations, manualSection, manualFileIndex]
  · intro hall hempty
    have hfilter : (List.range (manualIterations
        (env.parseBoolean (env.read "/Organ" "HasPedals" "") false)
        (env.readLong "/Organ" "NumberOfManuals" 0))).filter present =
        List.range (manualIterations (env.parseBoolean (env.read "/Organ" "HasPedals" "") false)
          (env.readLong "/Organ" "NumberOfManuals" 0)) := by
      apply List.filter_eq_self.mpr
      intro i hi
      exact hall i (List.mem_range.mp hi)
    rw [key, hempty, hfilter]
    simp [manualIterations]

/-- Scenario A on the store whose answers do not depend on the cursor: two divisions are loaded,
read at Manual000 and Manual001 in this order, and the first one, and only it, is flagged
pedal. -/
theorem load_manuals_of_cursor_independent_store_scenarioA :
    (newOrganFileParser scenarioA.env "demo.organ" emptyOrgan).m_organ.m_Manuals =
      [⟨true, ⟨"/Manual000", false, [], [], []⟩⟩, ⟨false, ⟨"/Manual001", false, [], [], []⟩⟩] :=
  (load_manuals_of_cursor_independent_store scenarioA.env "demo.organ" emptyOrgan (fun _ => true)
    (by decide) (by decide)
    (by
      intro i hi c
      have h2 : i < 2 := hi
      interval_cases i <;> rw [Ini.hasGroup_env] <;> decide)).2.2.2.1.trans (by decide)

/-- Two iterations of the manual loop: when the section of iteration i is found, the existence
of the section of iteration i + 1 is asked for with the cursor at the section of iteration i;
when the store answers no from there, the division of iteration i + 1 is not loaded. -/
theorem parseManualStep_after_found (env : Env) (i : Nat) (p : OrganFileParser)
    (h : env.hasGroup p.m_path (manualSection env p.m_organ.m_hasPedals i) = true)
    (h2 : env.hasGroup ("/" ++ manualSection env p.m_organ.m_hasPedals i)
      (manualSection env p.m_organ.m_hasPedals (i + 1)) = false) :
    (parseManualStep env (i + 1) (parseManualStep env i p)).m_organ.m_Manuals =
      p.m_organ.m_Manuals ++
        [manualRead env p.m_isUsingOldPanelFormat p.m_organ.m_hasPedals i] := by
  obtain ⟨hman, hcore, _, hpath, _, _⟩ := parseManualStep_spec env i p
  obtain ⟨hman2, _, _, _, _, _⟩ := parseManualStep_spec env (i + 1) (parseManualStep env i p)
  have hped : (parseManualStep env i p).m_organ.m_hasPedals = p.m_organ.m_hasPedals :=
    hasPedals_of_coreNoManuals hcore
  rw [if_pos h] at hman hpath
  rw [hman2, hped, hpath, h2, hman]
  simp

/-- C6 (the code does not do what the claim says): the existence of the section of a division
that follows a found division is asked for with the cursor at the section of the found one, so
on a store that resolves section names relative to the cursor that division is not loaded
although its section exists. In scenario A, one manual and a pedal declared, the sections
`Manual000` and `Manual001` exist and are found from the root section; the load gives one
division, the pedal, `Manual001` having been asked for at `/Manual000`. On the store whose
answers do not depend on the cursor the same file loads the two divisions. In general, after a
found iteration i, the division of iteration i + 1 is not loaded when its section is not found
from the section of iteration i. -/
theorem C6_division_after_a_found_division_is_not_loaded :
    scenarioA.rootedEnv.hasGroup "/Organ" "Manual000" = true ∧
    scenarioA.rootedEnv.hasGroup "/Organ" "Manual001" = true ∧
    (newOrganFileParser scenarioA.rootedEnv "demo.organ" emptyOrgan).m_organ.m_hasPedals
      = true ∧
    (newOrganFileParser scenarioA.rootedEnv "demo.organ" emptyOrgan).m_organ.m_Manuals =
      [⟨true, ⟨"/Manual000", false, [], [], []⟩⟩] ∧
    (newOrganFileParser scenarioA.rootedEnv "demo.organ" emptyOrgan).consulted =
      [("/", "Organ"), ("/", "Panel000"), ("/Organ", "Manual000"),
        ("/Manual000", "Manual001")] ∧
    (newOrganFileParser scenarioA.rootedEnv "demo.organ" emptyOrgan).m_fault = false ∧
    (newOrganFileParser scenarioA.env "demo.organ" emptyOrgan).m_organ.m_Manuals =
      [⟨true, ⟨"/Manual000", false, [], [], []⟩⟩, ⟨false, ⟨"/Manual001", false, [], [], []⟩⟩] ∧
    (∀ (env : Env) (i : Nat) (p : OrganFileParser),
      env.hasGroup p.m_path (manualSection env p.m_organ.m_hasPedals i) = true →
      env.hasGroup ("/" ++ manualSection env p.m_organ.m_hasPedals i)
        (manualSection env p.m_organ.m_hasPedals (i + 1)) = false →
      (parseManualStep env (i + 1) (parseManualStep env i p)).m_organ.m_Manuals =
        p.m_organ.m_Manuals ++
          [manualRead env p.m_isUsingOldPanelFormat p.m_organ.m_hasPedals i]) :=
  ⟨by decide, by decide, by decide, by decide, by decide, by decide, by decide,
    parseManualStep_after_found⟩

/-- What the manual block appends, whatever sections exist: only a division read in the first
iteration can be flagged pedal, and the first iteration, when its section is found from the
cursor the block starts at, gives the first appended division. -/
theorem parseManuals_pedal (env : Env) (s : OrganFileParser) (hs : s.m_fault = false) :
    ∃ l : List Manual,
      (parseManuals env s).m_organ.m_Manuals = s.m_organ.m_Manuals ++ l ∧
      (∀ j m, 0 < j → l.get? j = some m → m.isPedal = false) ∧
      (s.m_organ.m_hasPedals = false → ∀ m ∈ l, m.isPedal = false) ∧
      (0 < env.readLong s.m_path "NumberOfManuals" 0 ∧
          env.readLong s.m_path "NumberOfManuals" 0 < 17 →
        env.hasGroup s.m_path (manualSection env s.m_organ.m_hasPedals 0) = true →
        l.head? = some (manualRead env s.m_isUsingOldPanelFormat s.m_organ.m_hasPedals 0)) := by
  by_cases hN : 0 < env.readLong s.m_path "NumberOfManuals" 0 ∧
      env.readLong s.m_path "NumberOfManuals" 0 < 17
  · have hs2 : Keeps (fun q => q.m_organ.m_Manuals) (fun q => q.SetPath "/Organ") :=
      fun _ => rfl
    obtain ⟨l, hl, hj, hnp, hh⟩ := parseManuals_loop_pedal env
      (manualIterations s.m_organ.m_hasPedals (env.readLong s.m_path "NumberOfManuals" 0)) s hs
    refine ⟨l, ?_, hj, hnp, fun _ hg => hh ?_ hg⟩
    · rw [parseManuals_of_accepted env s hN, keeps_andThen hs2]
      exact hl
    · unfold manualIterations
      split <;> omega
  · refine ⟨[], ?_, by simp, by simp, fun h => absurd h hN⟩
    rw [parseManuals_of_not_accepted env s hN, List.append_nil]

/-- C7 as stated fails: with a pedal declared and the section Manual000 missing, the load gives
a non-empty division collection whose member at index 0 is not flagged pedal. -/
theorem C7_missing_pedal_section_leaves_index_0_to_a_manual :
    (newOrganFileParser pedalSectionMissingIni.env "demo.organ" emptyOrgan).m_organ.m_hasPedals
      = true ∧
    (newOrganFileParser pedalSectionMissingIni.env "demo.organ" emptyOrgan).m_organ.m_Manuals =
      [⟨false, ⟨"/Manual001", false, [], [], []⟩⟩] := by
  decide

/-- C7, amended: in a load into an organ without divisions, no division at an index greater
than 0 is flagged pedal; without a pedal declared no division is flagged pedal at all; and with
a pedal declared, an accepted manual count and the section Manual<0> existing, the division at
index 0 is the one read from that section and is flagged pedal. -/
theorem C7_pedal_division_is_first_when_its_section_exists (env : Env) (filePath : String)
    (organ : Organ) (hOrgan : env.hasGroup "/" "Organ" = true) (hEmpty : organ.m_Manuals = []) :
    (∀ j m, 0 < j →
      (newOrganFileParser env filePath organ).m_organ.m_Manuals.get? j = some m →
      m.isPedal = false) ∧
    (env.parseBoolean (env.read "/Organ" "HasPedals" "") false = false →
      ∀ m ∈ (newOrganFileParser env filePath organ).m_organ.m_Manuals, m.isPedal = false) ∧
    (env.parseBoolean (env.read "/Organ" "HasPedals" "") false = true →
      (1 ≤ env.readLong "/Organ" "NumberOfManuals" 0 ∧
        env.readLong "/Organ" "NumberOfManuals" 0 < 17) →
      env.hasGroup "/Organ" ("Manual" ++ env.number_format 0) = true →
      (newOrganFileParser env filePath organ).m_organ.m_Manuals.head? =
          some (manualRead env (!env.hasGroup "/" "Panel000") true 0) ∧
        (manualRead env (!env.hasGroup "/" "Panel000") true 0).isPedal = true) := by
  obtain ⟨s, hr, hman, hfmt, hped, hfin⟩ := load_manuals env filePath organ hOrgan
  obtain ⟨l, hl, hj, hnp, hh⟩ := parseManuals_pedal env s hr.1
  rw [hman, hEmpty, List.nil_append] at hl
  rw [hfin, hl]
  refine ⟨hj, fun hno => hnp (hped.trans hno), ?_⟩
  intro hyes hN hsec
  rw [hr.2, hped, hyes, hfmt] at hh
  refine ⟨hh ⟨by omega, hN.2⟩ ?_, (manualRead_isPedal env _ true 0).mpr ⟨rfl, rfl⟩⟩
  simpa [manualSection, manualFileIndex] using hsec

/-- C7, amended, at scenario A: the division at index 0 is the one read at Manual000 and is
flagged pedal. -/
theorem C7_pedal_division_is_first_when_its_section_exists_witness :
    (newOrganFileParser scenarioA.env "demo.organ" emptyOrgan).m_organ.m_Manuals.head? =
        some (manualRead scenarioA.env (!scenarioA.env.hasGroup "/" "Panel000") true 0) ∧
      (manualRead scenarioA.env (!scenarioA.env.hasGroup "/" "Panel000") true 0).isPedal = true :=
  (C7_pedal_division_is_first_when_its_section_exists scenarioA.env "demo.organ" emptyOrgan
    (by decide) rfl).2.2 (by decide) (by decide) (by decide)

theorem grows_createNamedElement (cls : ElementClass) (t : Nat) (e : Option EntityRef) :
    GrowsLookups (fun p => createNamedElement cls p t e) := by
  intro p
  refine ⟨[], ?_⟩
  simp only [createNamedElement]
  split
  · simp [OrganFileParser.fault]
  · split <;> simp [OrganFileParser.fault, OrganFileParser.addGuiElement]

theorem grows_createGUISlot (k : SlotKind) (t : Nat) (e : Option EntityRef) :
    GrowsLookups (fun p => createGUISlot k p t e) := by
  intro p
  cases k
  · exact grows_createNamedElement _ t e p
  · exact grows_createNamedElement _ t e p
  · exact ⟨[], by simp [createGUISlot, createGUIDivisional, OrganFileParser.addGuiElement]⟩

theorem grows_withSlotAt (k : SlotKind) (mi : Nat) (man : Manual) (i : Int)
    {cont : EntityRef → OrganFileParser → OrganFileParser} (h : ∀ r, GrowsLookups (cont r)) :
    GrowsLookups (fun p => withSlotAt p k mi man i cont) := by
  intro p
  simp only [withSlotAt]
  split
  · obtain ⟨rest, hr⟩ := h (.slot k mi i.toNat) (p.lookup (.slots k mi) i (man.getNumberOf k))
    exact ⟨⟨.slots k mi, i, man.getNumberOf k⟩ :: rest, by rw [hr]; simp [OrganFileParser.lookup]⟩
  · exact ⟨[⟨.slots k mi, i, man.getNumberOf k⟩],
      by simp [OrganFileParser.lookup, OrganFileParser.fault]⟩

/-- The call `getOrganManualAt(i)` is the next lookup made, whatever follows it. -/
theorem withManualAt_lookups (p : OrganFileParser) (i : Int)
    {cont : Nat → Manual → OrganFileParser → OrganFileParser}
    (h : ∀ mi man, GrowsLookups (cont mi man)) :
    ∃ rest, (withManualAt p i cont).lookups =
      p.lookups ++ ⟨.manuals, i, p.m_organ.getNumberOfManuals⟩ :: rest := by
  simp only [withManualAt]
  split
  · rename_i man _
    obtain ⟨rest, hr⟩ := h i.toNat man (p.lookup .manuals i p.m_organ.getNumberOfManuals)
    exact ⟨rest, by rw [hr]; simp [OrganFileParser.lookup]⟩
  · exact ⟨[], by simp [OrganFileParser.lookup, OrganFileParser.fault]⟩

theorem lookups_andThen_setPath (p : OrganFileParser) (path : String) :
    (p.andThen (fun q => q.SetPath path)).lookups = p.lookups := by
  unfold OrganFileParser.andThen
  split <;> rfl

theorem modernSlotElement_lookups (env : Env) (k : SlotKind) (t : Nat) (p : OrganFileParser)
    (h : 0 ≤ env.readLong p.m_path "Manual" (-1) ∧
      env.readLong p.m_path "Manual" (-1) < (p.m_organ.getNumberOfManuals : Int)) :
    ∃ rest, (modernSlotElement env k t p).lookups =
      p.lookups ++ ⟨.manuals, divisionIndex p.m_organ.m_hasPedals
        (env.readLong p.m_path "Manual" (-1)), p.m_organ.getNumberOfManuals⟩ :: rest := by
  simp only [modernSlotElement]
  rw [if_pos (by simpa using h)]
  refine withManualAt_lookups p _ ?_
  intro mi man q
  dsimp only
  split
  · exact grows_withSlotAt k mi man _ (fun r => grows_createGUISlot k t (some r)) q
  · exact ⟨[], by simp⟩

theorem modernManualElement_lookups (env : Env) (t : Nat) (p : OrganFileParser)
    (h : 0 ≤ env.readLong p.m_path "Manual" (-1) ∧
      env.readLong p.m_path "Manual" (-1) ≤ (p.m_organ.getNumberOfManuals : Int)) :
    ∃ rest, (modernManualElement env t p).lookups =
      p.lookups ++ ⟨.manuals, divisionIndex p.m_organ.m_hasPedals
        (env.readLong p.m_path "Manual" (-1)), p.m_organ.getNumberOfManuals⟩ :: rest := by
  simp only [modernManualElement]
  rw [if_pos (by simpa using h)]
  exact withManualAt_lookups p _ (fun mi _ => grows_createNamedElement _ t (some (.manual mi)))

theorem legacyManualEntry_lookups (env : Env) (t : Nat) (panelId : String) (i : Nat)
    (p : OrganFileParser)
    (h : 0 ≤ env.readLong p.m_path (numberedSection env "Manual" i) (-1) ∧
      env.readLong p.m_path (numberedSection env "Manual" i) (-1) ≤
        (p.m_organ.getNumberOfManuals : Int))
    (hsec : env.hasGroup p.m_path (panelId ++ "Manual" ++
      env.number_format (env.readLong p.m_path (numberedSection env "Manual" i) (-1))) = true) :
    ∃ rest, (legacyManualEntry env t panelId i p).lookups =
      p.lookups ++ ⟨.manuals, divisionIndex p.m_organ.m_hasPedals
        (env.readLong p.m_path (numberedSection env "Manual" i) (-1)),
        p.m_organ.getNumberOfManuals⟩ :: rest := by
  simp only [legacyManualEntry, numberedSection] at *
  rw [lookups_andThen_setPath, if_pos (by simpa using h)]
  simp only [OrganFileParser.consult]
  rw [if_pos hsec]
  exact withManualAt_lookups _ _ (fun mi _ => grows_createNamedElement _ t (some (.manual mi)))

theorem legacySlotEntry_lookups (env : Env) (k : SlotKind) (t : Nat) (panelId : String)
    (i : Nat) (p : OrganFileParser)
    (h : 0 ≤ env.readLong p.m_path (numberedSection env k.typeName i ++ "Manual") (-1) ∧
      env.readLong p.m_path (numberedSection env k.typeName i ++ "Manual") (-1) ≤
        (p.m_organ.getNumberOfManuals : Int)) :
    ∃ rest, (legacySlotEntry env k t panelId i p).lookups =
      p.lookups ++ ⟨.manuals, divisionIndex p.m_organ.m_hasPedals
        (env.readLong p.m_path (numberedSection env k.typeName i ++ "Manual") (-1)),
        p.m_organ.getNumberOfManuals⟩ :: rest := by
  simp only [legacySlotEntry, numberedSection] at *
  rw [lookups_andThen_setPath, if_pos (by simpa using h)]
  refine withManualAt_lookups p _ ?_
  intro mi man q
  dsimp only
  split
  · split
    · obtain ⟨rest, hr⟩ := grows_withSlotAt k mi man _
        (fun r => grows_createGUISlot k t (some r))
        ((q.consult (panelId ++ k.typeName ++ env.number_format ((i : Int) + 1))).SetPath
          ("/" ++ (panelId ++ k.typeName ++ env.number_format ((i : Int) + 1))))
      exact ⟨rest, hr⟩
    · exact ⟨[], by simp [OrganFileParser.consult]⟩
  · exact ⟨[], by simp⟩

/-- C8: at each of the eight places where `parsePanelElements` resolves a division reference
(modern Divisional, Coupler and Stop elements, modern Manual element, legacy Manual entry, legacy
Stop, Coupler and Divisional entries), an accepted file index f leads to a lookup of the division
collection as the next lookup made, at the index f when the organ has a pedal, at f - 1 when it
has none and f > 0, and at 0 for f = 0. -/
theorem C8_division_lookup_applies_pedal_offset (env : Env) (t : Nat) (panelId : String)
    (i : Nat) (k : SlotKind) (p : OrganFileParser) :
    (0 ≤ env.readLong p.m_path "Manual" (-1) ∧
        env.readLong p.m_path "Manual" (-1) < (p.m_organ.getNumberOfManuals : Int) →
      ∃ rest, (modernSlotElement env k t p).lookups =
        p.lookups ++ ⟨.manuals, divisionIndex p.m_organ.m_hasPedals
          (env.readLong p.m_path "Manual" (-1)), p.m_organ.getNumberOfManuals⟩ :: rest) ∧
    (0 ≤ env.readLong p.m_path "Manual" (-1) ∧
        env.readLong p.m_path "Manual" (-1) ≤ (p.m_organ.getNumberOfManuals : Int) →
      ∃ rest, (modernManualElement env t p).lookups =
        p.lookups ++ ⟨.manuals, divisionIndex p.m_organ.m_hasPedals
          (env.readLong p.m_path "Manual" (-1)), p.m_organ.getNumberOfManuals⟩ :: rest) ∧
    (0 ≤ env.readLong p.m_path (numberedSection env "Manual" i) (-1) ∧
        env.readLong p.m_path (numberedSection env "Manual" i) (-1) ≤
          (p.m_organ.getNumberOfManuals : Int) →
      env.hasGroup p.m_path (panelId ++ "Manual" ++
        env.number_format (env.readLong p.m_path (numberedSection env "Manual" i) (-1))) = true →
      ∃ rest, (legacyManualEntry env t panelId i p).lookups =
        p.lookups ++ ⟨.manuals, divisionIndex p.m_organ.m_hasPedals
          (env.readLong p.m_path (numberedSection env "Manual" i) (-1)),
          p.m_organ.getNumberOfManuals⟩ :: rest) ∧
    (0 ≤ env.readLong p.m_path (numberedSection env k.typeName i ++ "Manual") (-1) ∧
        env.readLong p.m_path (numberedSection env k.typeName i ++ "Manual") (-1) ≤
          (p.m_organ.getNumberOfManuals : Int) →
      ∃ rest, (legacySlotEntry env k t panelId i p).lookups =
        p.lookups ++ ⟨.manuals, divisionIndex p.m_organ.m_hasPedals
          (env.readLong p.m_path (numberedSection env k.typeName i ++ "Manual") (-1)),
          p.m_organ.getNumberOfManuals⟩ :: rest) ∧
    (∀ f : Int, divisionIndex true f = f) ∧
    (∀ f : Int, 0 < f → divisionIndex false f = f - 1) ∧
    (∀ hasPedals : Bool, divisionIndex hasPedals 0 = 0) := by
  refine ⟨modernSlotElement_lookups env k t p, modernManualElement_lookups env t p,
    legacyManualEntry_lookups env t panelId i p, legacySlotEntry_lookups env k t panelId i p,
    ?_, ?_, ?_⟩
  · intro f; simp [divisionIndex]
  · intro f hf; simp [divisionIndex, hf]
  · intro hp; simp [divisionIndex]

/-- C8 at the stop element of `pedalStopIni`: the organ has a pedal and two divisions, the file
index 0 is accepted and the division collection is looked up at index 0. -/
theorem C8_division_lookup_applies_pedal_offset_witness :
    ∃ rest, (modernSlotElement pedalStopIni.env .stop 0 pedalStopState).lookups =
      pedalStopState.lookups ++ ⟨.manuals, 0, 2⟩ :: rest :=
  (C8_division_lookup_applies_pedal_offset pedalStopIni.env 0 "Panel000" 0 .stop
    pedalStopState).1 (by decide)

/-- A modern Divisional, Coupler or Stop element whose file index equals the number of divisions
is rejected, with or without a pedal. -/
theorem modernSlotElement_rejects_count (env : Env) (k : SlotKind) (t : Nat)
    (p : OrganFileParser)
    (h : env.readLong p.m_path "Manual" (-1) = (p.m_organ.getNumberOfManuals : Int)) :
    modernSlotElement env k t p = p := by
  simp only [modernSlotElement]
  rw [if_neg]
  rw [h]
  omega

/-- C9 (the code does not do what the claim says): on an organ without a pedal that holds the one
division read at Manual001, with two stops, the stop element with Manual = 1 and Stop = 1 has
the adjusted division index 0 inside [0, 1) and the slot index 1 inside [1, 2], but no element is
constructed: the main panel stays empty. The test on the file index, made before the pedal
offset is applied, rejects every file index equal to the number of divisions. -/
theorem C9_element_of_the_last_division_is_rejected :
    (newOrganFileParser lastManualStopIni.env "demo.organ" emptyOrgan).m_organ.m_hasPedals
      = false ∧
    ((newOrganFileParser lastManualStopIni.env "demo.organ" emptyOrgan).m_organ.m_Manuals.map
      (fun m => m.getNumberOf .stop)) = [2] ∧
    (newOrganFileParser lastManualStopIni.env "demo.organ" emptyOrgan).m_organ.m_mainPanel.m_guiElements
      = [] ∧
    (newOrganFileParser lastManualStopIni.env "demo.organ" emptyOrgan).m_fault = false ∧
    (∀ (env : Env) (k : SlotKind) (t : Nat) (p : OrganFileParser),
      env.readLong p.m_path "Manual" (-1) = (p.m_organ.getNumberOfManuals : Int) →
      modernSlotElement env k t p = p) :=
  ⟨by decide, by decide, by decide, by decide, modernSlotElement_rejects_count⟩

/-- The slot lookup of a modern Divisional, Coupler or Stop element is made at the slot index of
the file itself. -/
theorem modernSlotElement_slot_lookup (env : Env) (k : SlotKind) (t : Nat) (p : OrganFileParser)
    (man : Manual)
    (h : 0 ≤ env.readLong p.m_path "Manual" (-1) ∧
      env.readLong p.m_path "Manual" (-1) < (p.m_organ.getNumberOfManuals : Int))
    (hman : getAt p.m_organ.m_Manuals
      (divisionIndex p.m_organ.m_hasPedals (env.readLong p.m_path "Manual" (-1))) = some man)
    (hslot : 0 < env.readLong p.m_path k.typeName 0 ∧
      env.readLong p.m_path k.typeName 0 ≤ (man.getNumberOf k : Int)) :
    ∃ rest, (modernSlotElement env k t p).lookups =
      p.lookups ++
        ⟨.manuals, divisionIndex p.m_organ.m_hasPedals (env.readLong p.m_path "Manual" (-1)),
          p.m_organ.getNumberOfManuals⟩ ::
        ⟨.slots k (divisionIndex p.m_organ.m_hasPedals
            (env.readLong p.m_path "Manual" (-1))).toNat,
          env.readLong p.m_path k.typeName 0, man.getNumberOf k⟩ :: rest := by
  simp only [modernSlotElement]
  rw [if_pos (by simpa using h)]
  simp only [withManualAt, divisionIndex] at hman ⊢
  simp only [OrganFileParser.lookup, hman]
  rw [if_pos (by simpa using hslot)]
  simp only [withSlotAt, OrganFileParser.lookup]
  split
  · obtain ⟨rest, hr⟩ := grows_createGUISlot k t (some (.slot k
      (if p.m_organ.m_hasPedals = false ∧ env.readLong p.m_path "Manual" (-1) > 0 then
        env.readLong p.m_path "Manual" (-1) - 1
      else env.readLong p.m_path "Manual" (-1)).toNat
      (env.readLong p.m_path k.typeName 0).toNat))
      { p with lookups := (p.lookups ++ [⟨.manuals,
          (if p.m_organ.m_hasPedals = false ∧ env.readLong p.m_path "Manual" (-1) > 0 then
            env.readLong p.m_path "Manual" (-1) - 1
          else env.readLong p.m_path "Manual" (-1)), p.m_organ.getNumberOfManuals⟩]) ++
          [⟨.slots k (if p.m_organ.m_hasPedals = false ∧ env.readLong p.m_path "Manual" (-1) > 0
              then env.readLong p.m_path "Manual" (-1) - 1
              else env.readLong p.m_path "Manual" (-1)).toNat,
            env.readLong p.m_path k.typeName 0, man.getNumberOf k⟩] }
    exact ⟨rest, by rw [hr]; simp⟩
  · exact ⟨[], by simp [OrganFileParser.fault]⟩

/-- C10 (the code does not do what the claim says): on an organ whose division 0 has two stops,
the modern stop element with Manual = 0 and Stop = 1 is bound to the stop at 0-based position 1,
the second stop, while the legacy entry that refers to the same stop id 1 is bound to the stop at
position 0. In general the modern slot lookup is made at the slot index k of the file itself,
not at k - 1. -/
theorem C10_modern_slot_is_bound_one_position_too_far :
    (newOrganFileParser pedalStopIni.env "demo.organ" emptyOrgan).m_organ.m_mainPanel.m_guiElements
      = [⟨.GUIStop, "Stop", "/Manual000Stop002", some (.slot .stop 0 1), "/Panel000Element001"⟩] ∧
    (legacySlotEntry legacyStopIni.env .stop 0 "Panel001" 0
        legacyStopState).m_organ.m_mainPanel.m_guiElements
      = [⟨.GUIStop, "Stop", "/Manual000Stop001", some (.slot .stop 0 0), "/Panel001Stop001"⟩] ∧
    (∀ (env : Env) (k : SlotKind) (t : Nat) (p : OrganFileParser) (man : Manual),
      0 ≤ env.readLong p.m_path "Manual" (-1) ∧
        env.readLong p.m_path "Manual" (-1) < (p.m_organ.getNumberOfManuals : Int) →
      getAt p.m_organ.m_Manuals
        (divisionIndex p.m_organ.m_hasPedals (env.readLong p.m_path "Manual" (-1))) = some man →
      0 < env.readLong p.m_path k.typeName 0 ∧
        env.readLong p.m_path k.typeName 0 ≤ (man.getNumberOf k : Int) →
      ∃ rest, (modernSlotElement env k t p).lookups =
        p.lookups ++
          ⟨.manuals, divisionIndex p.m_organ.m_hasPedals (env.readLong p.m_path "Manual" (-1)),
            p.m_organ.getNumberOfManuals⟩ ::
          ⟨.slots k (divisionIndex p.m_organ.m_hasPedals
              (env.readLong p.m_path "Manual" (-1))).toNat,
            env.readLong p.m_path k.typeName 0, man.getNumberOf k⟩ :: rest) :=
  ⟨by decide, by decide, modernSlotElement_slot_lookup⟩

/-! ## Modern mode: what an element section appends -/

theorem modernElement_slot (env : Env) (t : Nat) (panelId : String) (i : Nat)
    (p : OrganFileParser) (k : SlotKind)
    (hg : env.hasGroup p.m_path (panelId ++ numberedSection env "Element" i) = true)
    (hty : env.read ("/" ++ panelId ++ numberedSection env "Element" i) "Type" "" = k.typeName) :
    modernElement env t panelId i p = modernSlotElement env k t (elementState env panelId i p) := by
  simp only [modernElement, elementState, numberedSection, OrganFileParser.consult,
    OrganFileParser.SetPath] at *
  rw [if_pos hg, hty]
  cases k <;> simp [SlotKind.typeName]

theorem modernElement_entity (env : Env) (t : Nat) (panelId : String) (i : Nat)
    (p : OrganFileParser) (k : EntityKind) (hk : k.hasGUI = true)
    (hg : env.hasGroup p.m_path (panelId ++ numberedSection env "Element" i) = true)
    (hty : env.read ("/" ++ panelId ++ numberedSection env "Element" i) "Type" "" = k.groupName) :
    modernElement env t panelId i p =
      modernEntityElement env k t (elementState env panelId i p) := by
  simp only [modernElement, elementState, numberedSection, OrganFileParser.consult,
    OrganFileParser.SetPath] at *
  rw [if_pos hg, hty]
  cases k <;> simp [EntityKind.groupName, EntityKind.hasGUI] at hk ⊢

/-- An accepted file index of a modern Divisional, Coupler or Stop element resolves to a division
of the organ. -/
theorem divisionIndex_resolves (hasPedals : Bool) (f : Int) (manuals : List Manual)
    (h : 0 ≤ f ∧ f < (manuals.length : Int)) :
    ∃ man, getAt manuals (divisionIndex hasPedals f) = some man := by
  have h1 : 0 ≤ divisionIndex hasPedals f ∧ divisionIndex hasPedals f < (manuals.length : Int) := by
    unfold divisionIndex
    split <;> omega
  have h2 : (divisionIndex hasPedals f).toNat < manuals.length := by omega
  exact ⟨manuals[(divisionIndex hasPedals f).toNat], by simp [getAt, h1.1, h2]⟩

theorem modernSlotElement_of_rejected (env : Env) (k : SlotKind) (t : Nat) (p : OrganFileParser)
    (h : ¬ (0 ≤ env.readLong p.m_path "Manual" (-1) ∧
      env.readLong p.m_path "Manual" (-1) < (p.m_organ.getNumberOfManuals : Int))) :
    modernSlotElement env k t p = p := by
  simp only [modernSlotElement]
  rw [if_neg (by simpa using h)]

theorem modernSlotElement_of_slot_rejected (env : Env) (k : SlotKind) (t : Nat)
    (p : OrganFileParser) (man : Manual)
    (h : 0 ≤ env.readLong p.m_path "Manual" (-1) ∧
      env.readLong p.m_path "Manual" (-1) < (p.m_organ.getNumberOfManuals : Int))
    (hman : getAt p.m_organ.m_Manuals
      (divisionIndex p.m_organ.m_hasPedals (env.readLong p.m_path "Manual" (-1))) = some man)
    (hs : env.readLong p.m_path k.typeName 0 < 1 ∨
      (man.getNumberOf k : Int) < env.readLong p.m_path k.typeName 0) :
    modernSlotElement env k t p =
      p.lookup .manuals (divisionIndex p.m_organ.m_hasPedals (env.readLong p.m_path "Manual" (-1)))
        p.m_organ.getNumberOfManuals := by
  simp only [modernSlotElement]
  rw [if_pos (by simpa using h)]
  simp only [withManualAt, divisionIndex] at hman ⊢
  simp only [OrganFileParser.lookup, hman]
  rw [if_neg (by omega)]

/-- C11: in modern mode an existing element section of type Stop, Coupler or Divisional appends
nothing, to no panel, and raises no fault when its division index is rejected, or when its slot
index is less than 1 or greater than the number of such entities in the division its division
index resolves to: the organ after the section is the organ before it. An accepted division
index always resolves to a division. -/
theorem C11_rejected_slot_element_appends_nothing (env : Env) (t : Nat) (panelId : String)
    (i : Nat) (p : OrganFileParser) (k : SlotKind)
    (hg : env.hasGroup p.m_path (panelId ++ numberedSection env "Element" i) = true)
    (hty : env.read ("/" ++ panelId ++ numberedSection env "Element" i) "Type" "" = k.typeName) :
    (¬ (0 ≤ env.readLong ("/" ++ panelId ++ numberedSection env "Element" i) "Manual" (-1) ∧
        env.readLong ("/" ++ panelId ++ numberedSection env "Element" i) "Manual" (-1) <
          (p.m_organ.getNumberOfManuals : Int)) →
      (modernElement env t panelId i p).m_organ = p.m_organ ∧
      (modernElement env t panelId i p).m_fault = p.m_fault) ∧
    ((0 ≤ env.readLong ("/" ++ panelId ++ numberedSection env "Element" i) "Manual" (-1) ∧
        env.readLong ("/" ++ panelId ++ numberedSection env "Element" i) "Manual" (-1) <
          (p.m_organ.getNumberOfManuals : Int)) →
      ∃ man, getAt p.m_organ.m_Manuals (divisionIndex p.m_organ.m_hasPedals
          (env.readLong ("/" ++ panelId ++ numberedSection env "Element" i) "Manual" (-1)))
          = some man ∧
        ((env.readLong ("/" ++ panelId ++ numberedSection env "Element" i) k.typeName 0 < 1 ∨
          (man.getNumberOf k : Int) <
            env.readLong ("/" ++ panelId ++ numberedSection env "Element" i) k.typeName 0) →
        (modernElement env t panelId i p).m_organ = p.m_organ ∧
        (modernElement env t panelId i p).m_fault = p.m_fault)) := by
  rw [modernElement_slot env t panelId i p k hg hty]
  constructor
  · intro h
    rw [modernSlotElement_of_rejected env k t _ h]
    exact ⟨rfl, rfl⟩
  · intro h
    obtain ⟨man, hman⟩ := divisionIndex_resolves p.m_organ.m_hasPedals _ p.m_organ.m_Manuals h
    refine ⟨man, hman, fun hs => ?_⟩
    rw [modernSlotElement_of_slot_rejected env k t (elementState env panelId i p) man h hman hs]
    exact ⟨rfl, rfl⟩

/-- C11 at scenario C: the section Panel000Element007 has Type=Stop, Manual=1, Stop=3 and
division 1 has two stops; the main panel has as many elements after the section as before, and
the whole load leaves the main panel empty. -/
theorem C11_rejected_slot_element_appends_nothing_witness :
    (scenarioCState.m_organ.m_Manuals.map (fun m => m.getNumberOf .stop)) = [0, 2] ∧
    (modernElement scenarioC.env 0 "Panel000" 6 scenarioCState).m_organ.m_mainPanel.m_guiElements.length
      = scenarioCState.m_organ.m_mainPanel.m_guiElements.length ∧
    (newOrganFileParser scenarioC.env "demo.organ" emptyOrgan).m_organ.m_mainPanel.m_guiElements
      = [] := by
  refine ⟨by decide, ?_, by decide⟩
  obtain ⟨man, hman, h⟩ := (C11_rejected_slot_element_appends_nothing scenarioC.env 0 "Panel000" 6
    scenarioCState .stop (by decide) (by decide)).2 (by decide)
  have hm : man = ⟨false, ⟨"/Manual001", false, slotEntities "/Manual001" "Stop" 2, [], []⟩⟩ := by
    have h2 : getAt scenarioCState.m_organ.m_Manuals
        (divisionIndex scenarioCState.m_organ.m_hasPedals
          (scenarioC.env.readLong ("/" ++ "Panel000" ++ numberedSection scenarioC.env "Element" 6)
            "Manual" (-1))) =
        some ⟨false, ⟨"/Manual001", false, slotEntities "/Manual001" "Stop" 2, [], []⟩⟩ := by
      decide
    rw [h2] at hman
    exact (Option.some.inj hman).symm
  subst hm
  rw [(h (Or.inr (by decide))).1]

theorem get?_modifyAt {α : Type} (g : α → α) (l : List α) (j : Nat) :
    (modifyAt g l j).get? j = (l.get? j).map g := by
  induction l generalizing j with
  | nil => simp [modifyAt]
  | cons a as ih =>
    cases j with
    | zero => simp [modifyAt]
    | succ j => simpa [modifyAt] using ih j

/-- The panel at a position after a change of the panel at that position. -/
theorem getOrganPanelAt_modifyPanel (o : Organ) (g : GoPanel → GoPanel) (t : Nat) :
    (o.modifyPanel g t).getOrganPanelAt t = (o.getOrganPanelAt t).map g := by
  cases t with
  | zero => rfl
  | succ j => exact get?_modifyAt g o.m_extraPanels j

theorem modernEntityElement_of_rejected (env : Env) (k : EntityKind) (t : Nat)
    (p : OrganFileParser)
    (h : ¬ (1 ≤ env.readLong p.m_path k.groupName 0 ∧
      env.readLong p.m_path k.groupName 0 ≤ (p.m_organ.getNumberOf k : Int))) :
    modernEntityElement env k t p = p := by
  simp only [modernEntityElement]
  rw [if_neg (by omega)]

theorem modernEntityElement_of_accepted (env : Env) (k : EntityKind) (t : Nat)
    (p : OrganFileParser) (cls : ElementClass) (e : Entity) (hk : k.guiClass = some cls)
    (h : 1 ≤ env.readLong p.m_path k.groupName 0 ∧
      env.readLong p.m_path k.groupName 0 ≤ (p.m_organ.getNumberOf k : Int))
    (he : (p.m_organ.m_entities k).get? (env.readLong p.m_path k.groupName 0 - 1).toNat = some e) :
    modernEntityElement env k t p =
      (p.lookup (.entities k) (env.readLong p.m_path k.groupName 0 - 1)
        (p.m_organ.getNumberOf k)).addGuiElement t
        ⟨cls, cls.typeName, e.name,
          some (.organ k (env.readLong p.m_path k.groupName 0 - 1).toNat), p.m_path⟩ := by
  simp only [modernEntityElement]
  rw [if_pos (by omega)]
  simp only [withEntityAt, OrganFileParser.lookup]
  rw [if_pos (by constructor <;> omega)]
  generalize (env.readLong p.m_path k.groupName 0 - 1).toNat = n at he ⊢
  rw [List.get?_eq_getElem?] at he
  cases k <;> simp [EntityKind.guiClass] at hk <;> subst hk <;>
    simp [createGUIEntity, createGUIEnclosure, createGUISwitch, createGUITremulant,
      createGUIPiston, createGUIDivCplr, createGUIGeneral, createNamedElement, Organ.nameOf, he,
      OrganFileParser.addGuiElement]

/-- C12: in modern mode an existing element section of type Enclosure, Tremulant,
DivisionalCoupler, General, ReversiblePiston or Switch whose slot index k (0 when the key is
missing) satisfies 1 ≤ k ≤ size of the matching collection appends exactly one element of the
class of the kind to the target panel, named after and bound to the entity at 0-based position
k - 1 of that collection, and raises no fault; for every other k the organ is left as it was. -/
theorem C12_entity_element_is_bound_to_position_k_minus_1 (env : Env) (t : Nat)
    (panelId : String) (i : Nat) (p : OrganFileParser) (k : EntityKind) (cls : ElementClass)
    (hk : k.guiClass = some cls)
    (hg : env.hasGroup p.m_path (panelId ++ numberedSection env "Element" i) = true)
    (hty : env.read ("/" ++ panelId ++ numberedSection env "Element" i) "Type" "" = k.groupName) :
    ((1 ≤ env.readLong ("/" ++ panelId ++ numberedSection env "Element" i) k.groupName 0 ∧
        env.readLong ("/" ++ panelId ++ numberedSection env "Element" i) k.groupName 0 ≤
          (p.m_organ.getNumberOf k : Int)) →
      ∃ e, (p.m_organ.m_entities k).get?
          (env.readLong ("/" ++ panelId ++ numberedSection env "Element" i) k.groupName 0 - 1).toNat
          = some e ∧
        (modernElement env t panelId i p).m_organ =
          p.m_organ.modifyPanel (fun pnl => pnl.addGuiElement ⟨cls, cls.typeName, e.name,
            some (.organ k (env.readLong ("/" ++ panelId ++ numberedSection env "Element" i)
              k.groupName 0 - 1).toNat),
            "/" ++ panelId ++ numberedSection env "Element" i⟩) t ∧
        (∀ pnl, p.m_organ.getOrganPanelAt t = some pnl →
          ((modernElement env t panelId i p).m_organ.getOrganPanelAt t).map GoPanel.m_guiElements =
            some (pnl.m_guiElements ++ [⟨cls, cls.typeName, e.name,
              some (.organ k (env.readLong ("/" ++ panelId ++ numberedSection env "Element" i)
                k.groupName 0 - 1).toNat),
              "/" ++ panelId ++ numberedSection env "Element" i⟩])) ∧
        (modernElement env t panelId i p).m_fault = p.m_fault) ∧
    (¬ (1 ≤ env.readLong ("/" ++ panelId ++ numberedSection env "Element" i) k.groupName 0 ∧
        env.readLong ("/" ++ panelId ++ numberedSection env "Element" i) k.groupName 0 ≤
          (p.m_organ.getNumberOf k : Int)) →
      (modernElement env t panelId i p).m_organ = p.m_organ ∧
      (modernElement env t panelId i p).m_fault = p.m_fault) := by
  have hgui : k.hasGUI = true := by cases k <;> simp [EntityKind.guiClass] at hk <;> rfl
  rw [modernElement_entity env t panelId i p k hgui hg hty]
  constructor
  · intro h
    have hlt : (env.readLong ("/" ++ panelId ++ numberedSection env "Element" i) k.groupName 0
        - 1).toNat < (p.m_organ.m_entities k).length := by
      have := h.2
      simp only [Organ.getNumberOf] at this
      omega
    refine ⟨(p.m_organ.m_entities k)[(env.readLong
      ("/" ++ panelId ++ numberedSection env "Element" i) k.groupName 0 - 1).toNat], ?_, ?_⟩
    · simp [hlt]
    · have hacc := modernEntityElement_of_accepted env k t (elementState env panelId i p) cls
        ((p.m_organ.m_entities k)[(env.readLong
          ("/" ++ panelId ++ numberedSection env "Element" i) k.groupName 0 - 1).toNat]) hk h
        (by simp [elementState, OrganFileParser.consult, OrganFileParser.SetPath, hlt])
      rw [hacc]
      refine ⟨rfl, ?_, rfl⟩
      intro pnl hpnl
      show (Organ.getOrganPanelAt (p.m_organ.modifyPanel _ t) t).map _ = _
      rw [getOrganPanelAt_modifyPanel, hpnl]
      rfl
  · intro h
    rw [modernEntityElement_of_rejected env k t _ h]
    exact ⟨rfl, rfl⟩

/-- C12 at `enclosureElementIni`: the enclosure element with `Enclosure=1` is appended to the
main panel, bound to the enclosure at position 0; the tremulant element, which has no `Tremulant`
key, appends nothing; the whole load gives the main panel just the enclosure element. -/
theorem C12_entity_element_is_bound_to_position_k_minus_1_witness :
    ((modernElement enclosureElementIni.env 0 "Panel000" 0
        enclosureElementState).m_organ.getOrganPanelAt 0).map GoPanel.m_guiElements =
      some [⟨.GUIEnclosure, "Enclosure", "/Enclosure001", some (.organ .enclosure 0),
        "/Panel000Element001"⟩] ∧
    (modernElement enclosureElementIni.env 0 "Panel000" 1 enclosureElementState).m_organ =
      enclosureElementState.m_organ ∧
    (newOrganFileParser enclosureElementIni.env "demo.organ"
        emptyOrgan).m_organ.m_mainPanel.m_guiElements =
      [⟨.GUIEnclosure, "Enclosure", "/Enclosure001", some (.organ .enclosure 0),
        "/Panel000Element001"⟩] := by
  refine ⟨?_, ?_, by decide⟩
  · obtain ⟨e, he, _, hpanel, _⟩ := (C12_entity_element_is_bound_to_position_k_minus_1
      enclosureElementIni.env 0 "Panel000" 0 enclosureElementState .enclosure .GUIEnclosure rfl
      (by decide) (by decide)).1 (by decide)
    have h2 : (enclosureElementState.m_organ.m_entities .enclosure).get?
        (enclosureElementIni.env.readLong
          ("/" ++ "Panel000" ++ numberedSection enclosureElementIni.env "Element" 0)
          EntityKind.enclosure.groupName 0 - 1).toNat = some ⟨"/Enclosure001", false⟩ := by decide
    rw [h2] at he
    have := (Option.some.inj he).symm
    subst this
    exact (hpanel _ rfl).trans (by decide)
  · exact ((C12_entity_element_is_bound_to_position_k_minus_1
      enclosureElementIni.env 0 "Panel000" 1 enclosureElementState .tremulant .GUITremulant rfl
      (by decide) (by decide)).2 (by decide)).1

/-! ## Legacy setter elements: which branch a type name takes -/

/-- A `Find` result is -1 or a position not before the start of the scan. -/
theorem findAux_ge (sub : List Char) (l : List Char) (n : Nat) :
    findAux sub l n = -1 ∨ (n : Int) ≤ findAux sub l n := by
  induction l generalizing n with
  | nil =>
    simp only [findAux]
    split
    · exact Or.inr (le_refl _)
    · exact Or.inl rfl
  | cons c cs ih =>
    simp only [findAux]
    split
    · exact Or.inr (le_refl _)
    · rcases ih (n + 1) with h | h
      · exact Or.inl h
      · exact Or.inr (by omega)

/-- A name that starts with `sub` has `Find(sub)` equal to 0, which is false as a truth value. -/
theorem wxFind_of_startsWith (s sub : String) (h : wxStartsWith s sub = true) (hsub : sub.data ≠ []) :
    wxFind s sub = 0 := by
  simp only [wxStartsWith] at h
  simp only [wxFind]
  cases hs : s.data with
  | nil =>
    rw [hs] at h
    cases hd : sub.data with
    | nil => exact absurd hd hsub
    | cons a as => rw [hd] at h; simp [List.isPrefixOf] at h
  | cons c cs =>
    rw [hs] at h
    simp [findAux, h]

/-- A name with `Find(sub)` equal to 0 starts with `sub`. -/
theorem startsWith_of_wxFind (s sub : String) (h : wxFind s sub = 0) (hsub : sub.data ≠ []) :
    wxStartsWith s sub = true := by
  simp only [wxFind] at h
  simp only [wxStartsWith]
  cases hs : s.data with
  | nil =>
    rw [hs] at h
    simp only [findAux] at h
    split at h
    · contradiction
    · omega
  | cons c cs =>
    rw [hs] at h
    simp only [findAux] at h
    split at h
    · assumption
    · rcases findAux_ge sub.data cs (0 + 1) with h1 | h1
      · rw [h1] at h; omega
      · rw [h] at h1; omega

/-- The second branch of `createFromSetterElement`: a name that is not a label and starts neither
with "Setter" nor with "DivisionalBank" has its characters 6 to 8 converted; when the conversion
fails, the function returns without appending anything. -/
theorem createFromSetterElement_no_number (env : Env) (p : OrganFileParser) (t : Nat)
    (ty : String)
    (hl : ¬ (ty = "CrescendoLabel" ∨ ty = "GeneralLabel" ∨ ty = "PitchLabel" ∨
      ty = "SequencerLabel" ∨ ty = "TemperamentLabel" ∨ ty = "TransposeLabel"))
    (hs : wxFind ty "Setter" ≠ 0) (hd : wxFind ty "DivisionalBank" ≠ 0)
    (hn : env.toLong (wxMid ty 6 3) = none) :
    createFromSetterElement env p t ty = p := by
  simp only [createFromSetterElement]
  rw [if_neg hl, if_pos ⟨hs, hd⟩, hn]

/-- A name that starts with "Setter" skips every branch that tests `Find("Setter")` and reaches
the last one: a Switch element made from a null pointer when the name is in the vocabulary, which
is a call through the null pointer, and nothing otherwise. -/
theorem createFromSetterElement_setter (env : Env) (p : OrganFileParser) (t : Nat)
    (ty : String) (h : wxStartsWith ty "Setter" = true) :
    createFromSetterElement env p t ty = if ty ∈ env.setterElements then p.fault else p := by
  have hf : wxFind ty "Setter" = 0 := wxFind_of_startsWith ty "Setter" h (by decide)
  have hl : ¬ (ty = "CrescendoLabel" ∨ ty = "GeneralLabel" ∨ ty = "PitchLabel" ∨
      ty = "SequencerLabel" ∨ ty = "TemperamentLabel" ∨ ty = "TransposeLabel") := by
    intro hc
    rcases hc with hc | hc | hc | hc | hc | hc <;> subst hc <;> revert h <;> decide
  have hsw : ty ≠ "Swell" := by
    intro hc; subst hc; revert h; decide
  have hg : ¬ (wxStartsWith ty "General" = true ∧ wxLen ty = 9) := by
    intro hc
    have h1 := hc.1
    simp only [wxStartsWith] at h h1
    cases hs : ty.data with
    | nil => rw [hs] at h; simp [List.isPrefixOf] at h
    | cons c cs =>
      rw [hs] at h h1
      simp only [List.isPrefixOf, Bool.and_eq_true, beq_iff_eq] at h h1
      have a := h.1
      have b := h1.1
      rw [← b] at a
      exact absurd a (by decide)
  simp only [createFromSetterElement]
  rw [if_neg hl, if_neg (by rw [hf]; simp), if_neg hsw, if_neg hg, if_neg (by rw [hf]; simp),
    if_neg (by rw [hf]; simp)]
  split
  · rfl
  · rfl

/-- A name of length 9 that starts with "General" is caught by the second branch, before the
General branch: its characters 6 to 8 start with the letter l and are converted; when the
conversion fails nothing is appended. -/
theorem createFromSetterElement_general (env : Env) (p : OrganFileParser) (t : Nat)
    (ty : String) (hg : wxStartsWith ty "General" = true) (hlen : wxLen ty = 9)
    (hn : env.toLong (wxMid ty 6 3) = none) :
    createFromSetterElement env p t ty = p := by
  have hne : ∀ sub : String, sub.data.head? ≠ some 'G' → sub.data ≠ [] →
      wxFind ty sub ≠ 0 := by
    intro sub hhead hsub h0
    have h := startsWith_of_wxFind ty sub h0 hsub
    simp only [wxStartsWith] at h hg
    cases hs : ty.data with
    | nil => rw [hs] at hg; simp [List.isPrefixOf] at hg
    | cons c cs =>
      rw [hs] at h hg
      cases hd : sub.data with
      | nil => exact hsub hd
      | cons a as =>
        rw [hd] at h hhead
        simp only [List.isPrefixOf, Bool.and_eq_true, beq_iff_eq] at h hg
        have a1 := h.1
        have b1 := hg.1
        rw [← b1] at a1
        exact hhead (by simp [a1])
  refine createFromSetterElement_no_number env p t ty ?_ (hne "Setter" (by decide) (by decide))
    (hne "DivisionalBank" (by decide) (by decide)) hn
  intro hc
  rcases hc with hc | hc | hc | hc | hc | hc <;> subst hc <;> revert hlen <;> decide

/-- Characters 6 to 8 of a name that starts with "General" and has a character after it start with
the letter l. -/
theorem wxMid_general (ty : String) (hg : wxStartsWith ty "General" = true) :
    (wxMid ty 6 3).data.head? = some 'l' := by
  simp only [wxStartsWith] at hg
  obtain ⟨rest, hrest⟩ := List.isPrefixOf_iff_prefix.mp hg
  simp only [wxMid]
  rw [← hrest]
  rfl

/-- C13 (the code does not do what the claim says): the type name "Swell" never reaches the Swell
branch. Its `Find("Setter")` and `Find("DivisionalBank")` are both -1, which is true as a truth
value, so the second branch is taken; characters 6 to 8 of "Swell" are the empty string, whose
conversion to a number fails, and the function returns without appending anything. A legacy file
whose root setter element has type Swell loads to an empty main panel. The Swell branch itself
would call `getName` through the null pointer. -/
theorem C13_swell_setter_element_appends_nothing :
    wxFind "Swell" "Setter" = -1 ∧ wxFind "Swell" "DivisionalBank" = -1 ∧
    wxMid "Swell" 6 3 = "" ∧
    (∀ (env : Env) (p : OrganFileParser) (t : Nat), env.toLong "" = none →
      createFromSetterElement env p t "Swell" = p) ∧
    (∀ (p : OrganFileParser) (t : Nat), createGUIEnclosure p t none = p.fault) ∧
    ("/Organ", "SetterElement001") ∈
      (newOrganFileParser (setterElementIni "Swell" []).env "demo.organ" emptyOrgan).consulted ∧
    (newOrganFileParser (setterElementIni "Swell" []).env "demo.organ"
      emptyOrgan).m_organ.m_mainPanel.m_guiElements = [] ∧
    (newOrganFileParser (setterElementIni "Swell" []).env "demo.organ" emptyOrgan).m_fault
      = false :=
  ⟨by decide, by decide, by decide,
    fun env p t h => createFromSetterElement_no_number env p t "Swell" (by decide) (by decide)
      (by decide) h,
    fun _ _ => rfl, by decide, by decide, by decide⟩

/-- C14 (the code does not do what the claim says): the legacy file with a pedal division, one
manual, one displayed enclosure and one root-level setter element of type Swell loads to a main
panel that holds one Enclosure element, the one created for the displayed enclosure, not two; the
setter element of type Swell appends nothing. The modern file with the corresponding Element
sections loads to a main panel with the same single element (same class, type, name and
entity). -/
theorem C14_legacy_swell_file_loads_one_enclosure_element :
    (newOrganFileParser swellLegacyIni.env "demo.organ" emptyOrgan).m_isUsingOldPanelFormat
      = true ∧
    (newOrganFileParser swellLegacyIni.env "demo.organ" emptyOrgan).m_organ.m_hasPedals = true ∧
    ((newOrganFileParser swellLegacyIni.env "demo.organ" emptyOrgan).m_organ.m_Manuals.map
      (fun m => m.contents.name)) = ["/Manual000", "/Manual001"] ∧
    ("/Organ", "SetterElement001") ∈
      (newOrganFileParser swellLegacyIni.env "demo.organ" emptyOrgan).consulted ∧
    (newOrganFileParser swellLegacyIni.env "demo.organ"
      emptyOrgan).m_organ.m_mainPanel.m_guiElements =
      [⟨.GUIEnclosure, "Enclosure", "/Enclosure001", some (.organ .enclosure 0),
        "/Enclosure001"⟩] ∧
    (newOrganFileParser swellLegacyIni.env "demo.organ" emptyOrgan).m_fault = false ∧
    (newOrganFileParser swellModernIni.env "demo.organ" emptyOrgan).m_isUsingOldPanelFormat
      = false ∧
    (newOrganFileParser swellModernIni.env "demo.organ"
      emptyOrgan).m_organ.m_mainPanel.m_guiElements =
      [⟨.GUIEnclosure, "Enclosure", "/Enclosure001", some (.organ .enclosure 0),
        "/Panel000Element001"⟩] ∧
    (newOrganFileParser swellModernIni.env "demo.organ" emptyOrgan).m_fault = false ∧
    ((newOrganFileParser swellLegacyIni.env "demo.organ"
      emptyOrgan).m_organ.m_mainPanel.m_guiElements.map GUIElement.shape) =
      ((newOrganFileParser swellModernIni.env "demo.organ"
        emptyOrgan).m_organ.m_mainPanel.m_guiElements.map GUIElement.shape) :=
  ⟨by decide, by decide, by decide, by decide, by decide, by decide, by decide, by decide,
    by decide, by decide⟩

/-- C16 (the code does not do what the claim says): a type name of length 9 that starts with
"General" never reaches the General branch. It does not start with "Setter" or with
"DivisionalBank", so both `Find` results are true as truth values and the second branch is taken;
its characters 6 to 8 start with the letter l, and when their conversion to a number fails the
function returns without appending anything. A legacy file whose root setter element has type
General01 loads to an empty main panel. The General branch itself would call `getName` through
the null pointer. -/
theorem C16_general_setter_element_appends_nothing :
    wxFind "General01" "Setter" = -1 ∧ wxFind "General01" "DivisionalBank" = -1 ∧
    wxMid "General01" 6 3 = "l01" ∧
    (∀ (env : Env) (p : OrganFileParser) (t : Nat) (ty : String),
      wxStartsWith ty "General" = true → wxLen ty = 9 →
      (wxMid ty 6 3).data.head? = some 'l' ∧
      (env.toLong (wxMid ty 6 3) = none → createFromSetterElement env p t ty = p)) ∧
    (∀ (p : OrganFileParser) (t : Nat), createGUIGeneral p t none = p.fault) ∧
    ("/Organ", "SetterElement001") ∈
      (newOrganFileParser (setterElementIni "General01" []).env "demo.organ"
        emptyOrgan).consulted ∧
    (newOrganFileParser (setterElementIni "General01" []).env "demo.organ"
      emptyOrgan).m_organ.m_mainPanel.m_guiElements = [] ∧
    (newOrganFileParser (setterElementIni "General01" []).env "demo.organ" emptyOrgan).m_fault
      = false :=
  ⟨by decide, by decide, by decide,
    fun env p t ty hg hlen =>
      ⟨wxMid_general ty hg, createFromSetterElement_general env p t ty hg hlen⟩,
    fun _ _ => rfl, by decide, by decide, by decide⟩

/-- C17 (the code does not do what the claim says): a type name in the vocabulary that does not
contain "Setter" is not made a Switch element. `Find("Setter")` is -1 for it, true as a truth
value, so the second branch is taken whenever the name does not start with "DivisionalBank";
when the conversion of its characters 6 to 8 fails nothing is appended, whether the name is in
the vocabulary or not. Legacy files whose root setter element has type Set or Next, both in the
vocabulary, load to an empty main panel. The last branch itself would call `getName` through the
null pointer. -/
theorem C17_vocabulary_name_appends_nothing :
    wxFind "Set" "Setter" = -1 ∧ wxFind "Set" "DivisionalBank" = -1 ∧ wxMid "Set" 6 3 = "" ∧
    wxFind "Next" "Setter" = -1 ∧ wxFind "Next" "DivisionalBank" = -1 ∧ wxMid "Next" 6 3 = "" ∧
    (∀ (env : Env) (p : OrganFileParser) (t : Nat) (ty : String),
      ¬ (ty = "CrescendoLabel" ∨ ty = "GeneralLabel" ∨ ty = "PitchLabel" ∨
        ty = "SequencerLabel" ∨ ty = "TemperamentLabel" ∨ ty = "TransposeLabel") →
      wxFind ty "Setter" = -1 → wxFind ty "DivisionalBank" ≠ 0 →
      env.toLong (wxMid ty 6 3) = none →
      createFromSetterElement env p t ty = p) ∧
    (∀ (p : OrganFileParser) (t : Nat), createGUISwitch p t none = p.fault) ∧
    "Set" ∈ (setterElementIni "Set" ["Set", "Next"]).env.setterElements ∧
    ("/Organ", "SetterElement001") ∈
      (newOrganFileParser (setterElementIni "Set" ["Set", "Next"]).env "demo.organ"
        emptyOrgan).consulted ∧
    (newOrganFileParser (setterElementIni "Set" ["Set", "Next"]).env "demo.organ"
      emptyOrgan).m_organ.m_mainPanel.m_guiElements = [] ∧
    (newOrganFileParser (setterElementIni "Set" ["Set", "Next"]).env "demo.organ"
      emptyOrgan).m_fault = false ∧
    (newOrganFileParser (setterElementIni "Next" ["Set", "Next"]).env "demo.organ"
      emptyOrgan).m_organ.m_mainPanel.m_guiElements = [] ∧
    (newOrganFileParser (setterElementIni "Next" ["Set", "Next"]).env "demo.organ"
      emptyOrgan).m_fault = false :=
  ⟨by decide, by decide, by decide, by decide, by decide, by decide,
    fun env p t ty hl hs hd hn =>
      createFromSetterElement_no_number env p t ty hl (by rw [hs]; decide) hd hn,
    fun _ _ => rfl, by decide, by decide, by decide, by decide, by decide, by decide⟩

/-- C18 (the code does not do what the claim says): a type name that starts with "Setter" is
never made a Divisional element. Its `Find("Setter")` is 0, false as a truth value, so the three
branches for Setter names are skipped and the last branch is reached: nothing is appended when
the name is not in the vocabulary, and a Switch element is made from a null pointer, a call
through that pointer, when it is. No index of the name is compared with a bound. A legacy file
whose root setter element has type Setter001Divisional001 loads to an empty main panel, although
division index 1 does not exceed the two divisions of the organ of the frame. -/
theorem C18_setter_divisional_name_appends_no_divisional :
    wxFind "Setter001Divisional001" "Setter" = 0 ∧ wxLen "Setter001Divisional001" = 22 ∧
    wxMid "Setter001Divisional001" 6 3 = "001" ∧ wxMid "Setter001Divisional001" 19 3 = "001" ∧
    (∀ (env : Env) (p : OrganFileParser) (t : Nat) (ty : String),
      wxStartsWith ty "Setter" = true →
      createFromSetterElement env p t ty = if ty ∈ env.setterElements then p.fault else p) ∧
    (setterElementIni "Setter001Divisional001" []).env.toLong "001" = some 1 ∧
    (setterElementIni "Setter001Divisional001" []).env.frameOrganNumberOfManuals = 2 ∧
    ("/Organ", "SetterElement001") ∈
      (newOrganFileParser (setterElementIni "Setter001Divisional001" []).env "demo.organ"
        emptyOrgan).consulted ∧
    (newOrganFileParser (setterElementIni "Setter001Divisional001" []).env "demo.organ"
      emptyOrgan).m_organ.m_mainPanel.m_guiElements = [] ∧
    (newOrganFileParser (setterElementIni "Setter001Divisional001" []).env "demo.organ"
      emptyOrgan).m_fault = false ∧
    (newOrganFileParser (setterElementIni "Setter001Divisional001"
      ["Setter001Divisional001"]).env "demo.organ"
      emptyOrgan).m_organ.m_mainPanel.m_guiElements = [] ∧
    (newOrganFileParser (setterElementIni "Setter001Divisional001"
      ["Setter001Divisional001"]).env "demo.organ" emptyOrgan).m_fault = true :=
  ⟨by decide, by decide, by decide, by decide, createFromSetterElement_setter,
    by decide, by decide, by decide, by decide, by decide, by decide, by decide⟩

/-! ## Legacy setter elements: the label names -/

theorem modifyLast_concat {α : Type} (f : α → α) (l : List α) (a : α) :
    modifyLast f (l ++ [a]) = l ++ [f a] := by
  induction l with
  | nil => rfl
  | cons b bs ih =>
    cases bs with
    | nil => rfl
    | cons c cs =>
      show b :: modifyLast f (c :: cs ++ [a]) = _
      rw [ih]
      rfl

theorem modifyAt_modifyAt {α : Type} (g f : α → α) (l : List α) (j : Nat) :
    modifyAt g (modifyAt f l j) j = modifyAt (fun a => g (f a)) l j := by
  induction l generalizing j with
  | nil => rfl
  | cons a as ih =>
    cases j with
    | zero => rfl
    | succ n => simp [modifyAt, ih]

theorem modifyAt_congr {α : Type} (g f : α → α) (l : List α) (j : Nat)
    (h : ∀ a ∈ l, g a = f a) : modifyAt g l j = modifyAt f l j := by
  induction l generalizing j with
  | nil => rfl
  | cons a as ih =>
    cases j with
    | zero => simp [modifyAt, h a (List.mem_cons_self _ _)]
    | succ n => simp [modifyAt, ih n (fun b hb => h b (List.mem_cons_of_mem _ hb))]

theorem modifyPanel_modifyPanel (o : Organ) (g f : GoPanel → GoPanel) (t : Nat) :
    (o.modifyPanel f t).modifyPanel g t = o.modifyPanel (fun a => g (f a)) t := by
  cases t with
  | zero => rfl
  | succ j => simp [Organ.modifyPanel, modifyAt_modifyAt]

/-- A label appended to an existing panel and then given another type: the panel gets one Label
element of that type and no fault is raised. -/
theorem createGUILabel_overrideLast (p : OrganFileParser) (t : Nat) (ty : String) (pnl : GoPanel)
    (hf : p.m_fault = false) (hp : p.m_organ.getOrganPanelAt t = some pnl) :
    ((createGUILabel p t).andThen (fun q => overrideLast q t ty false)).m_organ =
      p.m_organ.modifyPanel
        (fun q => q.addGuiElement ⟨.GUILabel, ty, "GUI Label", none, p.m_path⟩) t ∧
    ((createGUILabel p t).andThen (fun q => overrideLast q t ty false)).m_fault = false := by
  have h1 : (createGUILabel p t).m_fault = false := hf
  rw [andThen_of_noFault h1]
  have h2 : (createGUILabel p t).m_organ.getOrganPanelAt t = some (pnl.addGuiElement
      ⟨.GUILabel, ElementClass.GUILabel.typeName, "GUI Label", none, p.m_path⟩) := by
    show Organ.getOrganPanelAt (p.m_organ.modifyPanel _ t) t = _
    rw [getOrganPanelAt_modifyPanel, hp]
    rfl
  simp only [overrideLast, withLastGuiElement, h2]
  rw [if_neg (by simp [GoPanel.addGuiElement])]
  refine ⟨?_, hf⟩
  simp only [OrganFileParser.lookup, createGUILabel, OrganFileParser.addGuiElement]
  rw [modifyPanel_modifyPanel]
  congr 1
  funext q
  simp [GoPanel.addGuiElement, modifyLast_concat]

/-- C15: for each of the six label-only type names, `createFromSetterElement`, run without a
pending fault on an existing target panel, appends exactly one Label element to that panel: it
has no functional entity, the display name "GUI Label", and its type is overridden to the given
type name; no fault is raised and no other panel changes. -/
theorem C15_label_names_append_one_label (env : Env) (p : OrganFileParser) (t : Nat)
    (ty : String) (pnl : GoPanel)
    (hty : ty = "CrescendoLabel" ∨ ty = "GeneralLabel" ∨ ty = "PitchLabel" ∨
      ty = "SequencerLabel" ∨ ty = "TemperamentLabel" ∨ ty = "TransposeLabel")
    (hf : p.m_fault = false) (hp : p.m_organ.getOrganPanelAt t = some pnl) :
    (createFromSetterElement env p t ty).m_organ =
      p.m_organ.modifyPanel
        (fun q => q.addGuiElement ⟨.GUILabel, ty, "GUI Label", none, p.m_path⟩) t ∧
    ((createFromSetterElement env p t ty).m_organ.getOrganPanelAt t).map GoPanel.m_guiElements =
      some (pnl.m_guiElements ++ [⟨.GUILabel, ty, "GUI Label", none, p.m_path⟩]) ∧
    (createFromSetterElement env p t ty).m_fault = false := by
  simp only [createFromSetterElement]
  rw [if_pos hty]
  obtain ⟨h1, h2⟩ := createGUILabel_overrideLast p t ty pnl hf hp
  refine ⟨h1, ?_, h2⟩
  rw [h1, getOrganPanelAt_modifyPanel, hp]
  rfl

/-- C15 at `pitchLabelIni`: the setter element of type PitchLabel gives the main panel one Label
element of type PitchLabel; the whole load gives the same panel. -/
theorem C15_label_names_append_one_label_witness :
    ((createFromSetterElement pitchLabelIni.env pitchLabelState 0
        "PitchLabel").m_organ.getOrganPanelAt 0).map GoPanel.m_guiElements =
      some [⟨.GUILabel, "PitchLabel", "GUI Label", none, "/SetterElement001"⟩] ∧
    (createFromSetterElement pitchLabelIni.env pitchLabelState 0 "PitchLabel").m_fault = false ∧
    (newOrganFileParser pitchLabelIni.env "demo.organ"
      emptyOrgan).m_organ.m_mainPanel.m_guiElements =
      [⟨.GUILabel, "PitchLabel", "GUI Label", none, "/SetterElement001"⟩] :=
  ⟨(C15_label_names_append_one_label pitchLabelIni.env pitchLabelState 0 "PitchLabel"
      pitchLabelState.m_organ.m_mainPanel (by decide) (by decide) rfl).2.1.trans (by decide),
    (C15_label_names_append_one_label pitchLabelIni.env pitchLabelState 0 "PitchLabel"
      pitchLabelState.m_organ.m_mainPanel (by decide) (by decide) rfl).2.2,
    by decide⟩

/-! ## Root properties: what the blocks leave alone -/

theorem rootProps_modifyPanel (p : OrganFileParser) (g : GoPanel → GoPanel) (t : Nat) :
    OrganFileParser.rootProps { p with m_organ := p.m_organ.modifyPanel g t } = p.rootProps := by
  cases t <;> rfl

theorem rootProps_addGuiElement (p : OrganFileParser) (t : Nat) (e : GUIElement) :
    (p.addGuiElement t e).rootProps = p.rootProps := by
  cases t <;> rfl

theorem rootProps_withEntityAt (k : EntityKind) (i : Int)
    {cont : EntityRef → OrganFileParser → OrganFileParser}
    (h : ∀ r, Keeps OrganFileParser.rootProps (cont r)) :
    Keeps OrganFileParser.rootProps (fun p => withEntityAt p k i cont) := by
  intro p
  simp only [withEntityAt]
  split
  · rw [h]; rfl
  · rfl

theorem rootProps_withManualAt (i : Int) {cont : Nat → Manual → OrganFileParser → OrganFileParser}
    (h : ∀ mi man, Keeps OrganFileParser.rootProps (cont mi man)) :
    Keeps OrganFileParser.rootProps (fun p => withManualAt p i cont) := by
  intro p
  simp only [withManualAt]
  split
  · rw [h]; rfl
  · rfl

theorem rootProps_withSlotAt (k : SlotKind) (mi : Nat) (man : Manual) (i : Int)
    {cont : EntityRef → OrganFileParser → OrganFileParser}
    (h : ∀ r, Keeps OrganFileParser.rootProps (cont r)) :
    Keeps OrganFileParser.rootProps (fun p => withSlotAt p k mi man i cont) := by
  intro p
  simp only [withSlotAt]
  split
  · rw [h]; rfl
  · rfl

theorem rootProps_withLastGuiElement (t : Nat) (f : GUIElement → GUIElement) :
    Keeps OrganFileParser.rootProps (fun p => withLastGuiElement p t f) := by
  intro p
  simp only [withLastGuiElement]
  split
  · rfl
  · split
    · rfl
    · cases t <;> rfl

theorem rootProps_createNamedElement (cls : ElementClass) (t : Nat) (e : Option EntityRef) :
    Keeps OrganFileParser.rootProps (fun p => createNamedElement cls p t e) := by
  intro p
  simp only [createNamedElement]
  split
  · rfl
  · split
    · rfl
    · exact rootProps_addGuiElement _ _ _

theorem rootProps_createGUILabel (t : Nat) :
    Keeps OrganFileParser.rootProps (fun p => createGUILabel p t) :=
  fun p => rootProps_addGuiElement p t _

theorem rootProps_createGUIDivisional (t : Nat) (e : Option EntityRef) :
    Keeps OrganFileParser.rootProps (fun p => createGUIDivisional p t e) :=
  fun p => rootProps_addGuiElement p t _

theorem rootProps_createGUIEntity (k : EntityKind) (t : Nat) (e : Option EntityRef) :
    Keeps OrganFileParser.rootProps (fun p => createGUIEntity k p t e) := by
  intro p
  cases k <;> first | rfl | exact rootProps_createNamedElement _ t e p

theorem rootProps_createGUISlot (k : SlotKind) (t : Nat) (e : Option EntityRef) :
    Keeps OrganFileParser.rootProps (fun p => createGUISlot k p t e) := by
  intro p
  cases k
  · exact rootProps_createNamedElement _ t e p
  · exact rootProps_createNamedElement _ t e p
  · exact rootProps_createGUIDivisional t e p

theorem rootProps_overrideLast (t : Nat) (ty : String) (b : Bool) :
    Keeps OrganFileParser.rootProps (fun p => overrideLast p t ty b) :=
  fun p => rootProps_withLastGuiElement t _ p

theorem rootProps_createFromSetterElement (env : Env) (t : Nat) (ty : String) :
    Keeps OrganFileParser.rootProps (fun p => createFromSetterElement env p t ty) := by
  intro p
  have hl : ∀ b, ((createGUILabel p t).andThen (fun q => overrideLast q t ty b)).rootProps = p.rootProps :=
    fun b => (keeps_andThen (rootProps_overrideLast t ty b) _).trans (rootProps_createGUILabel t p)
  have hd : ∀ b, ((createGUIDivisional p t none).andThen
      (fun q => overrideLast q t ty b)).rootProps = p.rootProps :=
    fun b => (keeps_andThen (rootProps_overrideLast t ty b) _).trans (rootProps_createGUIDivisional t none p)
  have hg : ∀ b, ((createGUIGeneral p t none).andThen
      (fun q => overrideLast q t ty b)).rootProps = p.rootProps :=
    fun b => (keeps_andThen (rootProps_overrideLast t ty b) _).trans
      (rootProps_createNamedElement _ t none p)
  have hs : ∀ b, ((createGUISwitch p t none).andThen
      (fun q => overrideLast q t ty b)).rootProps = p.rootProps :=
    fun b => (keeps_andThen (rootProps_overrideLast t ty b) _).trans
      (rootProps_createNamedElement _ t none p)
  have he : (createGUIEnclosure p t none).rootProps = p.rootProps := rootProps_createNamedElement _ t none p
  simp only [createFromSetterElement]
  repeat' split
  all_goals first | rfl | exact hl _ | exact hd _

theorem rootProps_ite {c : Prop} [Decidable c] {a b p : OrganFileParser} (ha : a.rootProps = p.rootProps)
    (hb : b.rootProps = p.rootProps) : (if c then a else b).rootProps = p.rootProps := by
  split <;> assumption

theorem rootProps_modernSlotElement (env : Env) (k : SlotKind) (t : Nat) :
    Keeps OrganFileParser.rootProps (modernSlotElement env k t) := by
  intro p
  simp only [modernSlotElement]
  split
  · refine rootProps_withManualAt _ ?_ p
    intro mi man q
    dsimp only
    split
    · exact rootProps_withSlotAt k mi man _ (fun r => rootProps_createGUISlot k t (some r)) q
    · rfl
  · rfl

theorem rootProps_modernEntityElement (env : Env) (k : EntityKind) (t : Nat) :
    Keeps OrganFileParser.rootProps (modernEntityElement env k t) := by
  intro p
  simp only [modernEntityElement]
  split
  · exact rootProps_withEntityAt k _ (fun r => rootProps_createGUIEntity k t (some r)) p
  · rfl

theorem rootProps_modernManualElement (env : Env) (t : Nat) :
    Keeps OrganFileParser.rootProps (modernManualElement env t) := by
  intro p
  simp only [modernManualElement]
  split
  · exact rootProps_withManualAt _ (fun mi _ => rootProps_createNamedElement _ t (some (.manual mi))) p
  · rfl

theorem rootProps_modernElement (env : Env) (t : Nat) (panelId : String) (i : Nat) :
    Keeps OrganFileParser.rootProps (modernElement env t panelId i) := by
  intro p
  simp only [modernElement]
  refine rootProps_ite ?_ rfl
  refine rootProps_ite (rootProps_modernSlotElement env _ t _) ?_
  refine rootProps_ite (rootProps_modernSlotElement env _ t _) ?_
  refine rootProps_ite (rootProps_modernSlotElement env _ t _) ?_
  refine rootProps_ite (rootProps_modernEntityElement env _ t _) ?_
  refine rootProps_ite (rootProps_modernEntityElement env _ t _) ?_
  refine rootProps_ite (rootProps_modernEntityElement env _ t _) ?_
  refine rootProps_ite (rootProps_modernEntityElement env _ t _) ?_
  refine rootProps_ite (rootProps_modernEntityElement env _ t _) ?_
  refine rootProps_ite (rootProps_modernEntityElement env _ t _) ?_
  refine rootProps_ite (rootProps_createGUILabel t _) ?_
  exact rootProps_ite (rootProps_modernManualElement env t _) (rootProps_createFromSetterElement env t _ _)

theorem rootProps_setPath (path : String) :
    Keeps OrganFileParser.rootProps (fun q => q.SetPath path) := fun _ => rfl

theorem rootProps_legacyManualEntry (env : Env) (t : Nat) (panelId : String) (i : Nat) :
    Keeps OrganFileParser.rootProps (legacyManualEntry env t panelId i) := by
  intro p
  simp only [legacyManualEntry]
  rw [keeps_andThen (rootProps_setPath _)]
  repeat' split
  all_goals first
    | rfl
    | exact rootProps_withManualAt _ (fun mi _ => rootProps_createNamedElement _ t (some (.manual mi))) _

theorem rootProps_legacySetterEntry (env : Env) (panelId : String) (i : Nat) :
    Keeps OrganFileParser.rootProps (legacySetterEntry env panelId i) := by
  intro p
  simp only [legacySetterEntry]
  rw [keeps_andThen (rootProps_setPath _)]
  repeat' split
  all_goals first
    | rfl
    | exact rootProps_createFromSetterElement env 0 _ _

theorem rootProps_legacyEntityEntry (env : Env) (k : EntityKind) (t : Nat) (panelId : String)
    (i : Nat) : Keeps OrganFileParser.rootProps (legacyEntityEntry env k t panelId i) := by
  intro p
  simp only [legacyEntityEntry]
  rw [keeps_andThen (rootProps_setPath _)]
  repeat' split
  all_goals first
    | rfl
    | exact rootProps_withEntityAt k _ (fun r => rootProps_createGUIEntity k t (some r)) _

theorem rootProps_legacySlotEntry (env : Env) (k : SlotKind) (t : Nat) (panelId : String)
    (i : Nat) : Keeps OrganFileParser.rootProps (legacySlotEntry env k t panelId i) := by
  intro p
  simp only [legacySlotEntry]
  rw [keeps_andThen (rootProps_setPath _)]
  split
  · refine rootProps_withManualAt _ ?_ p
    intro mi man q
    dsimp only
    repeat' split
    all_goals first
      | rfl
      | exact rootProps_withSlotAt k mi man _ (fun r => rootProps_createGUISlot k t (some r)) _
  · rfl

theorem rootProps_legacyLabelEntry (env : Env) (t : Nat) (panelId : String) (i : Nat) :
    Keeps OrganFileParser.rootProps (legacyLabelEntry env t panelId i) := by
  intro p
  simp only [legacyLabelEntry]
  rw [keeps_andThen (rootProps_setPath _)]
  split
  · exact rootProps_createGUILabel t _
  · rfl

theorem rootProps_legacyLoop (env : Env) (key : String)
    {body : Nat → OrganFileParser → OrganFileParser}
    (h : ∀ i, Keeps OrganFileParser.rootProps (body i)) :
    Keeps OrganFileParser.rootProps (legacyLoop env key body) :=
  fun p => keeps_forLoop h _ p

theorem rootProps_parsePanelElements (env : Env) (t : Nat) (panelId : String) :
    Keeps OrganFileParser.rootProps (fun p => parsePanelElements env p t panelId) := by
  intro p
  simp only [parsePanelElements]
  split
  · split
    · rw [keeps_andThen (rootProps_setPath _)]
      exact keeps_forLoop (rootProps_modernElement env t panelId) _ p
    · rfl
  · have hE := fun k => rootProps_legacyLoop env (EntityKind.countKey k)
      (rootProps_legacyEntityEntry env k t panelId)
    have hS := fun k => rootProps_legacyLoop env (SlotKind.countKey k)
      (rootProps_legacySlotEntry env k t panelId)
    rw [keeps_andThen (rootProps_legacyLoop env _ (rootProps_legacyLabelEntry env t panelId)),
      keeps_andThen (hS _), keeps_andThen (hS _), keeps_andThen (hS _),
      keeps_andThen (hE _), keeps_andThen (hE _), keeps_andThen (hE _),
      keeps_andThen (hE _), keeps_andThen (hE _), keeps_andThen (hE _),
      keeps_andThen (rootProps_legacyLoop env _ (rootProps_legacySetterEntry env panelId))]
    exact rootProps_legacyLoop env _ (rootProps_legacyManualEntry env t panelId) p

theorem rootProps_countedBlock (env : Env) (key : String) (maxCount : Int)
    {body : Nat → OrganFileParser → OrganFileParser}
    (h : ∀ i, Keeps OrganFileParser.rootProps (body i)) :
    Keeps OrganFileParser.rootProps (countedBlock env key maxCount body) := by
  intro p
  simp only [countedBlock]
  split
  · rw [keeps_andThen (rootProps_setPath _)]
    exact keeps_forLoop h _ p
  · rfl

theorem rootProps_legacyImageStep (env : Env) (i : Nat) :
    Keeps OrganFileParser.rootProps (legacyImageStep env i) := by
  intro p
  simp only [legacyImageStep]
  repeat' split
  all_goals rfl

theorem rootProps_legacyRootLabelStep (env : Env) (i : Nat) :
    Keeps OrganFileParser.rootProps (legacyRootLabelStep env i) := by
  intro p
  simp only [legacyRootLabelStep]
  split
  · exact rootProps_createGUILabel 0 _
  · rfl

theorem rootProps_parseLegacyRoot (env : Env) :
    Keeps OrganFileParser.rootProps (parseLegacyRoot env) := by
  intro p
  simp only [parseLegacyRoot]
  split
  · rw [keeps_andThen (rootProps_countedBlock env _ _ (rootProps_legacyRootLabelStep env)),
      rootProps_countedBlock env _ _ (rootProps_legacyImageStep env)]
    rfl
  · rfl

theorem rootProps_rootSetterStep (env : Env) (i : Nat) :
    Keeps OrganFileParser.rootProps (rootSetterStep env i) := by
  intro p
  simp only [rootSetterStep]
  repeat' split
  all_goals first
    | rfl
    | exact rootProps_createFromSetterElement env 0 _ _

theorem rootProps_parseRootSetters (env : Env) :
    Keeps OrganFileParser.rootProps (parseRootSetters env) := by
  intro p
  simp only [parseRootSetters]
  split
  · rw [keeps_andThen (rootProps_setPath _)]
    split
    · exact keeps_forLoop (rootProps_rootSetterStep env) _ p
    · rfl
  · rfl

theorem rootProps_parsePanelStep (env : Env) (i : Nat) :
    Keeps OrganFileParser.rootProps (parsePanelStep env i) := by
  intro p
  simp only [parsePanelStep]
  split <;> rfl

theorem rootProps_parseMainPanel (env : Env) : Keeps OrganFileParser.rootProps (parseMainPanel env) := by
  intro p
  simp only [parseMainPanel]
  split
  · rw [keeps_andThen (rootProps_setPath _), rootProps_parsePanelElements env 0 "Panel000"]
    rfl
  · rfl

theorem rootProps_parseExtraPanels (env : Env) (n : Int) :
    Keeps OrganFileParser.rootProps (parseExtraPanels env n) := by
  intro p
  simp only [parseExtraPanels]
  split
  · rw [keeps_andThen (rootProps_setPath _)]
    exact keeps_forLoop (rootProps_parsePanelStep env) _ p
  · rfl

theorem rootProps_parsePanels (env : Env) : Keeps OrganFileParser.rootProps (parsePanels env) := by
  intro p
  simp only [parsePanels]
  rw [keeps_andThen (rootProps_parseExtraPanels env _)]
  exact rootProps_parseMainPanel env p

theorem rootProps_parseEntityStep (env : Env) (k : EntityKind) (i : Nat) :
    Keeps OrganFileParser.rootProps (parseEntityStep env k i) := by
  intro p
  simp only [parseEntityStep]
  split
  · split
    · rw [rootProps_withEntityAt k _ (fun r => rootProps_createGUIEntity k 0 (some r))]
      rfl
    · rfl
  · rfl

theorem rootProps_parseEntities (env : Env) (k : EntityKind) :
    Keeps OrganFileParser.rootProps (parseEntities env k) :=
  rootProps_countedBlock env _ _ (rootProps_parseEntityStep env k)

theorem rootProps_parseManualStep (env : Env) (i : Nat) :
    Keeps OrganFileParser.rootProps (parseManualStep env i) := by
  intro p
  simp only [parseManualStep]
  refine rootProps_ite ?_ rfl
  refine rootProps_ite ?_ rfl
  exact (rootProps_withManualAt _
    (fun mi _ => rootProps_createNamedElement _ 0 (some (.manual mi))) _).trans rfl

theorem rootProps_parseManuals (env : Env) :
    Keeps OrganFileParser.rootProps (parseManuals env) := by
  intro p
  simp only [parseManuals]
  split
  · rw [keeps_andThen (rootProps_setPath _)]
    exact keeps_forLoop (rootProps_parseManualStep env) _ p
  · rfl

/-- Every block keeps the root properties of the organ. -/
theorem rootProps_run (env : Env) (b : Block) : Keeps OrganFileParser.rootProps (b.run env) := by
  cases b with
  | legacyRoot => exact rootProps_parseLegacyRoot env
  | entities k => exact rootProps_parseEntities env k
  | manuals => exact rootProps_parseManuals env
  | setters => exact rootProps_parseRootSetters env
  | panels => exact rootProps_parsePanels env

/-- After a load the root properties of the organ are the ones set from the root section, before
any entity is read. -/
theorem load_rootProps (env : Env) (filePath : String) (organ : Organ)
    (h : env.hasGroup "/" "Organ" = true) :
    (newOrganFileParser env filePath organ).rootProps =
      (rootState env filePath organ).rootProps := by
  rw [newOrganFileParser_of_organ env filePath organ h, parseOrganSection_eq_runBlocks]
  exact keeps_runBlocks env _ organBlocks (fun g _ => rootProps_run env g) _

/-! ## Claims C19 and C20: the numeric root properties -/

/-- C20: after a load from a store with a root section, the tracker delay of the organ is the
integer t read under `TrackerDelay` (default 0) when 0 ≤ t ≤ 10000, and the delay the organ came
with otherwise; so it is at most 10000 whenever the delay the organ came with was. -/
theorem C20_tracker_delay_is_range_checked (env : Env) (filePath : String) (organ : Organ)
    (h : env.hasGroup "/" "Organ" = true) :
    ((0 ≤ env.readLong "/Organ" "TrackerDelay" 0 ∧ env.readLong "/Organ" "TrackerDelay" 0 ≤ 10000) →
      ((newOrganFileParser env filePath organ).m_organ.m_trackerDelay : Int) =
        env.readLong "/Organ" "TrackerDelay" 0) ∧
    (¬ (0 ≤ env.readLong "/Organ" "TrackerDelay" 0 ∧
        env.readLong "/Organ" "TrackerDelay" 0 ≤ 10000) →
      (newOrganFileParser env filePath organ).m_organ.m_trackerDelay = organ.m_trackerDelay) ∧
    (organ.m_trackerDelay ≤ 10000 →
      (newOrganFileParser env filePath organ).m_organ.m_trackerDelay ≤ 10000) := by
  have hr := load_rootProps env filePath organ h
  have h4 : (newOrganFileParser env filePath organ).m_organ.m_trackerDelay =
      (if 0 ≤ env.readLong "/Organ" "TrackerDelay" 0 ∧
          env.readLong "/Organ" "TrackerDelay" 0 ≤ 10000
        then (env.readLong "/Organ" "TrackerDelay" 0).toNat else organ.m_trackerDelay) :=
    (congrArg (fun c => c.2.2.2.1) hr).trans rfl
  refine ⟨?_, ?_, ?_⟩
  · intro ht
    rw [h4, if_pos ht]
    omega
  · intro ht
    rw [h4, if_neg ht]
  · intro ho
    rw [h4]
    split <;> omega

/-- C20 on three stores: a tracker delay of 250 is stored, delays of 10001 and -1 leave the organ
at the 300 it came with. -/
theorem C20_tracker_delay_is_range_checked_witness :
    ((newOrganFileParser (trackerDelayIni 250).env "demo.organ"
      delayedOrgan).m_organ.m_trackerDelay : Int) = 250 ∧
    (newOrganFileParser (trackerDelayIni 10001).env "demo.organ"
      delayedOrgan).m_organ.m_trackerDelay = 300 ∧
    (newOrganFileParser (trackerDelayIni (-1)).env "demo.organ"
      delayedOrgan).m_organ.m_trackerDelay = 300 ∧
    (newOrganFileParser (trackerDelayIni 10001).env "demo.organ"
      delayedOrgan).m_organ.m_trackerDelay ≤ 10000 :=
  ⟨((C20_tracker_delay_is_range_checked (trackerDelayIni 250).env "demo.organ" delayedOrgan
      rfl).1 (by decide)).trans (by decide),
    ((C20_tracker_delay_is_range_checked (trackerDelayIni 10001).env "demo.organ" delayedOrgan
      rfl).2.1 (by decide)).trans rfl,
    ((C20_tracker_delay_is_range_checked (trackerDelayIni (-1)).env "demo.organ" delayedOrgan
      rfl).2.1 (by decide)).trans rfl,
    (C20_tracker_delay_is_range_checked (trackerDelayIni 10001).env "demo.organ" delayedOrgan
      rfl).2.2 (by decide)⟩

/-! ## Claims C21, C23, C25, C29 and C30 -/

/-- A modern Divisional, Coupler or Stop element whose slot index equals the number of such
entities of the division is looked up at that index, one past the last position. -/
theorem modernSlotElement_lookup_at_count (env : Env) (k : SlotKind) (t : Nat)
    (p : OrganFileParser) (man : Manual)
    (h : 0 ≤ env.readLong p.m_path "Manual" (-1) ∧
      env.readLong p.m_path "Manual" (-1) < (p.m_organ.getNumberOfManuals : Int))
    (hman : getAt p.m_organ.m_Manuals
      (divisionIndex p.m_organ.m_hasPedals (env.readLong p.m_path "Manual" (-1))) = some man)
    (hpos : 0 < man.getNumberOf k)
    (hidx : env.readLong p.m_path k.typeName 0 = (man.getNumberOf k : Int)) :
    ∃ l ∈ (modernSlotElement env k t p).lookups,
      l.coll = .slots k (divisionIndex p.m_organ.m_hasPedals
        (env.readLong p.m_path "Manual" (-1))).toNat ∧
      l.index = (l.size : Int) ∧ l.inRange = false := by
  obtain ⟨rest, hr⟩ := modernSlotElement_slot_lookup env k t p man h hman
    ⟨by rw [hidx]; exact_mod_cast hpos, by rw [hidx]⟩
  refine ⟨⟨.slots k (divisionIndex p.m_organ.m_hasPedals
      (env.readLong p.m_path "Manual" (-1))).toNat,
    env.readLong p.m_path k.typeName 0, man.getNumberOf k⟩, ?_, rfl, hidx, ?_⟩
  · rw [hr]
    simp
  · simp [Lookup.inRange, hidx]

/-- A modern Manual element whose index equals the number of divisions of an organ with a pedal
is looked up at that index, one past the last position. -/
theorem modernManualElement_lookup_at_count (env : Env) (t : Nat) (p : OrganFileParser)
    (hp : p.m_organ.m_hasPedals = true)
    (hidx : env.readLong p.m_path "Manual" (-1) = (p.m_organ.getNumberOfManuals : Int)) :
    ∃ l ∈ (modernManualElement env t p).lookups,
      l.coll = .manuals ∧ l.index = (l.size : Int) ∧ l.inRange = false := by
  obtain ⟨rest, hr⟩ := modernManualElement_lookups env t p
    ⟨by rw [hidx]; exact Int.natCast_nonneg _, by rw [hidx]⟩
  refine ⟨⟨.manuals, divisionIndex p.m_organ.m_hasPedals (env.readLong p.m_path "Manual" (-1)),
    p.m_organ.getNumberOfManuals⟩, ?_, rfl, ?_, ?_⟩
  · rw [hr]
    simp
  · simp [divisionIndex, hp, hidx]
  · simp [Lookup.inRange, divisionIndex, hp, hidx]

/-- C21 (the code does not do what the claim says): lookups are made outside their collection.
In `slotAtCountIni` the modern stop element with `Stop=2` on a division with two stops passes the
test `stopIdx <= getNumberOfStops()` and `getStopAt(2)` is called on a collection of size 2. In
`manualAtCountIni` the modern Manual element with `Manual=2` on an organ with a pedal and two
divisions passes `manIdx <= getNumberOfManuals()` and `getOrganManualAt(2)` is called on a
collection of size 2; the legacy Stop entry with `Stop001Manual=2` does the same. In general a
modern slot index equal to the number of entities, and a Manual index equal to the number of
divisions of an organ with a pedal, are looked up one past the last position. -/
theorem C21_lookups_are_made_outside_the_collection :
    (newOrganFileParser slotAtCountIni.env "demo.organ" emptyOrgan).lookups =
      [⟨.manuals, 0, 2⟩, ⟨.slots .stop 0, 2, 2⟩] ∧
    ((newOrganFileParser slotAtCountIni.env "demo.organ" emptyOrgan).lookups.all
      Lookup.inRange) = false ∧
    (newOrganFileParser slotAtCountIni.env "demo.organ" emptyOrgan).m_fault = true ∧
    (newOrganFileParser manualAtCountIni.env "demo.organ" emptyOrgan).lookups =
      [⟨.manuals, 2, 2⟩] ∧
    (newOrganFileParser manualAtCountIni.env "demo.organ" emptyOrgan).m_fault = true ∧
    (legacySlotEntry legacyManualAtCountIni.env .stop 0 "Panel001" 0
      legacyManualAtCountState).lookups = [⟨.manuals, 2, 2⟩] ∧
    (legacySlotEntry legacyManualAtCountIni.env .stop 0 "Panel001" 0
      legacyManualAtCountState).m_fault = true ∧
    (∀ (env : Env) (k : SlotKind) (t : Nat) (p : OrganFileParser) (man : Manual),
      0 ≤ env.readLong p.m_path "Manual" (-1) ∧
        env.readLong p.m_path "Manual" (-1) < (p.m_organ.getNumberOfManuals : Int) →
      getAt p.m_organ.m_Manuals
        (divisionIndex p.m_organ.m_hasPedals (env.readLong p.m_path "Manual" (-1))) = some man →
      0 < man.getNumberOf k →
      env.readLong p.m_path k.typeName 0 = (man.getNumberOf k : Int) →
      ∃ l ∈ (modernSlotElement env k t p).lookups,
        l.coll = .slots k (divisionIndex p.m_organ.m_hasPedals
          (env.readLong p.m_path "Manual" (-1))).toNat ∧
        l.index = (l.size : Int) ∧ l.inRange = false) ∧
    (∀ (env : Env) (t : Nat) (p : OrganFileParser),
      p.m_organ.m_hasPedals = true →
      env.readLong p.m_path "Manual" (-1) = (p.m_organ.getNumberOfManuals : Int) →
      ∃ l ∈ (modernManualElement env t p).lookups,
        l.coll = .manuals ∧ l.index = (l.size : Int) ∧ l.inRange = false) :=
  ⟨by decide, by decide, by decide, by decide, by decide, by decide, by decide,
    modernSlotElement_lookup_at_count, modernManualElement_lookup_at_count⟩

/-- An additional panel is read and added without an element: `parsePanelElements` is not run for
it. -/
theorem parsePanelStep_adds_an_empty_panel (env : Env) (i : Nat) (p : OrganFileParser)
    (h : env.hasGroup p.m_path (numberedSection env "Panel" i) = true) :
    (parsePanelStep env i p).m_organ.m_extraPanels =
      p.m_organ.m_extraPanels ++
        [⟨none, some ("/" ++ numberedSection env "Panel" i, numberedSection env "Panel" i),
          [], []⟩] ∧
    (parsePanelStep env i p).m_organ.m_mainPanel = p.m_organ.m_mainPanel ∧
    (parsePanelStep env i p).consulted = p.consulted ++ [(p.m_path, numberedSection env "Panel" i)] ∧
    (parsePanelStep env i p).lookups = p.lookups := by
  have h2 : env.hasGroup p.m_path ("Panel" ++ env.number_format ((i : Int) + 1)) = true := h
  simp [parsePanelStep, numberedSection, h2, OrganFileParser.consult, OrganFileParser.SetPath,
    GoPanel.read]

/-- C23 (the code does not do what the claim says): `parsePanelElements` is run for the main
panel of a modern file only. In `extraPanelIni` the additional panel `Panel001` declares one
element of type Label; after the load the panel is there without an element and its element
section has never been consulted, while `parsePanelElements` run for that panel would have given
it the Label. In general an additional panel is added with an empty element list, and in a legacy
file the main panel is not laid out by `parsePanelElements` either. -/
theorem C23_additional_panels_are_not_laid_out :
    (newOrganFileParser extraPanelIni.env "demo.organ" emptyOrgan).m_organ.m_extraPanels =
      [⟨none, some ("/Panel001", "Panel001"), [], []⟩] ∧
    (newOrganFileParser extraPanelIni.env "demo.organ" emptyOrgan).consulted =
      [("/", "Organ"), ("/", "Panel000"), ("/Organ", "Panel001")] ∧
    (newOrganFileParser extraPanelIni.env "demo.organ" emptyOrgan).m_fault = false ∧
    (parsePanelElements extraPanelIni.env extraPanelState 1 "Panel001").m_organ.m_extraPanels =
      [⟨none, some ("/Panel001", "Panel001"), [],
        [⟨.GUILabel, "Label", "GUI Label", none, "/Panel001Element001"⟩]⟩] ∧
    (∀ (env : Env) (i : Nat) (p : OrganFileParser),
      env.hasGroup p.m_path (numberedSection env "Panel" i) = true →
      (parsePanelStep env i p).m_organ.m_extraPanels =
        p.m_organ.m_extraPanels ++
          [⟨none, some ("/" ++ numberedSection env "Panel" i, numberedSection env "Panel" i),
            [], []⟩] ∧
      (parsePanelStep env i p).m_organ.m_mainPanel = p.m_organ.m_mainPanel ∧
      (parsePanelStep env i p).consulted =
        p.consulted ++ [(p.m_path, numberedSection env "Panel" i)] ∧
      (parsePanelStep env i p).lookups = p.lookups) ∧
    (∀ (env : Env) (p : OrganFileParser), p.m_isUsingOldPanelFormat = true →
      parseMainPanel env p = p) :=
  ⟨by decide, by decide, by decide, by decide, parsePanelStep_adds_an_empty_panel,
    fun env p h => by simp [parseMainPanel, h]⟩

/-- After an entry of a root collection whose section exists, the existence check of the next
entry is made with the cursor at the section of that entry. -/
theorem parseEntityStep_next_check (env : Env) (k : EntityKind) (i : Nat) (p : OrganFileParser)
    (h : env.hasGroup p.m_path (entitySection env k i) = true) :
    (parseEntityStep env k (i + 1) (parseEntityStep env k i p)).consulted =
      p.consulted ++ [(p.m_path, entitySection env k i),
        ("/" ++ entitySection env k i, entitySection env k (i + 1))] := by
  obtain ⟨_, _, _, hpath, hcons, _⟩ := parseEntityStep_spec env k i p
  obtain ⟨_, _, _, _, hcons2, _⟩ := parseEntityStep_spec env k (i + 1) (parseEntityStep env k i p)
  rw [hcons2, hcons, hpath, if_pos h]
  simp

/-- C25 (the code does not do what the claim says): the loops over the root collections and
over the element sections of a modern panel restore the cursor once, after the loop, not after
every entry. In scenario B the existence of `Enclosure002` is checked with the cursor at
`/Enclosure001`; in `enclosureElementIni` the existence of `Panel000Element002` is checked with
the cursor at `/Panel000Element001`. In general, after an entry of a root collection whose
section exists, the check for the next entry is made at the section of that entry. -/
theorem C25_cursor_is_not_restored_between_entries :
    (newOrganFileParser scenarioB.env "demo.organ" emptyOrgan).consulted =
      [("/", "Organ"), ("/", "Panel000"), ("/Organ", "Enclosure001"),
        ("/Enclosure001", "Enclosure002")] ∧
    (newOrganFileParser enclosureElementIni.env "demo.organ" emptyOrgan).consulted =
      [("/", "Organ"), ("/", "Panel000"), ("/Organ", "Enclosure001"),
        ("/Panel000", "Panel000Element001"), ("/Panel000Element001", "Panel000Element002")] ∧
    (∀ (env : Env) (k : EntityKind) (i : Nat) (p : OrganFileParser),
      env.hasGroup p.m_path (entitySection env k i) = true →
      (parseEntityStep env k (i + 1) (parseEntityStep env k i p)).consulted =
        p.consulted ++ [(p.m_path, entitySection env k i),
          ("/" ++ entitySection env k i, entitySection env k (i + 1))]) :=
  ⟨by decide, by decide, parseEntityStep_next_check⟩

/-- A legacy setter element with one of the label names appends its Label to panel 0, whatever
the target panel of `parsePanelElements` is. -/
theorem legacySetterEntry_label (env : Env) (panelId : String) (i : Nat) (p : OrganFileParser)
    (hf : p.m_fault = false)
    (hg : env.hasGroup p.m_path (panelId ++ numberedSection env "SetterElement" i) = true)
    (hty : env.read ("/" ++ (panelId ++ numberedSection env "SetterElement" i)) "Type" ""
      = "PitchLabel") :
    (legacySetterEntry env panelId i p).m_organ =
      p.m_organ.modifyPanel (fun q => q.addGuiElement
        ⟨.GUILabel, "PitchLabel", "GUI Label", none,
          "/" ++ (panelId ++ numberedSection env "SetterElement" i)⟩) 0 := by
  have hg2 : env.hasGroup p.m_path
      (panelId ++ "SetterElement" ++ env.number_format ((i : Int) + 1)) = true := by
    simpa [numberedSection, String.append_assoc] using hg
  have hty2 : env.read ("/" ++ (panelId ++ "SetterElement" ++ env.number_format ((i : Int) + 1)))
      "Type" "" = "PitchLabel" := by
    simpa [numberedSection, String.append_assoc] using hty
  have hlabel := createGUILabel_overrideLast
    ((p.consult (panelId ++ "SetterElement" ++ env.number_format ((i : Int) + 1))).SetPath
      ("/" ++ (panelId ++ "SetterElement" ++ env.number_format ((i : Int) + 1))))
    0 "PitchLabel" p.m_organ.m_mainPanel hf rfl
  simp only [legacySetterEntry]
  have hs : Keeps (fun q => q.m_organ) (fun q => q.SetPath ("/" ++ panelId)) := fun _ => rfl
  rw [keeps_andThen hs]
  simp only [OrganFileParser.consult, OrganFileParser.SetPath] at hg2 hty2 hlabel ⊢
  rw [if_pos hg2, hty2, if_pos (by decide)]
  simp only [createFromSetterElement]
  rw [if_pos (by decide)]
  rw [hlabel.1]
  simp [numberedSection, String.append_assoc]

/-- C29 (the code does not do what the claim says): in legacy mode the setter elements of the
panel being laid out are appended to panel 0. In `legacyPanelSetterIni` the additional panel
`Panel001`, laid out as panel 1, has one setter element of type PitchLabel: after
`parsePanelElements` the Label is in the main panel and panel 1 is still empty. In general a
legacy setter element with a label name changes panel 0. -/
theorem C29_legacy_setter_element_goes_to_the_main_panel :
    legacyPanelSetterState.m_organ.m_mainPanel.m_guiElements = [] ∧
    legacyPanelSetterState.m_organ.m_extraPanels.map GoPanel.m_guiElements = [[]] ∧
    (parsePanelElements legacyPanelSetterIni.env legacyPanelSetterState 1
      "Panel001").m_organ.m_mainPanel.m_guiElements =
      [⟨.GUILabel, "PitchLabel", "GUI Label", none, "/Panel001SetterElement001"⟩] ∧
    (parsePanelElements legacyPanelSetterIni.env legacyPanelSetterState 1
      "Panel001").m_organ.m_extraPanels.map GoPanel.m_guiElements = [[]] ∧
    (parsePanelElements legacyPanelSetterIni.env legacyPanelSetterState 1
      "Panel001").m_fault = false ∧
    (∀ (env : Env) (panelId : String) (i : Nat) (p : OrganFileParser),
      p.m_fault = false →
      env.hasGroup p.m_path (panelId ++ numberedSection env "SetterElement" i) = true →
      env.read ("/" ++ (panelId ++ numberedSection env "SetterElement" i)) "Type" ""
        = "PitchLabel" →
      (legacySetterEntry env panelId i p).m_organ =
        p.m_organ.modifyPanel (fun q => q.addGuiElement
          ⟨.GUILabel, "PitchLabel", "GUI Label", none,
            "/" ++ (panelId ++ numberedSection env "SetterElement" i)⟩) 0) :=
  ⟨by decide, by decide, by decide, by decide, by decide, legacySetterEntry_label⟩

/-- C30 (the code does not do what the claim says): a type name that starts with "Setter" and is
in the vocabulary reaches `createGUISwitch(targetPanel, NULL)`, whose
`setDisplayName(theSwitch->getName())` asks the null pointer for its name before anything is
appended. The load of a legacy file whose root setter element has such a name stops there with an
empty main panel. The other functions that take the name from the entity do the same with a null
pointer; only `createGUIDivisional` does not take the name. -/
theorem C30_switch_fallback_calls_getName_through_null :
    (∀ (env : Env) (p : OrganFileParser) (t : Nat) (ty : String),
      wxStartsWith ty "Setter" = true → ty ∈ env.setterElements →
      createFromSetterElement env p t ty = p.fault) ∧
    (∀ (p : OrganFileParser) (t : Nat),
      createGUISwitch p t none = p.fault ∧ createGUIEnclosure p t none = p.fault ∧
      createGUIGeneral p t none = p.fault ∧
      (createGUIDivisional p t none).m_fault = p.m_fault) ∧
    "SetterXXXDivisionalYYY" ∈
      (setterElementIni "SetterXXXDivisionalYYY" ["SetterXXXDivisionalYYY"]).env.setterElements ∧
    (newOrganFileParser (setterElementIni "SetterXXXDivisionalYYY"
      ["SetterXXXDivisionalYYY"]).env "demo.organ" emptyOrgan).m_fault = true ∧
    (newOrganFileParser (setterElementIni "SetterXXXDivisionalYYY"
      ["SetterXXXDivisionalYYY"]).env "demo.organ" emptyOrgan).lookups = [] ∧
    (newOrganFileParser (setterElementIni "SetterXXXDivisionalYYY"
      ["SetterXXXDivisionalYYY"]).env "demo.organ"
      emptyOrgan).m_organ.m_mainPanel.m_guiElements = [] :=
  ⟨fun env p t ty h hv => by rw [createFromSetterElement_setter env p t ty h, if_pos hv],
    fun _ _ => ⟨rfl, rfl, rfl, rfl⟩, by decide, by decide, by decide, by decide⟩

/-! ## Claim C22: elements created while the entities are read -/

theorem parseEntityStep_extraPanels (env : Env) (k : EntityKind) (i : Nat)
    (p : OrganFileParser) :
    (parseEntityStep env k i p).m_organ.m_extraPanels = p.m_organ.m_extraPanels := by
  by_cases h2 : env.hasGroup p.m_path (k.groupName ++ env.number_format ((i : Int) + 1)) = true
  · cases k <;>
    simp only [parseEntityStep, h2,
      OrganFileParser.consult, OrganFileParser.SetPath, withEntityAt, createGUIEntity,
      createGUIEnclosure, createGUISwitch, createGUITremulant, createGUIPiston, createGUIDivCplr,
      createGUIGeneral, createNamedElement, Organ.nameOf, Organ.addEntity, Organ.getNumberOf,
      OrganFileParser.lookup, OrganFileParser.addGuiElement, Organ.modifyPanel,
      GoPanel.addGuiElement, EntityKind.hasGUI,
      EntityKind.guiClass, EntityKind.readsPanelFormat, Bool.true_and, Bool.false_and,
      if_true, true_and, false_and, if_false] <;>
    (try split) <;> simp_all [OrganFileParser.fault]
  · simp [parseEntityStep, h2, OrganFileParser.consult]

theorem parseManualStep_extraPanels (env : Env) (i : Nat) (p : OrganFileParser) :
    (parseManualStep env i p).m_organ.m_extraPanels = p.m_organ.m_extraPanels := by
  by_cases h : env.hasGroup p.m_path ("Manual" ++ env.number_format
      (if p.m_organ.m_hasPedals = false then (i : Int) + 1 else (i : Int))) = true
  · by_cases hd : (env.readManual ("/" ++ ("Manual" ++ env.number_format
        (if p.m_organ.m_hasPedals = false then (i : Int) + 1 else (i : Int))))
        p.m_isUsingOldPanelFormat
        (decide ((if p.m_organ.m_hasPedals = false then (i : Int) + 1 else (i : Int)) = 0))).displayed
        = true
    · simp [parseManualStep, h, hd, OrganFileParser.consult, OrganFileParser.SetPath, withManualAt,
        createGUIManual, createNamedElement, Organ.nameOf, Organ.addManual,
        Organ.getNumberOfManuals, OrganFileParser.lookup, OrganFileParser.addGuiElement,
        Organ.modifyPanel, GoPanel.addGuiElement, getAt_concat_last]
    · simp [parseManualStep, h, hd, OrganFileParser.consult, OrganFileParser.SetPath,
        Organ.addManual]
  · simp [parseManualStep, h, OrganFileParser.consult]

/-- C22: while the entities are read, an iteration of the loop of an organ-level kind whose
section exists appends the entity read to the collection of the kind and, when the kind is
Enclosure, Switch, Tremulant, ReversiblePiston, DivisionalCoupler or General and the entity is
displayed, appends exactly one element of the class of the kind to the main panel, bound to the
position of the entity just added, its last, with the name of the entity as display name; for an
entity that is not displayed, and for windchest groups and ranks, the element list of the main
panel is unchanged. An iteration of the manual loop does the same with a Manual element. The
additional panels are unchanged and no fault is raised. -/
theorem C22_displayed_entity_gets_one_element_on_the_main_panel (env : Env) (k : EntityKind)
    (i : Nat) (p : OrganFileParser) :
    (env.hasGroup p.m_path (entitySection env k i) = true →
      (parseEntityStep env k i p).m_organ.m_entities k =
        p.m_organ.m_entities k ++ [entityRead env k p.m_isUsingOldPanelFormat i] ∧
      (∀ cls, k.guiClass = some cls →
        (entityRead env k p.m_isUsingOldPanelFormat i).displayed = true →
        (parseEntityStep env k i p).m_organ.m_mainPanel.m_guiElements =
          p.m_organ.m_mainPanel.m_guiElements ++
            [⟨cls, cls.typeName, (entityRead env k p.m_isUsingOldPanelFormat i).name,
              some (.organ k (p.m_organ.m_entities k).length),
              "/" ++ entitySection env k i⟩]) ∧
      ((entityRead env k p.m_isUsingOldPanelFormat i).displayed = false ∨ k.guiClass = none →
        (parseEntityStep env k i p).m_organ.m_mainPanel.m_guiElements =
          p.m_organ.m_mainPanel.m_guiElements) ∧
      (parseEntityStep env k i p).m_organ.m_extraPanels = p.m_organ.m_extraPanels ∧
      (parseEntityStep env k i p).m_fault = p.m_fault) ∧
    (env.hasGroup p.m_path (manualSection env p.m_organ.m_hasPedals i) = true →
      (parseManualStep env i p).m_organ.m_Manuals =
        p.m_organ.m_Manuals ++
          [manualRead env p.m_isUsingOldPanelFormat p.m_organ.m_hasPedals i] ∧
      ((manualRead env p.m_isUsingOldPanelFormat p.m_organ.m_hasPedals i).contents.displayed
          = true →
        (parseManualStep env i p).m_organ.m_mainPanel.m_guiElements =
          p.m_organ.m_mainPanel.m_guiElements ++
            [⟨.GUIManual, "Manual",
              (manualRead env p.m_isUsingOldPanelFormat p.m_organ.m_hasPedals i).contents.name,
              some (.manual p.m_organ.m_Manuals.length),
              "/" ++ manualSection env p.m_organ.m_hasPedals i⟩]) ∧
      ((manualRead env p.m_isUsingOldPanelFormat p.m_organ.m_hasPedals i).contents.displayed
          = false →
        (parseManualStep env i p).m_organ.m_mainPanel.m_guiElements =
          p.m_organ.m_mainPanel.m_guiElements) ∧
      (parseManualStep env i p).m_organ.m_extraPanels = p.m_organ.m_extraPanels ∧
      (parseManualStep env i p).m_fault = p.m_fault) := by
  constructor
  · intro h
    obtain ⟨hent, _, hf, _, _, hel⟩ := parseEntityStep_present env k i p h
    refine ⟨hent, ?_, ?_, parseEntityStep_extraPanels env k i p, hf⟩
    · intro cls hcls hd
      rw [hel]
      simp [entityElements, hcls, hd]
    · intro hnot
      rw [hel]
      rcases hnot with hd | hn
      · cases hc : k.guiClass <;> simp [entityElements, hc, hd]
      · simp [entityElements, hn]
  · intro h
    obtain ⟨hman, _, hf, _, _, hel⟩ := parseManualStep_spec env i p
    simp only [h, if_true] at hman hel
    refine ⟨hman, ?_, ?_, parseManualStep_extraPanels env i p, hf⟩
    · intro hd
      rw [hel]
      simp [manualElements, hd, ElementClass.typeName]
    · intro hd
      rw [hel]
      simp [manualElements, hd]

/-- C22 at `displayedIni`: the displayed enclosure and the displayed manual each get one element
on the main panel, the windchest group gets none; the whole load gives the main panel these two
elements, in the order in which the entities are read. -/
theorem C22_displayed_entity_gets_one_element_on_the_main_panel_witness :
    (parseEntityStep displayedIni.env .enclosure 0
        (rootState displayedIni.env "demo.organ" emptyOrgan)).m_organ.m_mainPanel.m_guiElements =
      [⟨.GUIEnclosure, "Enclosure", "/Enclosure001", some (.organ .enclosure 0),
        "/Enclosure001"⟩] ∧
    (parseEntityStep displayedIni.env .windchestgroup 0
        (rootState displayedIni.env "demo.organ" emptyOrgan)).m_organ.m_mainPanel.m_guiElements =
      [] ∧
    (parseManualStep displayedIni.env 0
        (rootState displayedIni.env "demo.organ" emptyOrgan)).m_organ.m_mainPanel.m_guiElements =
      [⟨.GUIManual, "Manual", "/Manual001", some (.manual 0), "/Manual001"⟩] ∧
    (newOrganFileParser displayedIni.env "demo.organ"
        emptyOrgan).m_organ.m_mainPanel.m_guiElements =
      [⟨.GUIEnclosure, "Enclosure", "/Enclosure001", some (.organ .enclosure 0),
        "/Enclosure001"⟩,
       ⟨.GUIManual, "Manual", "/Manual001", some (.manual 0), "/Manual001"⟩] :=
  ⟨(((C22_displayed_entity_gets_one_element_on_the_main_panel displayedIni.env .enclosure 0
      (rootState displayedIni.env "demo.organ" emptyOrgan)).1 (by decide)).2.1
      .GUIEnclosure rfl (by decide)).trans (by decide),
    (((C22_displayed_entity_gets_one_element_on_the_main_panel displayedIni.env .windchestgroup 0
      (rootState displayedIni.env "demo.organ" emptyOrgan)).1 (by decide)).2.2.1
      (Or.inr rfl)).trans (by decide),
    (((C22_displayed_entity_gets_one_element_on_the_main_panel displayedIni.env .enclosure 0
      (rootState displayedIni.env "demo.organ" emptyOrgan)).2 (by decide)).2.1
      (by decide)).trans (by decide),
    by decide⟩

/-! ## Claim C26: the legacy Stop entries -/

theorem get?_of_getAt {α : Type} {l : List α} {i : Int} {a : α} (h : getAt l i = some a) :
    l.get? i.toNat = some a := by
  simp only [getAt] at h
  split at h
  · exact h
  · cases h

/-- A legacy Stop, Coupler or Divisional entry whose division reference is rejected does
nothing but restore the cursor. -/
theorem legacySlotEntry_of_rejected (env : Env) (k : SlotKind) (t : Nat) (panelId : String)
    (i : Nat) (p : OrganFileParser)
    (h : ¬ (0 ≤ env.readLong p.m_path (numberedSection env k.typeName i ++ "Manual") (-1) ∧
      env.readLong p.m_path (numberedSection env k.typeName i ++ "Manual") (-1) ≤
        (p.m_organ.getNumberOfManuals : Int))) :
    legacySlotEntry env k t panelId i p = p.andThen (fun q => q.SetPath ("/" ++ panelId)) := by
  simp only [legacySlotEntry, numberedSection] at h ⊢
  rw [if_neg (by simpa using h)]

/-- A legacy Stop, Coupler or Divisional entry whose division reference is accepted but
addresses no division: the lookup is a fault. -/
theorem legacySlotEntry_of_unresolved (env : Env) (k : SlotKind) (t : Nat) (panelId : String)
    (i : Nat) (p : OrganFileParser)
    (h : 0 ≤ env.readLong p.m_path (numberedSection env k.typeName i ++ "Manual") (-1) ∧
      env.readLong p.m_path (numberedSection env k.typeName i ++ "Manual") (-1) ≤
        (p.m_organ.getNumberOfManuals : Int))
    (hman : getAt p.m_organ.m_Manuals (divisionIndex p.m_organ.m_hasPedals
      (env.readLong p.m_path (numberedSection env k.typeName i ++ "Manual") (-1))) = none) :
    (legacySlotEntry env k t panelId i p).m_organ = p.m_organ ∧
    (legacySlotEntry env k t panelId i p).m_fault = true := by
  simp only [legacySlotEntry, numberedSection, divisionIndex] at h hman ⊢
  rw [if_pos (by simpa using h)]
  simp only [withManualAt, OrganFileParser.lookup]
  rw [hman]
  exact ⟨rfl, rfl⟩

/-- A legacy Stop, Coupler or Divisional entry whose division reference resolves to a division:
what is left to do is the test of the slot reference and of the section named by the loop
index. -/
theorem legacySlotEntry_of_resolved (env : Env) (k : SlotKind) (t : Nat) (panelId : String)
    (i : Nat) (p : OrganFileParser) (man : Manual)
    (h : 0 ≤ env.readLong p.m_path (numberedSection env k.typeName i ++ "Manual") (-1) ∧
      env.readLong p.m_path (numberedSection env k.typeName i ++ "Manual") (-1) ≤
        (p.m_organ.getNumberOfManuals : Int))
    (hman : getAt p.m_organ.m_Manuals (divisionIndex p.m_organ.m_hasPedals
      (env.readLong p.m_path (numberedSection env k.typeName i ++ "Manual") (-1))) = some man) :
    legacySlotEntry env k t panelId i p =
      (if 0 < env.readLong p.m_path (numberedSection env k.typeName i) 0 ∧
          env.readLong p.m_path (numberedSection env k.typeName i) 0 ≤ (man.getNumberOf k : Int)
        then
          if env.hasGroup p.m_path (panelId ++ numberedSection env k.typeName i) = true then
            withSlotAt
              (((p.lookup .manuals (divisionIndex p.m_organ.m_hasPedals
                    (env.readLong p.m_path (numberedSection env k.typeName i ++ "Manual") (-1)))
                  p.m_organ.getNumberOfManuals).consult
                  (panelId ++ numberedSection env k.typeName i)).SetPath
                ("/" ++ (panelId ++ numberedSection env k.typeName i)))
              k (divisionIndex p.m_organ.m_hasPedals
                (env.readLong p.m_path (numberedSection env k.typeName i ++ "Manual")
                  (-1))).toNat man
              (env.readLong p.m_path (numberedSection env k.typeName i) 0 - 1)
              (fun r q2 => createGUISlot k q2 t (some r))
          else
            (p.lookup .manuals (divisionIndex p.m_organ.m_hasPedals
                (env.readLong p.m_path (numberedSection env k.typeName i ++ "Manual") (-1)))
              p.m_organ.getNumberOfManuals).consult (panelId ++ numberedSection env k.typeName i)
        else
          p.lookup .manuals (divisionIndex p.m_organ.m_hasPedals
              (env.readLong p.m_path (numberedSection env k.typeName i ++ "Manual") (-1)))
            p.m_organ.getNumberOfManuals).andThen
        (fun q => q.SetPath ("/" ++ panelId)) := by
  simp only [legacySlotEntry, numberedSection, divisionIndex, String.append_assoc] at h hman ⊢
  rw [if_pos (by simpa using h)]
  simp only [withManualAt, OrganFileParser.lookup, OrganFileParser.consult,
    OrganFileParser.SetPath]
  rw [hman]

/-- C26: in legacy mode, iteration i of the Stop loop, with m the value of `Stop<i>Manual`
(default -1), s the value of `Stop<i>` (default 0) and N the number of divisions. When m is not
in [0, N] nothing is appended. When m is in [0, N] and the division index it stands for
addresses no division, nothing is appended (the lookup is a fault). When it addresses a division:
if 1 ≤ s ≤ the number of stops of that division and the section `<PanelId>Stop<i>`, named by the
loop index, exists, exactly one Stop element is appended to the target panel, bound to the stop
at 0-based position s - 1 of that division and named after it, with no fault; otherwise nothing
is appended. -/
theorem C26_legacy_stop_entry (env : Env) (t : Nat) (panelId : String) (i : Nat)
    (p : OrganFileParser) :
    (¬ (0 ≤ env.readLong p.m_path (numberedSection env "Stop" i ++ "Manual") (-1) ∧
        env.readLong p.m_path (numberedSection env "Stop" i ++ "Manual") (-1) ≤
          (p.m_organ.getNumberOfManuals : Int)) →
      (legacySlotEntry env .stop t panelId i p).m_organ = p.m_organ ∧
      (legacySlotEntry env .stop t panelId i p).m_fault = p.m_fault) ∧
    ((0 ≤ env.readLong p.m_path (numberedSection env "Stop" i ++ "Manual") (-1) ∧
        env.readLong p.m_path (numberedSection env "Stop" i ++ "Manual") (-1) ≤
          (p.m_organ.getNumberOfManuals : Int)) →
      getAt p.m_organ.m_Manuals (divisionIndex p.m_organ.m_hasPedals
        (env.readLong p.m_path (numberedSection env "Stop" i ++ "Manual") (-1))) = none →
      (legacySlotEntry env .stop t panelId i p).m_organ = p.m_organ ∧
      (legacySlotEntry env .stop t panelId i p).m_fault = true) ∧
    (∀ man, (0 ≤ env.readLong p.m_path (numberedSection env "Stop" i ++ "Manual") (-1) ∧
        env.readLong p.m_path (numberedSection env "Stop" i ++ "Manual") (-1) ≤
          (p.m_organ.getNumberOfManuals : Int)) →
      getAt p.m_organ.m_Manuals (divisionIndex p.m_organ.m_hasPedals
        (env.readLong p.m_path (numberedSection env "Stop" i ++ "Manual") (-1))) = some man →
      ((1 ≤ env.readLong p.m_path (numberedSection env "Stop" i) 0 ∧
          env.readLong p.m_path (numberedSection env "Stop" i) 0 ≤
            (man.contents.stops.length : Int) ∧
          env.hasGroup p.m_path (panelId ++ numberedSection env "Stop" i) = true) →
        ∃ e, man.contents.stops.get?
            (env.readLong p.m_path (numberedSection env "Stop" i) 0 - 1).toNat = some e ∧
          (legacySlotEntry env .stop t panelId i p).m_organ =
            p.m_organ.modifyPanel (fun q => q.addGuiElement
              ⟨.GUIStop, "Stop", e.name,
                some (.slot .stop (divisionIndex p.m_organ.m_hasPedals
                    (env.readLong p.m_path (numberedSection env "Stop" i ++ "Manual")
                      (-1))).toNat
                  (env.readLong p.m_path (numberedSection env "Stop" i) 0 - 1).toNat),
                "/" ++ (panelId ++ numberedSection env "Stop" i)⟩) t ∧
          (legacySlotEntry env .stop t panelId i p).m_fault = p.m_fault) ∧
      (¬ (1 ≤ env.readLong p.m_path (numberedSection env "Stop" i) 0 ∧
          env.readLong p.m_path (numberedSection env "Stop" i) 0 ≤
            (man.contents.stops.length : Int) ∧
          env.hasGroup p.m_path (panelId ++ numberedSection env "Stop" i) = true) →
        (legacySlotEntry env .stop t panelId i p).m_organ = p.m_organ ∧
        (legacySlotEntry env .stop t panelId i p).m_fault = p.m_fault)) := by
  have hso : ∀ q : OrganFileParser,
      (q.andThen (fun q => q.SetPath ("/" ++ panelId))).m_organ = q.m_organ := by
    intro q
    unfold OrganFileParser.andThen
    split <;> rfl
  have hsf : ∀ q : OrganFileParser,
      (q.andThen (fun q => q.SetPath ("/" ++ panelId))).m_fault = q.m_fault := by
    intro q
    unfold OrganFileParser.andThen
    split <;> rfl
  refine ⟨?_, ?_, ?_⟩
  · intro h
    rw [legacySlotEntry_of_rejected env .stop t panelId i p h]
    exact ⟨hso p, hsf p⟩
  · intro h hman
    exact legacySlotEntry_of_unresolved env .stop t panelId i p h hman
  · intro man h hman
    have hres := legacySlotEntry_of_resolved env .stop t panelId i p man h hman
    have hget := get?_of_getAt hman
    constructor
    · rintro ⟨h1, h2, hg⟩
      have hlt : (env.readLong p.m_path (numberedSection env "Stop" i) 0 - 1).toNat <
          man.contents.stops.length := by omega
      refine ⟨man.contents.stops[(env.readLong p.m_path (numberedSection env "Stop" i) 0
        - 1).toNat], by simp [hlt], ?_⟩
      rw [hres]
      simp only [SlotKind.typeName, Manual.getNumberOf, Manual.slots]
      rw [if_pos ⟨by omega, h2⟩, if_pos hg, hso, hsf]
      simp only [withSlotAt, Manual.getNumberOf, Manual.slots, OrganFileParser.lookup,
        OrganFileParser.consult, OrganFileParser.SetPath]
      rw [if_pos ⟨by omega, by omega⟩]
      rw [List.get?_eq_getElem?] at hget
      generalize (env.readLong p.m_path (numberedSection env "Stop" i) 0 - 1).toNat = n at hlt ⊢
      simp [createGUISlot, createGUIStop, createNamedElement, Organ.nameOf, hget, Manual.slots,
        hlt, OrganFileParser.addGuiElement, ElementClass.typeName]
    · intro hnot
      rw [hres]
      simp only [SlotKind.typeName, Manual.getNumberOf, Manual.slots]
      by_cases hc : 0 < env.readLong p.m_path (numberedSection env "Stop" i) 0 ∧
          env.readLong p.m_path (numberedSection env "Stop" i) 0 ≤
            (man.contents.stops.length : Int)
      · have hg : ¬ env.hasGroup p.m_path (panelId ++ numberedSection env "Stop" i) = true :=
          fun hg => hnot ⟨by omega, hc.2, hg⟩
        rw [if_pos hc, if_neg hg, hso, hsf]
        exact ⟨rfl, rfl⟩
      · rw [if_neg hc, hso, hsf]
        exact ⟨rfl, rfl⟩

/-- C26 at `legacySecondStopIni`: entry 1 of the Stop loop refers to stop 2 of division 0 and its
section is `Panel001Stop001`, named by the loop index: one Stop element is appended, bound to
the stop at position 1 and read at `Panel001Stop001`. Entry 2 has no `Stop002Manual` key: the
default -1 is rejected and nothing is appended. -/
theorem C26_legacy_stop_entry_witness :
    (legacySlotEntry legacySecondStopIni.env .stop 0 "Panel001" 0
        legacySecondStopState).m_organ.m_mainPanel.m_guiElements =
      [⟨.GUIStop, "Stop", "/Manual000Stop002", some (.slot .stop 0 1), "/Panel001Stop001"⟩] ∧
    (legacySlotEntry legacySecondStopIni.env .stop 0 "Panel001" 1
        legacySecondStopState).m_organ = legacySecondStopState.m_organ := by
  constructor
  · obtain ⟨e, he, horg, _⟩ := ((C26_legacy_stop_entry legacySecondStopIni.env 0 "Panel001" 0
      legacySecondStopState).2.2
      ⟨true, ⟨"/Manual000", false,
        [⟨"/Manual000Stop001", false⟩, ⟨"/Manual000Stop002", false⟩], [], []⟩⟩
      (by decide) (by decide)).1 ⟨by decide, by decide, by decide⟩
    have h2 : ([⟨"/Manual000Stop001", false⟩, ⟨"/Manual000Stop002", false⟩] : List Entity).get?
        (legacySecondStopIni.env.readLong legacySecondStopState.m_path
          (numberedSection legacySecondStopIni.env "Stop" 0) 0 - 1).toNat
        = some ⟨"/Manual000Stop002", false⟩ := by decide
    rw [h2] at he
    have := (Option.some.inj he).symm
    subst this
    rw [horg]
    decide
  · exact ((C26_legacy_stop_entry legacySecondStopIni.env 0 "Panel001" 1
      legacySecondStopState).1 (by decide)).1

/-! ## Claim C28: what a type name yields -/

/-- A name that starts with "DivisionalBank" and is not a Setter name is caught by the branch of
the previous and next bank selectors, with the characters "ona" as the division number; when
their conversion fails nothing is appended. -/
theorem createFromSetterElement_divisionalBank (env : Env) (p : OrganFileParser) (t : Nat)
    (ty : String) (hd : wxStartsWith ty "DivisionalBank" = true)
    (hn : env.toLong "ona" = none) :
    createFromSetterElement env p t ty = p := by
  have hdata : ∃ rest, ty.data = "DivisionalBank".data ++ rest := by
    simp only [wxStartsWith] at hd
    obtain ⟨rest, hrest⟩ := List.isPrefixOf_iff_prefix.mp hd
    exact ⟨rest, hrest.symm⟩
  obtain ⟨rest, hrest⟩ := hdata
  have hmid : wxMid ty 6 3 = "ona" := by
    simp only [wxMid]
    rw [hrest]
    rfl
  have hpre : ∀ sub : String, sub.data.isPrefixOf ("DivisionalBank".data ++ rest) = false →
      sub.data ≠ [] → wxFind ty sub ≠ 0 := by
    intro sub hsub hne h0
    have := startsWith_of_wxFind ty sub h0 hne
    simp only [wxStartsWith] at this
    rw [hrest, hsub] at this
    cases this
  have hS : wxFind ty "Setter" ≠ 0 := hpre "Setter" rfl (by decide)
  have hP : wxFind ty "DivisionalPrevBank" ≠ 0 := hpre "DivisionalPrevBank" rfl (by decide)
  have hD : wxFind ty "Divisional" = 0 := by
    refine wxFind_of_startsWith ty "Divisional" ?_ (by decide)
    simp only [wxStartsWith]
    rw [hrest]
    rfl
  have hB : wxFind ty "DivisionalBank" = 0 := wxFind_of_startsWith ty "DivisionalBank" hd (by decide)
  have hl : ¬ (ty = "CrescendoLabel" ∨ ty = "GeneralLabel" ∨ ty = "PitchLabel" ∨
      ty = "SequencerLabel" ∨ ty = "TemperamentLabel" ∨ ty = "TransposeLabel") := by
    intro hc
    rcases hc with hc | hc | hc | hc | hc | hc <;> subst hc <;> revert hd <;> decide
  have hsw : ty ≠ "Swell" := by
    intro hc; subst hc; revert hd; decide
  have hg : ¬ (wxStartsWith ty "General" = true ∧ wxLen ty = 9) := by
    intro hc
    have h1 := hc.1
    simp only [wxStartsWith] at h1
    rw [hrest] at h1
    cases h1
  simp only [createFromSetterElement]
  rw [if_neg hl, if_neg (by rw [hB]; simp), if_neg hsw, if_neg hg,
    if_neg (by rw [hD]; simp), if_pos (Or.inl ⟨hS, hP⟩), hmid, hn]

/-- C28 (the code does not do what the claim says): a name that begins with "Setter" and is in
the vocabulary yields no Switch element. It reaches `createGUISwitch(targetPanel, NULL)`, whose
`setDisplayName(theSwitch->getName())` is a call through the null pointer, before anything is
appended: for the name "Setter001" in the vocabulary the main panel stays empty and the function
stops at that call. This holds for every such name, every store and every state. -/
theorem C28_setter_name_of_the_vocabulary_yields_no_switch :
    (∀ (env : Env) (p : OrganFileParser) (t : Nat) (ty : String),
      wxStartsWith ty "Setter" = true → ty ∈ env.setterElements →
      createFromSetterElement env p t ty = p.fault ∧
      (createFromSetterElement env p t ty).m_organ = p.m_organ) ∧
    (∀ (p : OrganFileParser) (t : Nat), createGUISwitch p t none = p.fault) ∧
    wxStartsWith "Setter001" "Setter" = true ∧
    "Setter001" ∈ (setterElementIni "Setter001" ["Setter001"]).env.setterElements ∧
    (setterElementState "Setter001" ["Setter001"]).m_fault = false ∧
    (createFromSetterElement (setterElementIni "Setter001" ["Setter001"]).env
      (setterElementState "Setter001" ["Setter001"]) 0
      "Setter001").m_organ.m_mainPanel.m_guiElements = [] ∧
    (createFromSetterElement (setterElementIni "Setter001" ["Setter001"]).env
      (setterElementState "Setter001" ["Setter001"]) 0 "Setter001").m_fault = true :=
  ⟨fun env p t ty h hv => by
      rw [createFromSetterElement_setter env p t ty h, if_pos hv]
      exact ⟨rfl, rfl⟩,
    fun _ _ => rfl, by decide, by decide, by decide, by decide, by decide⟩

/-- What a type name yields: `createFromSetterElement`, run without a pending fault on an existing target
panel in a store whose `ToLong` rejects the text "ona", appends at most one element and only ever
a Label. Exactly one Label, with the type name as its type, is appended when the name is one of
the six label names, or when it begins neither with "Setter" nor with "DivisionalBank" and its
characters 6 to 8 convert to an integer not greater than the number of divisions of the organ of
the frame; then no fault is raised. For every other name the organ is unchanged, and a fault is
raised exactly when the name begins with "Setter" and is in the vocabulary: the Switch branch
calls `getName` through the null pointer. So no name yields an Enclosure, General, Divisional or
Switch element. -/
theorem createFromSetterElement_label_or_nothing (env : Env) (p : OrganFileParser) (t : Nat)
    (ty : String) (pnl : GoPanel) (hona : env.toLong "ona" = none)
    (hf : p.m_fault = false) (hp : p.m_organ.getOrganPanelAt t = some pnl) :
    (((ty = "CrescendoLabel" ∨ ty = "GeneralLabel" ∨ ty = "PitchLabel" ∨
        ty = "SequencerLabel" ∨ ty = "TemperamentLabel" ∨ ty = "TransposeLabel") ∨
      (wxStartsWith ty "Setter" = false ∧ wxStartsWith ty "DivisionalBank" = false ∧
        ∃ v, env.toLong (wxMid ty 6 3) = some v ∧ v ≤ env.frameOrganNumberOfManuals)) →
      (createFromSetterElement env p t ty).m_organ =
        p.m_organ.modifyPanel
          (fun q => q.addGuiElement ⟨.GUILabel, ty, "GUI Label", none, p.m_path⟩) t ∧
      ((createFromSetterElement env p t ty).m_organ.getOrganPanelAt t).map
          GoPanel.m_guiElements =
        some (pnl.m_guiElements ++ [⟨.GUILabel, ty, "GUI Label", none, p.m_path⟩]) ∧
      (createFromSetterElement env p t ty).m_fault = false) ∧
    (¬ ((ty = "CrescendoLabel" ∨ ty = "GeneralLabel" ∨ ty = "PitchLabel" ∨
        ty = "SequencerLabel" ∨ ty = "TemperamentLabel" ∨ ty = "TransposeLabel") ∨
      (wxStartsWith ty "Setter" = false ∧ wxStartsWith ty "DivisionalBank" = false ∧
        ∃ v, env.toLong (wxMid ty 6 3) = some v ∧ v ≤ env.frameOrganNumberOfManuals)) →
      (createFromSetterElement env p t ty).m_organ = p.m_organ ∧
      ((createFromSetterElement env p t ty).m_fault = true ↔
        (wxStartsWith ty "Setter" = true ∧ ty ∈ env.setterElements))) := by
  have hlab := createGUILabel_overrideLast p t ty pnl hf hp
  have hpanel : Option.map GoPanel.m_guiElements ((p.m_organ.modifyPanel
      (fun q => q.addGuiElement ⟨.GUILabel, ty, "GUI Label", none, p.m_path⟩) t).getOrganPanelAt
        t) =
      some (pnl.m_guiElements ++ [⟨.GUILabel, ty, "GUI Label", none, p.m_path⟩]) := by
    rw [getOrganPanelAt_modifyPanel, hp]
    rfl
  constructor
  · intro h
    rcases h with hl | ⟨hs, hd, v, hv, hle⟩
    · have : createFromSetterElement env p t ty =
          (createGUILabel p t).andThen (fun q => overrideLast q t ty false) := by
        simp only [createFromSetterElement]
        rw [if_pos hl]
      rw [this, hlab.1]
      exact ⟨rfl, hpanel, hlab.2⟩
    · by_cases hl : ty = "CrescendoLabel" ∨ ty = "GeneralLabel" ∨ ty = "PitchLabel" ∨
          ty = "SequencerLabel" ∨ ty = "TemperamentLabel" ∨ ty = "TransposeLabel"
      · have : createFromSetterElement env p t ty =
            (createGUILabel p t).andThen (fun q => overrideLast q t ty false) := by
          simp only [createFromSetterElement]
          rw [if_pos hl]
        rw [this, hlab.1]
        exact ⟨rfl, hpanel, hlab.2⟩
      · have hS : wxFind ty "Setter" ≠ 0 := fun h0 => by
          have := startsWith_of_wxFind ty "Setter" h0 (by decide)
          rw [hs] at this
          cases this
        have hD : wxFind ty "DivisionalBank" ≠ 0 := fun h0 => by
          have := startsWith_of_wxFind ty "DivisionalBank" h0 (by decide)
          rw [hd] at this
          cases this
        have : createFromSetterElement env p t ty =
            (createGUILabel p t).andThen (fun q => overrideLast q t ty false) := by
          simp only [createFromSetterElement]
          rw [if_neg hl, if_pos ⟨hS, hD⟩, hv]
          simp only
          rw [if_neg (by omega)]
        rw [this, hlab.1]
        exact ⟨rfl, hpanel, hlab.2⟩
  · intro hnot
    have hl : ¬ (ty = "CrescendoLabel" ∨ ty = "GeneralLabel" ∨ ty = "PitchLabel" ∨
        ty = "SequencerLabel" ∨ ty = "TemperamentLabel" ∨ ty = "TransposeLabel") :=
      fun h => hnot (Or.inl h)
    by_cases hs : wxStartsWith ty "Setter" = true
    · rw [createFromSetterElement_setter env p t ty hs]
      by_cases hv : ty ∈ env.setterElements
      · rw [if_pos hv]
        exact ⟨rfl, ⟨fun _ => ⟨hs, hv⟩, fun _ => rfl⟩⟩
      · rw [if_neg hv]
        refine ⟨rfl, ⟨fun h => ?_, fun h => absurd h.2 hv⟩⟩
        rw [hf] at h
        cases h
    · have hs' : wxStartsWith ty "Setter" = false := by simpa using hs
      have hsame : createFromSetterElement env p t ty = p := by
        by_cases hd : wxStartsWith ty "DivisionalBank" = true
        · exact createFromSetterElement_divisionalBank env p t ty hd hona
        · have hd' : wxStartsWith ty "DivisionalBank" = false := by simpa using hd
          have hS : wxFind ty "Setter" ≠ 0 := fun h0 =>
            hs (startsWith_of_wxFind ty "Setter" h0 (by decide))
          have hD : wxFind ty "DivisionalBank" ≠ 0 := fun h0 =>
            hd (startsWith_of_wxFind ty "DivisionalBank" h0 (by decide))
          simp only [createFromSetterElement]
          rw [if_neg hl, if_pos ⟨hS, hD⟩]
          cases hv : env.toLong (wxMid ty 6 3) with
          | none => rfl
          | some v =>
            simp only
            rw [if_pos]
            by_contra hle
            exact hnot (Or.inr ⟨hs', hd', v, hv, by omega⟩)
      rw [hsame]
      refine ⟨rfl, ⟨fun h => ?_, fun h => absurd h.1 hs⟩⟩
      rw [hf] at h
      cases h

/-- What a type name yields, at `setterElementIni`: the name "abcdef002", whose characters 6 to 8 are the
number 2 of divisions of the organ of the frame, yields one Label of that type; the name
"abcdef003" and the name "Set" of the vocabulary yield nothing and raise no fault. -/
theorem createFromSetterElement_label_or_nothing_at_setterElementIni :
    ((createFromSetterElement (setterElementIni "abcdef002" []).env
        (setterElementState "abcdef002" []) 0 "abcdef002").m_organ.getOrganPanelAt 0).map
        GoPanel.m_guiElements =
      some [⟨.GUILabel, "abcdef002", "GUI Label", none, "/SetterElement001"⟩] ∧
    (createFromSetterElement (setterElementIni "abcdef003" []).env
        (setterElementState "abcdef003" []) 0 "abcdef003").m_organ =
      (setterElementState "abcdef003" []).m_organ ∧
    (createFromSetterElement (setterElementIni "Set" ["Set"]).env
        (setterElementState "Set" ["Set"]) 0 "Set").m_organ =
      (setterElementState "Set" ["Set"]).m_organ ∧
    ¬ (createFromSetterElement (setterElementIni "Set" ["Set"]).env
        (setterElementState "Set" ["Set"]) 0 "Set").m_fault = true :=
  ⟨((createFromSetterElement_label_or_nothing (setterElementIni "abcdef002" []).env
      (setterElementState "abcdef002" []) 0 "abcdef002"
      (setterElementState "abcdef002" []).m_organ.m_mainPanel (by decide) (by decide) rfl).1
      (Or.inr ⟨by decide, by decide, 2, by decide, by decide⟩)).2.1.trans (by decide),
    ((createFromSetterElement_label_or_nothing (setterElementIni "abcdef003" []).env
      (setterElementState "abcdef003" []) 0 "abcdef003"
      (setterElementState "abcdef003" []).m_organ.m_mainPanel (by decide) (by decide) rfl).2
      (by
        rintro (h | ⟨_, _, v, hv, hle⟩)
        · revert h; decide
        · have h3 : (setterElementIni "abcdef003" []).env.toLong (wxMid "abcdef003" 6 3)
              = some 3 := by decide
          rw [h3] at hv
          have := Option.some.inj hv
          subst this
          revert hle
          decide)).1,
    ((createFromSetterElement_label_or_nothing (setterElementIni "Set" ["Set"]).env
      (setterElementState "Set" ["Set"]) 0 "Set"
      (setterElementState "Set" ["Set"]).m_organ.m_mainPanel (by decide) (by decide) rfl).2
      (by
        rintro (h | ⟨_, _, v, hv, _⟩)
        · revert h; decide
        · have h3 : (setterElementIni "Set" ["Set"]).env.toLong (wxMid "Set" 6 3) = none := by
            decide
          rw [h3] at hv
          cases hv)).1,
    fun h => absurd (((createFromSetterElement_label_or_nothing (setterElementIni "Set" ["Set"]).env
      (setterElementState "Set" ["Set"]) 0 "Set"
      (setterElementState "Set" ["Set"]).m_organ.m_mainPanel (by decide) (by decide) rfl).2
      (by
        rintro (h | ⟨_, _, v, hv, _⟩)
        · revert h; decide
        · have h3 : (setterElementIni "Set" ["Set"]).env.toLong (wxMid "Set" 6 3) = none := by
            decide
          rw [h3] at hv
          cases hv)).2.mp h).1 (by decide)⟩

/-! ## Claim C24: the sections consulted in each mode -/

theorem sameConsulted_modifyPanel (p : OrganFileParser) (g : GoPanel → GoPanel) (t : Nat) :
    OrganFileParser.consulted { p with m_organ := p.m_organ.modifyPanel g t } = p.consulted := by
  cases t <;> rfl

theorem sameConsulted_addGuiElement (p : OrganFileParser) (t : Nat) (e : GUIElement) :
    (p.addGuiElement t e).consulted = p.consulted := by
  cases t <;> rfl

theorem sameConsulted_withEntityAt (k : EntityKind) (i : Int)
    {cont : EntityRef → OrganFileParser → OrganFileParser}
    (h : ∀ r, Keeps OrganFileParser.consulted (cont r)) :
    Keeps OrganFileParser.consulted (fun p => withEntityAt p k i cont) := by
  intro p
  simp only [withEntityAt]
  split
  · rw [h]; rfl
  · rfl

theorem sameConsulted_withManualAt (i : Int) {cont : Nat → Manual → OrganFileParser → OrganFileParser}
    (h : ∀ mi man, Keeps OrganFileParser.consulted (cont mi man)) :
    Keeps OrganFileParser.consulted (fun p => withManualAt p i cont) := by
  intro p
  simp only [withManualAt]
  split
  · rw [h]; rfl
  · rfl

theorem sameConsulted_withSlotAt (k : SlotKind) (mi : Nat) (man : Manual) (i : Int)
    {cont : EntityRef → OrganFileParser → OrganFileParser}
    (h : ∀ r, Keeps OrganFileParser.consulted (cont r)) :
    Keeps OrganFileParser.consulted (fun p => withSlotAt p k mi man i cont) := by
  intro p
  simp only [withSlotAt]
  split
  · rw [h]; rfl
  · rfl

theorem sameConsulted_withLastGuiElement (t : Nat) (f : GUIElement → GUIElement) :
    Keeps OrganFileParser.consulted (fun p => withLastGuiElement p t f) := by
  intro p
  simp only [withLastGuiElement]
  split
  · rfl
  · split
    · rfl
    · cases t <;> rfl

theorem sameConsulted_createNamedElement (cls : ElementClass) (t : Nat) (e : Option EntityRef) :
    Keeps OrganFileParser.consulted (fun p => createNamedElement cls p t e) := by
  intro p
  simp only [createNamedElement]
  split
  · rfl
  · split
    · rfl
    · exact sameConsulted_addGuiElement _ _ _

theorem sameConsulted_createGUILabel (t : Nat) :
    Keeps OrganFileParser.consulted (fun p => createGUILabel p t) :=
  fun p => sameConsulted_addGuiElement p t _

theorem sameConsulted_createGUIDivisional (t : Nat) (e : Option EntityRef) :
    Keeps OrganFileParser.consulted (fun p => createGUIDivisional p t e) :=
  fun p => sameConsulted_addGuiElement p t _

theorem sameConsulted_createGUIEntity (k : EntityKind) (t : Nat) (e : Option EntityRef) :
    Keeps OrganFileParser.consulted (fun p => createGUIEntity k p t e) := by
  intro p
  cases k <;> first | rfl | exact sameConsulted_createNamedElement _ t e p

theorem sameConsulted_createGUISlot (k : SlotKind) (t : Nat) (e : Option EntityRef) :
    Keeps OrganFileParser.consulted (fun p => createGUISlot k p t e) := by
  intro p
  cases k
  · exact sameConsulted_createNamedElement _ t e p
  · exact sameConsulted_createNamedElement _ t e p
  · exact sameConsulted_createGUIDivisional t e p

theorem sameConsulted_overrideLast (t : Nat) (ty : String) (b : Bool) :
    Keeps OrganFileParser.consulted (fun p => overrideLast p t ty b) :=
  fun p => sameConsulted_withLastGuiElement t _ p

theorem sameConsulted_createFromSetterElement (env : Env) (t : Nat) (ty : String) :
    Keeps OrganFileParser.consulted (fun p => createFromSetterElement env p t ty) := by
  intro p
  have hl : ∀ b, ((createGUILabel p t).andThen (fun q => overrideLast q t ty b)).consulted = p.consulted :=
    fun b => (keeps_andThen (sameConsulted_overrideLast t ty b) _).trans (sameConsulted_createGUILabel t p)
  have hd : ∀ b, ((createGUIDivisional p t none).andThen
      (fun q => overrideLast q t ty b)).consulted = p.consulted :=
    fun b => (keeps_andThen (sameConsulted_overrideLast t ty b) _).trans (sameConsulted_createGUIDivisional t none p)
  have hg : ∀ b, ((createGUIGeneral p t none).andThen
      (fun q => overrideLast q t ty b)).consulted = p.consulted :=
    fun b => (keeps_andThen (sameConsulted_overrideLast t ty b) _).trans
      (sameConsulted_createNamedElement _ t none p)
  have hs : ∀ b, ((createGUISwitch p t none).andThen
      (fun q => overrideLast q t ty b)).consulted = p.consulted :=
    fun b => (keeps_andThen (sameConsulted_overrideLast t ty b) _).trans
      (sameConsulted_createNamedElement _ t none p)
  have he : (createGUIEnclosure p t none).consulted = p.consulted := sameConsulted_createNamedElement _ t none p
  simp only [createFromSetterElement]
  repeat' split
  all_goals first | rfl | exact hl _ | exact hd _

theorem sameConsulted_ite {c : Prop} [Decidable c] {a b p : OrganFileParser} (ha : a.consulted = p.consulted)
    (hb : b.consulted = p.consulted) : (if c then a else b).consulted = p.consulted := by
  split <;> assumption

theorem sameConsulted_modernSlotElement (env : Env) (k : SlotKind) (t : Nat) :
    Keeps OrganFileParser.consulted (modernSlotElement env k t) := by
  intro p
  simp only [modernSlotElement]
  split
  · refine sameConsulted_withManualAt _ ?_ p
    intro mi man q
    dsimp only
    split
    · exact sameConsulted_withSlotAt k mi man _ (fun r => sameConsulted_createGUISlot k t (some r)) q
    · rfl
  · rfl

theorem sameConsulted_modernEntityElement (env : Env) (k : EntityKind) (t : Nat) :
    Keeps OrganFileParser.consulted (modernEntityElement env k t) := by
  intro p
  simp only [modernEntityElement]
  split
  · exact sameConsulted_withEntityAt k _ (fun r => sameConsulted_createGUIEntity k t (some r)) p
  · rfl

theorem sameConsulted_modernManualElement (env : Env) (t : Nat) :
    Keeps OrganFileParser.consulted (modernManualElement env t) := by
  intro p
  simp only [modernManualElement]
  split
  · exact sameConsulted_withManualAt _ (fun mi _ => sameConsulted_createNamedElement _ t (some (.manual mi))) p
  · rfl

theorem legacySection_ne_elementSection (env : Env) (panelId name : String)
    (h : isLegacySection env panelId name) : ¬ isElementSection env panelId name := by
  obtain ⟨kind, hk, n, hn⟩ := h
  rintro ⟨i, hi⟩
  rw [hn] at hi
  have h1 := congrArg String.data hi
  simp only [numberedSection, String.data_append, List.append_assoc] at h1
  have h2 := List.append_cancel_left h1
  simp only [legacyKinds, List.mem_cons, List.mem_singleton, List.not_mem_nil, or_false] at hk
  rcases hk with rfl | rfl | rfl | rfl | rfl | rfl | rfl | rfl | rfl | rfl | rfl | rfl <;>
    simp at h2

theorem consultsOnly_of_same {P : String → Prop} {f : OrganFileParser → OrganFileParser}
    (h : Keeps OrganFileParser.consulted f) : ConsultsOnly P f :=
  fun p => ⟨[], by rw [h p]; simp, by simp⟩

theorem consultsOnly_of_one {P : String → Prop} {f : OrganFileParser → OrganFileParser}
    (name : OrganFileParser → String) (hP : ∀ p, P (name p))
    (h : ∀ p, (f p).consulted = p.consulted ∨
      (f p).consulted = p.consulted ++ [(p.m_path, name p)]) : ConsultsOnly P f := by
  intro p
  rcases h p with h1 | h1
  · exact ⟨[], by rw [h1]; simp, by simp⟩
  · exact ⟨[(p.m_path, name p)], h1, by simpa using hP p⟩

theorem consultsOnly_andThen {P : String → Prop} {f g : OrganFileParser → OrganFileParser}
    (hf : ConsultsOnly P f) (hg : ConsultsOnly P g) :
    ConsultsOnly P (fun p => (f p).andThen g) := by
  intro p
  obtain ⟨l1, h1, hl1⟩ := hf p
  show ∃ l, ((f p).andThen g).consulted = p.consulted ++ l ∧ _
  unfold OrganFileParser.andThen
  split
  · exact ⟨l1, h1, hl1⟩
  · obtain ⟨l2, h2, hl2⟩ := hg (f p)
    refine ⟨l1 ++ l2, by rw [h2, h1, List.append_assoc], ?_⟩
    intro x hx
    rcases List.mem_append.mp hx with hx | hx
    · exact hl1 x hx
    · exact hl2 x hx

theorem consultsOnly_forLoop {P : String → Prop}
    {body : Nat → OrganFileParser → OrganFileParser} (h : ∀ i, ConsultsOnly P (body i))
    (n : Int) : ConsultsOnly P (forLoop n body) := by
  intro p
  rw [forLoop_toNat]
  refine forLoop_induct body
    (fun _ q => ∃ l, q.consulted = p.consulted ++ l ∧ ∀ x ∈ l, P x.2) n.toNat p
    ⟨[], by simp, by simp⟩ ?_
  intro i q _ ⟨l1, h1, hl1⟩
  have hid : ConsultsOnly P (fun q : OrganFileParser => q) := fun q => ⟨[], by simp, by simp⟩
  obtain ⟨l2, h2, hl2⟩ := consultsOnly_andThen hid (h i) q
  refine ⟨l1 ++ l2, by rw [h2, h1, List.append_assoc], ?_⟩
  intro x hx
  rcases List.mem_append.mp hx with hx | hx
  · exact hl1 x hx
  · exact hl2 x hx

theorem sameConsulted_setPath (path : String) :
    Keeps OrganFileParser.consulted (fun q => q.SetPath path) := fun _ => rfl

/-- An iteration of the modern loop consults the element section of its index and no other. -/
theorem modernElement_consulted (env : Env) (t : Nat) (panelId : String) (i : Nat)
    (p : OrganFileParser) :
    (modernElement env t panelId i p).consulted =
      p.consulted ++ [(p.m_path, panelId ++ numberedSection env "Element" i)] := by
  have : (modernElement env t panelId i p).consulted =
      (p.consult (panelId ++ ("Element" ++ env.number_format ((i : Int) + 1)))).consulted := by
    simp only [modernElement]
    refine sameConsulted_ite ?_ rfl
    refine sameConsulted_ite (sameConsulted_modernSlotElement env _ t _) ?_
    refine sameConsulted_ite (sameConsulted_modernSlotElement env _ t _) ?_
    refine sameConsulted_ite (sameConsulted_modernSlotElement env _ t _) ?_
    refine sameConsulted_ite (sameConsulted_modernEntityElement env _ t _) ?_
    refine sameConsulted_ite (sameConsulted_modernEntityElement env _ t _) ?_
    refine sameConsulted_ite (sameConsulted_modernEntityElement env _ t _) ?_
    refine sameConsulted_ite (sameConsulted_modernEntityElement env _ t _) ?_
    refine sameConsulted_ite (sameConsulted_modernEntityElement env _ t _) ?_
    refine sameConsulted_ite (sameConsulted_modernEntityElement env _ t _) ?_
    refine sameConsulted_ite (sameConsulted_createGUILabel t _) ?_
    exact sameConsulted_ite (sameConsulted_modernManualElement env t _)
      (sameConsulted_createFromSetterElement env t _ _)
  rw [this]
  rfl

theorem consultsOnly_modernElement (env : Env) (t : Nat) (panelId : String) (i : Nat) :
    ConsultsOnly (isElementSection env panelId) (modernElement env t panelId i) :=
  fun p => ⟨_, modernElement_consulted env t panelId i p, by
    intro x hx
    rw [List.mem_singleton] at hx
    subst hx
    exact ⟨i, rfl⟩⟩

theorem consultsOnly_legacyManualEntry (env : Env) (t : Nat) (panelId : String) (i : Nat) :
    ConsultsOnly (isLegacySection env panelId) (legacyManualEntry env t panelId i) := by
  refine consultsOnly_of_one
    (fun p => panelId ++ "Manual" ++ env.number_format
      (env.readLong p.m_path ("Manual" ++ env.number_format ((i : Int) + 1)) (-1)))
    (fun p => ⟨"Manual", by decide, _, rfl⟩) ?_
  intro p
  simp only [legacyManualEntry]
  rw [keeps_andThen (sameConsulted_setPath _)]
  split
  · right
    split
    · exact sameConsulted_withManualAt _
        (fun mi _ => sameConsulted_createNamedElement _ t (some (.manual mi))) _
    · rfl
  · left; rfl

theorem consultsOnly_legacySetterEntry (env : Env) (panelId : String) (i : Nat) :
    ConsultsOnly (isLegacySection env panelId) (legacySetterEntry env panelId i) := by
  refine consultsOnly_of_one
    (fun _ => panelId ++ "SetterElement" ++ env.number_format ((i : Int) + 1))
    (fun _ => ⟨"SetterElement", by decide, _, rfl⟩) ?_
  intro p
  simp only [legacySetterEntry]
  rw [keeps_andThen (sameConsulted_setPath _)]
  right
  split
  · split
    · exact sameConsulted_createFromSetterElement env 0 _ _
    · rfl
  · rfl

theorem consultsOnly_legacyEntityEntry (env : Env) (k : EntityKind) (t : Nat)
    (panelId : String) (i : Nat) (hk : k.groupName ∈ legacyKinds) :
    ConsultsOnly (isLegacySection env panelId) (legacyEntityEntry env k t panelId i) := by
  refine consultsOnly_of_one
    (fun p => panelId ++ k.groupName ++ env.number_format
      (env.readLong p.m_path (k.groupName ++ env.number_format ((i : Int) + 1)) 0))
    (fun p => ⟨k.groupName, hk, _, rfl⟩) ?_
  intro p
  simp only [legacyEntityEntry]
  rw [keeps_andThen (sameConsulted_setPath _)]
  split
  · right
    split
    · exact sameConsulted_withEntityAt k _ (fun r => sameConsulted_createGUIEntity k t (some r)) _
    · rfl
  · left; rfl

theorem prop_ite {c : Prop} [Decidable c] {a b : OrganFileParser} {P : OrganFileParser → Prop}
    (ha : P a) (hb : P b) : P (if c then a else b) := by
  split <;> assumption

theorem consultsOnly_legacySlotEntry (env : Env) (k : SlotKind) (t : Nat)
    (panelId : String) (i : Nat) :
    ConsultsOnly (isLegacySection env panelId) (legacySlotEntry env k t panelId i) := by
  refine consultsOnly_of_one
    (fun _ => panelId ++ k.typeName ++ env.number_format ((i : Int) + 1))
    (fun _ => ⟨k.typeName, by cases k <;> decide, _, rfl⟩) ?_
  intro p
  simp only [legacySlotEntry]
  rw [keeps_andThen (sameConsulted_setPath _)]
  refine prop_ite (P := fun r => r.consulted = p.consulted ∨
    r.consulted = p.consulted ++
      [(p.m_path, panelId ++ k.typeName ++ env.number_format ((i : Int) + 1))]) ?_ (Or.inl rfl)
  simp only [withManualAt]
  split
  · refine prop_ite (P := fun r => r.consulted = p.consulted ∨
      r.consulted = p.consulted ++
        [(p.m_path, panelId ++ k.typeName ++ env.number_format ((i : Int) + 1))]) ?_ (Or.inl rfl)
    refine prop_ite (P := fun r => r.consulted = p.consulted ∨
      r.consulted = p.consulted ++
        [(p.m_path, panelId ++ k.typeName ++ env.number_format ((i : Int) + 1))]) ?_ (Or.inr rfl)
    exact Or.inr (sameConsulted_withSlotAt k _ _ _
      (fun r => sameConsulted_createGUISlot k t (some r)) _)
  · exact Or.inl rfl

theorem consultsOnly_legacyLabelEntry (env : Env) (t : Nat) (panelId : String) (i : Nat) :
    ConsultsOnly (isLegacySection env panelId) (legacyLabelEntry env t panelId i) := by
  refine consultsOnly_of_one
    (fun _ => panelId ++ "Label" ++ env.number_format ((i : Int) + 1))
    (fun _ => ⟨"Label", by decide, _, rfl⟩) ?_
  intro p
  simp only [legacyLabelEntry]
  rw [keeps_andThen (sameConsulted_setPath _)]
  right
  split
  · exact sameConsulted_createGUILabel t _
  · rfl

theorem consultsOnly_legacyLoop {P : String → Prop} (env : Env) (key : String)
    {body : Nat → OrganFileParser → OrganFileParser} (h : ∀ i, ConsultsOnly P (body i)) :
    ConsultsOnly P (legacyLoop env key body) :=
  fun p => consultsOnly_forLoop h _ p

/-- The legacy part of `parsePanelElements` consults sections of the legacy layout only. -/
theorem consultsOnly_legacyPart (env : Env) (t : Nat) (panelId : String) (p : OrganFileParser)
    (h : ¬ (wxIsSameAsNoCase panelId "Panel000" = true ∨
      env.readLong p.m_path "NumberOfGUIElements" 0 ≠ 0)) :
    ∃ l, (parsePanelElements env p t panelId).consulted = p.consulted ++ l ∧
      ∀ x ∈ l, isLegacySection env panelId x.2 := by
  have hE := fun (k : EntityKind) (hk : k.groupName ∈ legacyKinds) =>
    consultsOnly_legacyLoop env k.countKey
      (fun i => consultsOnly_legacyEntityEntry env k t panelId i hk)
  have hS := fun (k : SlotKind) => consultsOnly_legacyLoop env k.countKey
    (consultsOnly_legacySlotEntry env k t panelId)
  have h1 := consultsOnly_legacyLoop env "NumberOfManuals"
    (consultsOnly_legacyManualEntry env t panelId)
  have h2 := consultsOnly_andThen h1 (consultsOnly_legacyLoop env "NumberOfSetterElements"
    (consultsOnly_legacySetterEntry env panelId))
  have h3 := consultsOnly_andThen h2 (hE .enclosure (by decide))
  have h4 := consultsOnly_andThen h3 (hE .tremulant (by decide))
  have h5 := consultsOnly_andThen h4 (hE .reversiblePiston (by decide))
  have h6 := consultsOnly_andThen h5 (hE .switch (by decide))
  have h7 := consultsOnly_andThen h6 (hE .general (by decide))
  have h8 := consultsOnly_andThen h7 (hE .divisionalCoupler (by decide))
  have h9 := consultsOnly_andThen h8 (hS .stop)
  have h10 := consultsOnly_andThen h9 (hS .coupler)
  have h11 := consultsOnly_andThen h10 (hS .divisional)
  have h12 := consultsOnly_andThen h11 (consultsOnly_legacyLoop env "NumberOfLabels"
    (consultsOnly_legacyLabelEntry env t panelId))
  simp only [parsePanelElements]
  rw [if_neg h]
  exact h12 p

/-- The modern part of `parsePanelElements` consults element sections of the panel only. -/
theorem consultsOnly_modernPart (env : Env) (t : Nat) (panelId : String) (p : OrganFileParser)
    (h : wxIsSameAsNoCase panelId "Panel000" = true ∨
      env.readLong p.m_path "NumberOfGUIElements" 0 ≠ 0) :
    ∃ l, (parsePanelElements env p t panelId).consulted = p.consulted ++ l ∧
      ∀ x ∈ l, isElementSection env panelId x.2 := by
  simp only [parsePanelElements]
  rw [if_pos h]
  split
  · exact consultsOnly_andThen
      (consultsOnly_forLoop (consultsOnly_modernElement env t panelId) _)
      (consultsOnly_of_same (sameConsulted_setPath _)) p
  · exact ⟨[], by simp, by simp⟩

/-- C24 as stated does not hold: in `zeroCountPanelIni` the section of the additional panel
`Panel001` has the key `NumberOfGUIElements`, with the value 0, and the panel is laid out in
legacy mode: its legacy label section is consulted and gives the panel a Label, its element
section is not consulted. -/
theorem C24_count_key_with_value_0_selects_legacy_mode :
    lookupKey zeroCountPanelIni.longs "/Panel001" "NumberOfGUIElements" = some 0 ∧
    wxIsSameAsNoCase "Panel001" "Panel000" = false ∧
    zeroCountPanelState.consulted =
      [("/", "Organ"), ("/", "Panel000"), ("/Organ", "Panel001")] ∧
    (parsePanelElements zeroCountPanelIni.env zeroCountPanelState 1 "Panel001").consulted =
      [("/", "Organ"), ("/", "Panel000"), ("/Organ", "Panel001"),
        ("/Panel001", "Panel001Label001")] ∧
    (parsePanelElements zeroCountPanelIni.env zeroCountPanelState 1
      "Panel001").m_organ.m_extraPanels.map GoPanel.m_guiElements =
      [[⟨.GUILabel, "Label", "GUI Label", none, "/Panel001Label001"⟩]] :=
  ⟨by decide, by decide, by decide, by decide, by decide⟩

/-- C24, amended: `parsePanelElements` lays a panel out in modern mode if and only if the panel
id is `Panel000` (letter case ignored) or the value read under `NumberOfGUIElements`, 0 when the
key is missing, is not 0; then the element loop is run when that value is in (0, 1000), nothing
is done otherwise, and every section consulted is an element section of the panel. Otherwise the
panel is laid out in legacy mode: every section consulted is one of the legacy layout (panel id,
kind, number) and none is an element section. Nothing consulted earlier is forgotten. -/
theorem C24_mode_is_selected_by_the_value_read (env : Env) (p : OrganFileParser) (t : Nat)
    (panelId : String) :
    ((wxIsSameAsNoCase panelId "Panel000" = true ∨
        env.readLong p.m_path "NumberOfGUIElements" 0 ≠ 0) →
      parsePanelElements env p t panelId =
        (if 0 < env.readLong p.m_path "NumberOfGUIElements" 0 ∧
            env.readLong p.m_path "NumberOfGUIElements" 0 < 1000 then
          (forLoop (env.readLong p.m_path "NumberOfGUIElements" 0)
            (modernElement env t panelId) p).andThen (fun q => q.SetPath ("/" ++ panelId))
        else p) ∧
      ∃ l, (parsePanelElements env p t panelId).consulted = p.consulted ++ l ∧
        ∀ x ∈ l, isElementSection env panelId x.2) ∧
    (¬ (wxIsSameAsNoCase panelId "Panel000" = true ∨
        env.readLong p.m_path "NumberOfGUIElements" 0 ≠ 0) →
      ∃ l, (parsePanelElements env p t panelId).consulted = p.consulted ++ l ∧
        ∀ x ∈ l, isLegacySection env panelId x.2 ∧ ¬ isElementSection env panelId x.2) := by
  constructor
  · intro h
    refine ⟨?_, consultsOnly_modernPart env t panelId p h⟩
    simp only [parsePanelElements]
    rw [if_pos h]
  · intro h
    obtain ⟨l, hl, hP⟩ := consultsOnly_legacyPart env t panelId p h
    exact ⟨l, hl, fun x hx =>
      ⟨hP x hx, legacySection_ne_elementSection env panelId x.2 (hP x hx)⟩⟩

/-- C24, amended, on two panels: the additional panel of `extraPanelIni`, whose element count is
1, is laid out in modern mode, and the one of `legacyPanelSetterIni`, which has no element count,
in legacy mode. -/
theorem C24_mode_is_selected_by_the_value_read_witness :
    (∃ l, (parsePanelElements extraPanelIni.env extraPanelState 1 "Panel001").consulted =
        extraPanelState.consulted ++ l ∧
      ∀ x ∈ l, isElementSection extraPanelIni.env "Panel001" x.2) ∧
    (∃ l, (parsePanelElements legacyPanelSetterIni.env legacyPanelSetterState 1
        "Panel001").consulted = legacyPanelSetterState.consulted ++ l ∧
      ∀ x ∈ l, isLegacySection legacyPanelSetterIni.env "Panel001" x.2 ∧
        ¬ isElementSection legacyPanelSetterIni.env "Panel001" x.2) :=
  ⟨((C24_mode_is_selected_by_the_value_read extraPanelIni.env extraPanelState 1 "Panel001").1
      (by decide)).2,
    (C24_mode_is_selected_by_the_value_read legacyPanelSetterIni.env legacyPanelSetterState 1
      "Panel001").2 (by decide)⟩

/-! ## Claim C27: the loader only appends -/

theorem Organ.Extends.refl (o : Organ) : o.Extends o :=
  ⟨fun _ => List.prefix_refl _, List.prefix_refl _,
    fun _ pnl h => ⟨pnl, h, List.prefix_refl _⟩⟩

theorem Organ.Extends.trans {o1 o2 o3 : Organ} (h12 : o1.Extends o2) (h23 : o2.Extends o3) :
    o1.Extends o3 := by
  refine ⟨fun k => (h12.1 k).trans (h23.1 k), h12.2.1.trans h23.2.1, ?_⟩
  intro t pnl h
  obtain ⟨pnl2, h2, hp2⟩ := h12.2.2 t pnl h
  obtain ⟨pnl3, h3, hp3⟩ := h23.2.2 t pnl2 h2
  exact ⟨pnl3, h3, hp2.trans hp3⟩

theorem get?_modifyAt_any {α : Type} (g : α → α) (l : List α) (j j2 : Nat) (a : α)
    (h : l.get? j2 = some a) :
    (modifyAt g l j).get? j2 = some a ∨ (modifyAt g l j).get? j2 = some (g a) := by
  induction l generalizing j j2 with
  | nil => simp at h
  | cons b bs ih =>
    cases j with
    | zero =>
      cases j2 with
      | zero =>
        simp only [List.get?_cons_zero, Option.some.injEq] at h
        subst h
        exact Or.inr rfl
      | succ n => exact Or.inl h
    | succ m =>
      cases j2 with
      | zero => exact Or.inl h
      | succ n => exact ih m n h

theorem extends_modifyPanel (o : Organ) (g : GoPanel → GoPanel) (t : Nat)
    (hg : ∀ q, q.m_guiElements <+: (g q).m_guiElements) : o.Extends (o.modifyPanel g t) := by
  refine ⟨fun k => ?_, ?_, ?_⟩
  · cases t <;> exact List.prefix_refl _
  · cases t <;> exact List.prefix_refl _
  · intro t2 pnl h
    cases t with
    | zero =>
      cases t2 with
      | zero =>
        have : pnl = o.m_mainPanel := (Option.some.inj h).symm
        subst this
        exact ⟨g o.m_mainPanel, rfl, hg _⟩
      | succ n => exact ⟨pnl, h, List.prefix_refl _⟩
    | succ m =>
      cases t2 with
      | zero => exact ⟨pnl, h, List.prefix_refl _⟩
      | succ n =>
        rcases get?_modifyAt_any g o.m_extraPanels m n pnl h with h2 | h2
        · exact ⟨pnl, h2, List.prefix_refl _⟩
        · exact ⟨g pnl, h2, hg _⟩

theorem extends_addEntity (o : Organ) (k : EntityKind) (e : Entity) :
    o.Extends (o.addEntity k e) := by
  refine ⟨fun j => ?_, List.prefix_refl _, fun t pnl h => ⟨pnl, ?_, List.prefix_refl _⟩⟩
  · simp only [Organ.addEntity]
    split
    · rename_i hj
      subst hj
      exact List.prefix_append _ _
    · exact List.prefix_refl _
  · cases t <;> exact h

theorem extends_addManual (o : Organ) (m : Manual) : o.Extends (o.addManual m) := by
  refine ⟨fun _ => List.prefix_refl _, List.prefix_append _ _,
    fun t pnl h => ⟨pnl, ?_, List.prefix_refl _⟩⟩
  cases t <;> exact h

theorem extends_addPanel (o : Organ) (pnl : GoPanel) :
    o.Extends { o with m_extraPanels := o.m_extraPanels ++ [pnl] } := by
  refine ⟨fun _ => List.prefix_refl _, List.prefix_refl _, fun t q h => ⟨q, ?_, List.prefix_refl _⟩⟩
  cases t with
  | zero => exact h
  | succ n =>
    simp only [Organ.getOrganPanelAt] at h ⊢
    rw [List.get?_eq_getElem?] at h ⊢
    have hlt : n < o.m_extraPanels.length := by
      by_contra hc
      rw [List.getElem?_eq_none (by omega)] at h
      cases h
    rw [List.getElem?_append_left hlt]
    exact h

theorem appendOnly_same {f : OrganFileParser → OrganFileParser}
    (h : ∀ p, (f p).m_organ = p.m_organ) : AppendOnly f :=
  fun p => by rw [h p]; exact Organ.Extends.refl _

theorem extends_andThen {g : OrganFileParser → OrganFileParser} (hg : AppendOnly g)
    (p : OrganFileParser) : p.m_organ.Extends (p.andThen g).m_organ := by
  unfold OrganFileParser.andThen
  split
  · exact Organ.Extends.refl _
  · exact hg p

theorem extends_then {g : OrganFileParser → OrganFileParser} (hg : AppendOnly g)
    {o : Organ} {q : OrganFileParser} (h : o.Extends q.m_organ) :
    o.Extends (q.andThen g).m_organ :=
  h.trans (extends_andThen hg q)

theorem appendOnly_forLoop {body : Nat → OrganFileParser → OrganFileParser}
    (h : ∀ i, AppendOnly (body i)) (n : Int) : AppendOnly (forLoop n body) := by
  intro p
  rw [forLoop_toNat]
  refine forLoop_induct body (fun _ q => p.m_organ.Extends q.m_organ) n.toNat p
    (Organ.Extends.refl _) ?_
  intro i q _ hq
  exact extends_then (h i) hq

theorem extends_ite {c : Prop} [Decidable c] {a b : OrganFileParser} {o : Organ}
    (ha : o.Extends a.m_organ) (hb : o.Extends b.m_organ) :
    o.Extends (if c then a else b).m_organ := by
  split <;> assumption

theorem appendOnly_addGuiElement (t : Nat) (e : GUIElement) :
    AppendOnly (fun p => p.addGuiElement t e) :=
  fun _ => extends_modifyPanel _ _ _ (fun _ => List.prefix_append _ _)

theorem appendOnly_withEntityAt (k : EntityKind) (i : Int)
    {cont : EntityRef → OrganFileParser → OrganFileParser} (h : ∀ r, AppendOnly (cont r)) :
    AppendOnly (fun p => withEntityAt p k i cont) := by
  intro p
  simp only [withEntityAt]
  refine extends_ite ?_ (Organ.Extends.refl _)
  exact h _ (p.lookup (.entities k) i (p.m_organ.getNumberOf k))

theorem appendOnly_withManualAt (i : Int)
    {cont : Nat → Manual → OrganFileParser → OrganFileParser}
    (h : ∀ mi man, AppendOnly (cont mi man)) :
    AppendOnly (fun p => withManualAt p i cont) := by
  intro p
  simp only [withManualAt]
  split
  · exact h _ _ (p.lookup .manuals i p.m_organ.getNumberOfManuals)
  · exact Organ.Extends.refl _

theorem appendOnly_withSlotAt (k : SlotKind) (mi : Nat) (man : Manual) (i : Int)
    {cont : EntityRef → OrganFileParser → OrganFileParser} (h : ∀ r, AppendOnly (cont r)) :
    AppendOnly (fun p => withSlotAt p k mi man i cont) := by
  intro p
  simp only [withSlotAt]
  refine extends_ite ?_ (Organ.Extends.refl _)
  exact h _ (p.lookup (.slots k mi) i (man.getNumberOf k))

theorem appendOnly_createNamedElement (cls : ElementClass) (t : Nat) (e : Option EntityRef) :
    AppendOnly (fun p => createNamedElement cls p t e) := by
  intro p
  simp only [createNamedElement]
  split
  · exact Organ.Extends.refl _
  · split
    · exact Organ.Extends.refl _
    · exact appendOnly_addGuiElement t _ p

theorem appendOnly_createGUILabel (t : Nat) : AppendOnly (fun p => createGUILabel p t) :=
  fun p => appendOnly_addGuiElement t _ p

theorem appendOnly_createGUIDivisional (t : Nat) (e : Option EntityRef) :
    AppendOnly (fun p => createGUIDivisional p t e) :=
  fun p => appendOnly_addGuiElement t _ p

theorem appendOnly_createGUIEntity (k : EntityKind) (t : Nat) (e : Option EntityRef) :
    AppendOnly (fun p => createGUIEntity k p t e) := by
  intro p
  cases k <;> first
    | exact Organ.Extends.refl _
    | exact appendOnly_createNamedElement _ t e p

theorem appendOnly_createGUISlot (k : SlotKind) (t : Nat) (e : Option EntityRef) :
    AppendOnly (fun p => createGUISlot k p t e) := by
  intro p
  cases k
  · exact appendOnly_createNamedElement _ t e p
  · exact appendOnly_createNamedElement _ t e p
  · exact appendOnly_createGUIDivisional t e p

/-- An element is appended and the setters are then called on the last element of the panel,
which is that element: everything that was there stays as it was. -/
theorem extends_append_then_override (p : OrganFileParser) (t : Nat) (e : GUIElement)
    (ty : String) (b : Bool) :
    p.m_organ.Extends ((p.addGuiElement t e).andThen (fun q => overrideLast q t ty b)).m_organ := by
  unfold OrganFileParser.andThen
  split
  · exact appendOnly_addGuiElement t e p
  · simp only [overrideLast, withLastGuiElement]
    split
    · exact appendOnly_addGuiElement t e p
    · refine extends_ite (appendOnly_addGuiElement t e p) ?_
      simp only [OrganFileParser.lookup, OrganFileParser.addGuiElement]
      rw [modifyPanel_modifyPanel]
      refine extends_modifyPanel _ _ _ ?_
      intro q
      simp only [GoPanel.addGuiElement]
      rw [modifyLast_concat]
      exact List.prefix_append _ _

theorem appendOnly_createFromSetterElement (env : Env) (t : Nat) (ty : String) :
    AppendOnly (fun p => createFromSetterElement env p t ty) := by
  intro p
  have hl : ∀ b, p.m_organ.Extends
      ((createGUILabel p t).andThen (fun q => overrideLast q t ty b)).m_organ :=
    fun b => extends_append_then_override p t _ ty b
  have hd : ∀ b, p.m_organ.Extends
      ((createGUIDivisional p t none).andThen (fun q => overrideLast q t ty b)).m_organ :=
    fun b => extends_append_then_override p t _ ty b
  simp only [createFromSetterElement]
  repeat' split
  all_goals first
    | exact Organ.Extends.refl _
    | exact hl _
    | exact hd _

theorem appendOnly_at {f : OrganFileParser → OrganFileParser} (h : AppendOnly f) {o : Organ}
    (q : OrganFileParser) (hq : q.m_organ = o) : o.Extends (f q).m_organ :=
  hq ▸ h q

theorem appendOnly_setPath (path : String) : AppendOnly (fun q => q.SetPath path) :=
  fun _ => Organ.Extends.refl _

theorem appendOnly_modernSlotElement (env : Env) (k : SlotKind) (t : Nat) :
    AppendOnly (modernSlotElement env k t) := by
  intro p
  simp only [modernSlotElement]
  refine extends_ite ?_ (Organ.Extends.refl _)
  refine appendOnly_withManualAt _ ?_ p
  intro mi man q
  exact extends_ite
    (appendOnly_withSlotAt k mi man _ (fun r => appendOnly_createGUISlot k t (some r)) q)
    (Organ.Extends.refl _)

theorem appendOnly_modernEntityElement (env : Env) (k : EntityKind) (t : Nat) :
    AppendOnly (modernEntityElement env k t) := by
  intro p
  simp only [modernEntityElement]
  exact extends_ite
    (appendOnly_withEntityAt k _ (fun r => appendOnly_createGUIEntity k t (some r)) p)
    (Organ.Extends.refl _)

theorem appendOnly_modernManualElement (env : Env) (t : Nat) :
    AppendOnly (modernManualElement env t) := by
  intro p
  simp only [modernManualElement]
  exact extends_ite
    (appendOnly_withManualAt _
      (fun mi _ => appendOnly_createNamedElement _ t (some (.manual mi))) p)
    (Organ.Extends.refl _)

theorem appendOnly_modernElement (env : Env) (t : Nat) (panelId : String) (i : Nat) :
    AppendOnly (modernElement env t panelId i) := by
  intro p
  simp only [modernElement]
  refine extends_ite ?_ (Organ.Extends.refl _)
  refine extends_ite (appendOnly_at (appendOnly_modernSlotElement env _ t) _ rfl) ?_
  refine extends_ite (appendOnly_at (appendOnly_modernSlotElement env _ t) _ rfl) ?_
  refine extends_ite (appendOnly_at (appendOnly_modernSlotElement env _ t) _ rfl) ?_
  refine extends_ite (appendOnly_at (appendOnly_modernEntityElement env _ t) _ rfl) ?_
  refine extends_ite (appendOnly_at (appendOnly_modernEntityElement env _ t) _ rfl) ?_
  refine extends_ite (appendOnly_at (appendOnly_modernEntityElement env _ t) _ rfl) ?_
  refine extends_ite (appendOnly_at (appendOnly_modernEntityElement env _ t) _ rfl) ?_
  refine extends_ite (appendOnly_at (appendOnly_modernEntityElement env _ t) _ rfl) ?_
  refine extends_ite (appendOnly_at (appendOnly_modernEntityElement env _ t) _ rfl) ?_
  refine extends_ite (appendOnly_at (appendOnly_createGUILabel t) _ rfl) ?_
  exact extends_ite (appendOnly_at (appendOnly_modernManualElement env t) _ rfl)
    (appendOnly_at (appendOnly_createFromSetterElement env t _) _ rfl)

theorem appendOnly_legacyManualEntry (env : Env) (t : Nat) (panelId : String) (i : Nat) :
    AppendOnly (legacyManualEntry env t panelId i) := by
  intro p
  simp only [legacyManualEntry]
  refine extends_then (appendOnly_setPath _) ?_
  refine extends_ite ?_ (Organ.Extends.refl _)
  refine extends_ite ?_ (Organ.Extends.refl _)
  exact appendOnly_at (appendOnly_withManualAt _
    (fun mi _ => appendOnly_createNamedElement _ t (some (.manual mi)))) _ rfl

theorem appendOnly_legacySetterEntry (env : Env) (panelId : String) (i : Nat) :
    AppendOnly (legacySetterEntry env panelId i) := by
  intro p
  simp only [legacySetterEntry]
  refine extends_then (appendOnly_setPath _) ?_
  refine extends_ite ?_ (Organ.Extends.refl _)
  exact extends_ite (appendOnly_at (appendOnly_createFromSetterElement env 0 _) _ rfl) (Organ.Extends.refl _)

theorem appendOnly_legacyEntityEntry (env : Env) (k : EntityKind) (t : Nat)
    (panelId : String) (i : Nat) : AppendOnly (legacyEntityEntry env k t panelId i) := by
  intro p
  simp only [legacyEntityEntry]
  refine extends_then (appendOnly_setPath _) ?_
  refine extends_ite ?_ (Organ.Extends.refl _)
  refine extends_ite ?_ (Organ.Extends.refl _)
  exact appendOnly_at
    (appendOnly_withEntityAt k _ (fun r => appendOnly_createGUIEntity k t (some r))) _ rfl

theorem appendOnly_legacySlotEntry (env : Env) (k : SlotKind) (t : Nat) (panelId : String)
    (i : Nat) : AppendOnly (legacySlotEntry env k t panelId i) := by
  intro p
  simp only [legacySlotEntry]
  refine extends_then (appendOnly_setPath _) ?_
  refine extends_ite ?_ (Organ.Extends.refl _)
  refine appendOnly_withManualAt _ ?_ p
  intro mi man q
  refine extends_ite ?_ (Organ.Extends.refl _)
  refine extends_ite ?_ (Organ.Extends.refl _)
  exact appendOnly_at
    (appendOnly_withSlotAt k mi man _ (fun r => appendOnly_createGUISlot k t (some r))) _ rfl

theorem appendOnly_legacyLabelEntry (env : Env) (t : Nat) (panelId : String) (i : Nat) :
    AppendOnly (legacyLabelEntry env t panelId i) := by
  intro p
  simp only [legacyLabelEntry]
  refine extends_then (appendOnly_setPath _) ?_
  exact extends_ite (appendOnly_at (appendOnly_createGUILabel t) _ rfl) (Organ.Extends.refl _)

theorem appendOnly_legacyLoop (env : Env) (key : String)
    {body : Nat → OrganFileParser → OrganFileParser} (h : ∀ i, AppendOnly (body i)) :
    AppendOnly (legacyLoop env key body) :=
  fun p => appendOnly_forLoop h _ p

theorem appendOnly_parsePanelElements (env : Env) (t : Nat) (panelId : String) :
    AppendOnly (fun p => parsePanelElements env p t panelId) := by
  intro p
  simp only [parsePanelElements]
  refine extends_ite ?_ ?_
  · refine extends_ite ?_ (Organ.Extends.refl _)
    exact extends_then (appendOnly_setPath _)
      (appendOnly_forLoop (appendOnly_modernElement env t panelId) _ p)
  · have hE := fun k => appendOnly_legacyLoop env (EntityKind.countKey k)
      (appendOnly_legacyEntityEntry env k t panelId)
    have hS := fun k => appendOnly_legacyLoop env (SlotKind.countKey k)
      (appendOnly_legacySlotEntry env k t panelId)
    refine extends_then (appendOnly_legacyLoop env _ (appendOnly_legacyLabelEntry env t panelId)) ?_
    refine extends_then (hS _) ?_
    refine extends_then (hS _) ?_
    refine extends_then (hS _) ?_
    refine extends_then (hE _) ?_
    refine extends_then (hE _) ?_
    refine extends_then (hE _) ?_
    refine extends_then (hE _) ?_
    refine extends_then (hE _) ?_
    refine extends_then (hE _) ?_
    refine extends_then (appendOnly_legacyLoop env _ (appendOnly_legacySetterEntry env panelId)) ?_
    exact appendOnly_legacyLoop env _ (appendOnly_legacyManualEntry env t panelId) p

theorem appendOnly_countedBlock (env : Env) (key : String) (maxCount : Int)
    {body : Nat → OrganFileParser → OrganFileParser} (h : ∀ i, AppendOnly (body i)) :
    AppendOnly (countedBlock env key maxCount body) := by
  intro p
  simp only [countedBlock]
  refine extends_ite ?_ (Organ.Extends.refl _)
  exact extends_then (appendOnly_setPath _) (appendOnly_forLoop h _ p)

theorem appendOnly_legacyImageStep (env : Env) (i : Nat) :
    AppendOnly (legacyImageStep env i) := by
  intro p
  simp only [legacyImageStep]
  refine extends_ite ?_ (Organ.Extends.refl _)
  split
  · show p.m_organ.Extends (p.m_organ.modifyPanel _ 0)
    refine extends_modifyPanel _ _ _ ?_
    intro q
    exact List.prefix_refl _
  · exact Organ.Extends.refl _

theorem appendOnly_legacyRootLabelStep (env : Env) (i : Nat) :
    AppendOnly (legacyRootLabelStep env i) := by
  intro p
  simp only [legacyRootLabelStep]
  exact extends_ite (appendOnly_at (appendOnly_createGUILabel 0) _ rfl) (Organ.Extends.refl _)

theorem appendOnly_parseLegacyRoot (env : Env) : AppendOnly (parseLegacyRoot env) := by
  intro p
  simp only [parseLegacyRoot]
  refine extends_ite ?_ (Organ.Extends.refl _)
  refine extends_then (appendOnly_countedBlock env _ _ (appendOnly_legacyRootLabelStep env)) ?_
  refine Organ.Extends.trans ?_
    (appendOnly_countedBlock env _ _ (appendOnly_legacyImageStep env) _)
  show p.m_organ.Extends (p.m_organ.modifyPanel _ 0)
  refine extends_modifyPanel _ _ _ ?_
  intro q
  exact List.prefix_refl _

theorem appendOnly_parseEntityStep (env : Env) (k : EntityKind) (i : Nat) :
    AppendOnly (parseEntityStep env k i) := by
  intro p
  simp only [parseEntityStep]
  refine extends_ite ?_ (Organ.Extends.refl _)
  refine extends_ite ?_ (extends_addEntity _ _ _)
  exact Organ.Extends.trans (extends_addEntity p.m_organ k _)
    (appendOnly_at
      (appendOnly_withEntityAt k _ (fun r => appendOnly_createGUIEntity k 0 (some r))) _ rfl)

theorem appendOnly_parseEntities (env : Env) (k : EntityKind) :
    AppendOnly (parseEntities env k) :=
  appendOnly_countedBlock env _ _ (appendOnly_parseEntityStep env k)

theorem appendOnly_parseManualStep (env : Env) (i : Nat) :
    AppendOnly (parseManualStep env i) := by
  intro p
  simp only [parseManualStep]
  refine extends_ite ?_ (Organ.Extends.refl _)
  refine extends_ite ?_ (extends_addManual _ _)
  exact Organ.Extends.trans (extends_addManual p.m_organ _)
    (appendOnly_at (appendOnly_withManualAt _
      (fun mi _ => appendOnly_createNamedElement _ 0 (some (.manual mi)))) _ rfl)

theorem appendOnly_parseManuals (env : Env) : AppendOnly (parseManuals env) := by
  intro p
  simp only [parseManuals]
  refine extends_ite ?_ (Organ.Extends.refl _)
  exact extends_then (appendOnly_setPath _) (appendOnly_forLoop (appendOnly_parseManualStep env) _ p)

theorem appendOnly_rootSetterStep (env : Env) (i : Nat) :
    AppendOnly (rootSetterStep env i) := by
  intro p
  simp only [rootSetterStep]
  refine extends_ite ?_ (Organ.Extends.refl _)
  exact extends_ite (appendOnly_at (appendOnly_createFromSetterElement env 0 _) _ rfl) (Organ.Extends.refl _)

theorem appendOnly_parseRootSetters (env : Env) : AppendOnly (parseRootSetters env) := by
  intro p
  simp only [parseRootSetters]
  refine extends_ite ?_ (Organ.Extends.refl _)
  refine extends_then (appendOnly_setPath _) ?_
  exact extends_ite (appendOnly_forLoop (appendOnly_rootSetterStep env) _ p)
    (Organ.Extends.refl _)

theorem appendOnly_parsePanelStep (env : Env) (i : Nat) : AppendOnly (parsePanelStep env i) := by
  intro p
  simp only [parsePanelStep]
  exact extends_ite (extends_addPanel _ _) (Organ.Extends.refl _)

theorem appendOnly_parseMainPanel (env : Env) : AppendOnly (parseMainPanel env) := by
  intro p
  simp only [parseMainPanel]
  refine extends_ite ?_ (Organ.Extends.refl _)
  refine extends_then (appendOnly_setPath _) ?_
  refine Organ.Extends.trans ?_ (appendOnly_parsePanelElements env 0 "Panel000" _)
  show p.m_organ.Extends (p.m_organ.modifyPanel _ 0)
  refine extends_modifyPanel _ _ _ ?_
  intro q
  exact List.prefix_refl _

theorem appendOnly_parseExtraPanels (env : Env) (n : Int) :
    AppendOnly (parseExtraPanels env n) := by
  intro p
  simp only [parseExtraPanels]
  refine extends_ite ?_ (Organ.Extends.refl _)
  exact extends_then (appendOnly_setPath _) (appendOnly_forLoop (appendOnly_parsePanelStep env) _ p)

theorem appendOnly_parsePanels (env : Env) : AppendOnly (parsePanels env) := by
  intro p
  simp only [parsePanels]
  exact extends_then (appendOnly_parseExtraPanels env _) (appendOnly_parseMainPanel env p)

theorem appendOnly_readRootProperties (env : Env) : AppendOnly (readRootProperties env) := by
  intro p
  refine ⟨fun _ => List.prefix_refl _, List.prefix_refl _, fun t pnl h => ⟨pnl, ?_, List.prefix_refl _⟩⟩
  cases t <;> exact h

theorem appendOnly_parseOrganSection (env : Env) : AppendOnly (parseOrganSection env) := by
  intro p
  simp only [parseOrganSection]
  refine extends_then (appendOnly_parsePanels env) ?_
  refine extends_then (appendOnly_parseRootSetters env) ?_
  refine extends_then (appendOnly_parseEntities env _) ?_
  refine extends_then (appendOnly_parseEntities env _) ?_
  refine extends_then (appendOnly_parseEntities env _) ?_
  refine extends_then (appendOnly_parseManuals env) ?_
  refine extends_then (appendOnly_parseEntities env _) ?_
  refine extends_then (appendOnly_parseEntities env _) ?_
  refine extends_then (appendOnly_parseEntities env _) ?_
  refine extends_then (appendOnly_parseEntities env _) ?_
  refine extends_then (appendOnly_parseEntities env _) ?_
  refine extends_then (appendOnly_parseLegacyRoot env) ?_
  exact appendOnly_readRootProperties env (p.SetPath "/Organ")

theorem get?_of_isPrefix {α : Type} {l1 l2 : List α} (h : l1 <+: l2) (i : Nat) (a : α)
    (ha : l1.get? i = some a) : l2.get? i = some a := by
  obtain ⟨t, rfl⟩ := h
  rw [List.get?_eq_getElem?] at ha ⊢
  have hlt : i < l1.length := by
    by_contra hc
    rw [List.getElem?_eq_none (by omega)] at ha
    cases ha
  rw [List.getElem?_append_left hlt]
  exact ha

/-- A handle that addresses an entity of the organ addresses the same entity after the organ has
been extended. -/
theorem Organ.Extends.nameOf {o1 o2 : Organ} (h : o1.Extends o2) (r : EntityRef) (n : String)
    (hn : o1.nameOf r = some n) : o2.nameOf r = some n := by
  cases r with
  | organ k i =>
    simp only [Organ.nameOf, Option.map_eq_some'] at hn ⊢
    obtain ⟨e, he, hname⟩ := hn
    exact ⟨e, get?_of_isPrefix (h.1 k) i e he, hname⟩
  | manual i =>
    simp only [Organ.nameOf, Option.map_eq_some'] at hn ⊢
    obtain ⟨m, hm, hname⟩ := hn
    exact ⟨m, get?_of_isPrefix h.2.1 i m hm, hname⟩
  | slot k mi i =>
    simp only [Organ.nameOf, Option.bind_eq_some] at hn ⊢
    obtain ⟨m, hm, hname⟩ := hn
    exact ⟨m, get?_of_isPrefix h.2.1 mi m hm, hname⟩

theorem extends_newOrganFileParser (env : Env) (filePath : String) (organ : Organ) :
    organ.Extends (newOrganFileParser env filePath organ).m_organ := by
  by_cases h : env.hasGroup "/" "Organ" = true
  · rw [newOrganFileParser_of_organ env filePath organ h]
    refine Organ.Extends.trans ?_ (appendOnly_parseOrganSection env _)
    refine ⟨fun _ => List.prefix_refl _, List.prefix_refl _,
      fun t pnl hp => ⟨pnl, ?_, List.prefix_refl _⟩⟩
    cases t <;> exact hp
  · rw [newOrganFileParser_of_no_organ env filePath organ (by simpa using h)]
    exact Organ.Extends.refl _

/-- C27: every loader operation only appends. After `parseOrganSection`, after
`parsePanelElements`, after `createFromSetterElement` and after a whole load, each entity
collection and the division collection of the organ have their contents from before the call as
a prefix, each panel that existed before the call still exists at its position, and its element
list has its contents from before the call as a prefix (same elements, same order, same
bindings); a handle that addressed an entity before the call addresses the same entity after
it. -/
theorem C27_loader_operations_only_append (env : Env) (p : OrganFileParser) (t : Nat)
    (panelId ty filePath : String) (organ : Organ) :
    p.m_organ.Extends (parseOrganSection env p).m_organ ∧
    p.m_organ.Extends (parsePanelElements env p t panelId).m_organ ∧
    p.m_organ.Extends (createFromSetterElement env p t ty).m_organ ∧
    organ.Extends (newOrganFileParser env filePath organ).m_organ ∧
    (∀ o1 o2 : Organ, o1.Extends o2 →
      (∀ k, o1.m_entities k <+: o2.m_entities k) ∧
      o1.m_Manuals <+: o2.m_Manuals ∧
      o1.m_mainPanel.m_guiElements <+: o2.m_mainPanel.m_guiElements ∧
      (∀ j pnl, o1.m_extraPanels.get? j = some pnl →
        ∃ pnl2, o2.m_extraPanels.get? j = some pnl2 ∧
          pnl.m_guiElements <+: pnl2.m_guiElements) ∧
      (∀ r n, o1.nameOf r = some n → o2.nameOf r = some n)) := by
  refine ⟨appendOnly_parseOrganSection env p, appendOnly_parsePanelElements env t panelId p,
    appendOnly_createFromSetterElement env t ty p, extends_newOrganFileParser env filePath organ,
    ?_⟩
  intro o1 o2 h
  refine ⟨h.1, h.2.1, ?_, fun j pnl hj => h.2.2 (j + 1) pnl hj, fun r n hn => h.nameOf r n hn⟩
  obtain ⟨pnl2, h2, hp⟩ := h.2.2 0 o1.m_mainPanel rfl
  have : pnl2 = o2.m_mainPanel := (Option.some.inj h2).symm
  subst this
  exact hp


/-- C27 on `displayedIni`: the load gives the main panel two elements; a setter element of type
PitchLabel created afterwards leaves these two where they were, as a prefix of the new list, and
the enclosure and the division stay in their collections. -/
theorem C27_loader_operations_only_append_witness :
    (newOrganFileParser displayedIni.env "demo.organ"
        emptyOrgan).m_organ.m_mainPanel.m_guiElements <+:
      (createFromSetterElement displayedIni.env
        (newOrganFileParser displayedIni.env "demo.organ" emptyOrgan) 0
        "PitchLabel").m_organ.m_mainPanel.m_guiElements ∧
    (newOrganFileParser displayedIni.env "demo.organ" emptyOrgan).m_organ.m_Manuals <+:
      (parsePanelElements displayedIni.env
        (newOrganFileParser displayedIni.env "demo.organ" emptyOrgan) 0
        "Panel000").m_organ.m_Manuals ∧
    emptyOrgan.Extends (newOrganFileParser displayedIni.env "demo.organ" emptyOrgan).m_organ :=
  ⟨((C27_loader_operations_only_append displayedIni.env
      (newOrganFileParser displayedIni.env "demo.organ" emptyOrgan) 0 "Panel000" "PitchLabel"
      "demo.organ" emptyOrgan).2.2.2.2 _ _
      (C27_loader_operations_only_append displayedIni.env
        (newOrganFileParser displayedIni.env "demo.organ" emptyOrgan) 0 "Panel000" "PitchLabel"
        "demo.organ" emptyOrgan).2.2.1).2.2.1,
    (C27_loader_operations_only_append displayedIni.env
      (newOrganFileParser displayedIni.env "demo.organ" emptyOrgan) 0 "Panel000" "PitchLabel"
      "demo.organ" emptyOrgan).2.1.2.1,
    (C27_loader_operations_only_append displayedIni.env
      (newOrganFileParser displayedIni.env "demo.organ" emptyOrgan) 0 "Panel000" "PitchLabel"
      "demo.organ" emptyOrgan).2.2.2.1⟩

end GoOdf
